import Mathlib

/-!
# Storage bot: connection pool, worker supervisor and event batcher

A shallow embedding of the three program variants of the repository

* `storage_bot.cpp`            (namespace `StorageBot`),
* `storage_bot_improved.cpp`   (namespace `Improved`),
* `storage_bot_optimized.cpp`  (namespace `Optimized`),

and of the configuration header `config.hpp` (namespace `Config`), followed by
theorems about them.

Modelling conventions.

* Every member function that runs under a mutex is one atomic state transformer.
  Calls are sequential: while a call waits on a condition variable no other call
  runs, so a timed wait returns the value its predicate has on entry and an
  untimed wait whose predicate is false never returns (`Outcome.blocks`).
* External collaborators (the ODBC driver, the credential vault, the Telegram
  API) are parameters: `DbEnv`, `SqlEnv`, `BotEnv`, `SourceEnv`.
* A `std::unique_ptr<connection>` is a `Connection` value (`none` for `nullptr`).
* `std::map<string, BotConfig>` is `StdMap BotConfig`, an association list.
* The copy of a `BotConfig` that a launched worker task captures is recorded in
  the field `workerTasks` of the manager state.
* A worker task is followed for a given number of iterations of its receive loop;
  a task that has not left the loop by then is reported as `TaskEnd.running`.
* `stopBot` of the improved and of the optimized variant is given the state of
  the worker task it stops: destroying the future of a task that has not
  returned waits for that task.
* The order in which an `unordered_map` is iterated is a parameter
  (`GroupOrder`); statements about a flush hold for every such order.
* Readings of `steady_clock` are natural numbers of seconds.
* A thread that locks a `std::mutex` it already owns never gets past the lock
  (`Outcome.blocks`).
* The consumer thread of the optimized batcher is followed from one of its
  program points (`Optimized.ConsumerPoint`).
* `std::string::length()` is the number of bytes of the UTF-8 encoding.
-/

namespace BotRepo

/-! ## Shared vocabulary -/

/-- How a call ends: it returns a value, raises an exception, or never returns. -/
inductive Outcome (α : Type) where
  | returns (a : α)
  | throws (what : String)
  | blocks
deriving DecidableEq, Repr

/-- Model of `std::map<std::string, V>`; `entries` lists the key/value pairs. -/
structure StdMap (V : Type) where
  entries : List (String × V)
deriving DecidableEq, Repr

namespace StdMap

variable {V : Type}

/-- The empty map. -/
def empty : StdMap V := ⟨[]⟩

/-- `m.size()`. -/
def size (m : StdMap V) : Nat := m.entries.length

/-- Lookup in the entry list (`m.find(k)`, `none` for `m.end()`). -/
def findIn : List (String × V) → String → Option V
  | [], _ => none
  | (k', v) :: rest, k => if k' = k then some v else findIn rest k

/-- `m.find(k)`: the mapped value, `none` when the iterator is `m.end()`. -/
def find (m : StdMap V) (k : String) : Option V := findIn m.entries k

/-- `m[k] = v` on the entry list: overwrite the entry of `k`, or add one. -/
def assignIn : List (String × V) → String → V → List (String × V)
  | [], k, v => [(k, v)]
  | (k', v') :: rest, k, v =>
      if k' = k then (k, v) :: rest else (k', v') :: assignIn rest k v

/-- `m[k] = v`. -/
def assign (m : StdMap V) (k : String) (v : V) : StdMap V := ⟨assignIn m.entries k v⟩

/-- `m.erase(it)` for the iterator of key `k`, on the entry list. -/
def eraseIn : List (String × V) → String → List (String × V)
  | [], _ => []
  | (k', v') :: rest, k => if k' = k then rest else (k', v') :: eraseIn rest k

/-- `m.erase(m.find(k))`. -/
def erase (m : StdMap V) (k : String) : StdMap V := ⟨eraseIn m.entries k⟩

/-- Representation invariant of a `std::map`: the keys are pairwise distinct. -/
def WF (m : StdMap V) : Prop := (m.entries.map Prod.fst).Nodup

end StdMap

/-- Character class `[a-zA-Z0-9_-]` of the token pattern. -/
def isTokenChar (c : Char) : Bool :=
  ('a' ≤ c && c ≤ 'z') || ('A' ≤ c && c ≤ 'Z') || ('0' ≤ c && c ≤ '9') || c == '_' || c == '-'

/-- Character class `[0-9]` of the token pattern. -/
def isTokenDigit (c : Char) : Bool := '0' ≤ c && c ≤ '9'

/-- The test `regex_match(token, regex("^[0-9]+:[a-zA-Z0-9_-]{35}$"))`: the whole
string is a non-empty run of digits, a colon, and 35 characters of the class.
The run of digits is the longest one, because the next character must be `:`. -/
def regexMatchToken (token : String) : Bool :=
  let digits := token.data.takeWhile isTokenDigit
  let rest := token.data.dropWhile isTokenDigit
  !digits.isEmpty &&
    (match rest with
     | ':' :: tail => tail.length == 35 && tail.all isTokenChar
     | _ => false)

/-- `MAX_ACTIVE_BOTS` (each `BotManager`, and `EnvironmentConfig` in the optimized variant). -/
def MAX_ACTIVE_BOTS : Nat := 50

/-- `MAX_CONCURRENT_TASKS` of `EnvironmentConfig`. -/
def MAX_CONCURRENT_TASKS : Nat := 100

/-- `BATCH_SIZE`. -/
def BATCH_SIZE : Nat := 100

/-- Value of a `std::atomic<long>` holding `x` reduced to 64-bit two's complement. -/
def wrapLong (x : Int) : Int := (x + 2 ^ 63) % 2 ^ 64 - 2 ^ 63

/-- External collaborators of a `BotManager`.
`decrypt` is `encryptor_->decrypt` (`Except.error what` when it throws);
`getMe` is `Bot testBot(token); testBot.getApi().getMe()`: it throws, or returns
a null pointer (`false`) or a user (`true`). -/
structure BotEnv where
  decrypt : String → Except String String
  getMe : String → Except String Bool

/-- One queued event (`struct MessageData`). -/
structure MessageData where
  encryptedToken : String
  userId : Int
  username : String
deriving DecidableEq, Repr

/-! ## Connection pool: shared vocabulary -/

/-- One `nanodbc::connection` object, named by a number. -/
structure Connection where
  id : Nat
deriving DecidableEq, Repr

/-- Data members of `class DatabaseManager` (the same in the three variants). -/
structure DatabaseManager where
  maxPoolSize_ : Nat
  totalConnections_ : Nat
  shutdownFlag_ : Bool
  availableConnections_ : List Connection
deriving DecidableEq, Repr

/-- What the database driver answers during one call into the pool.
`create n` is the outcome of the `n`-th attempt of the call to construct a connection
(and, in `storage_bot.cpp` and `storage_bot_improved.cpp`, to run its set-up
statement); `probe c` is the outcome of the liveness statement `SELECT 1` on `c`
(together with `conn.connected()` where the variant tests it). -/
structure DbEnv where
  create : Nat → Except String Connection
  probe : Connection → Bool

/-- Outcomes of the transaction markers issued by `executeTransaction`:
`some what` when the statement raises. -/
structure SqlEnv where
  beginFails : Option String
  commitFails : Option String
  rollbackFails : Option String

/-- The argument `func` of `executeTransaction`: run on a connection it issues
statements and may raise (`some what`). -/
abbrev Work := Connection → List String × Option String

/-- A pool object before `initializePool` ran. -/
def DatabaseManager.fresh (poolSize : Nat) : DatabaseManager :=
  { maxPoolSize_ := poolSize, totalConnections_ := 0, shutdownFlag_ := false,
    availableConnections_ := [] }

/-- The handler `catch (...) \x7b try \x7b execute(ROLLBACK) \x7d catch (...) \x7b\x7d throw; \x7d`
of `storage_bot.cpp` and `storage_bot_improved.cpp`: a failing rollback is swallowed
and the exception being handled is re-raised. -/
def rollbackAndRethrow (sql : SqlEnv) (what : String) (issued : List String) :
    Outcome Unit × List String :=
  match sql.rollbackFails with
  | some _ => (.throws what, issued ++ ["ROLLBACK TRANSACTION"])
  | none => (.throws what, issued ++ ["ROLLBACK TRANSACTION"])

/-- The `try`/`catch` statement of `executeTransaction` in `storage_bot.cpp` and
`storage_bot_improved.cpp`, run on the acquired connection; the second component
lists the statements issued on it, in order. -/
def transactionBody (sql : SqlEnv) (func : Work) (conn : Connection) :
    Outcome Unit × List String :=
  match sql.beginFails with
  | some what => rollbackAndRethrow sql what ["BEGIN TRANSACTION"]
  | none =>
      match func conn with
      | (stmts, some what) => rollbackAndRethrow sql what ("BEGIN TRANSACTION" :: stmts)
      | (stmts, none) =>
          match sql.commitFails with
          | some what =>
              rollbackAndRethrow sql what ("BEGIN TRANSACTION" :: stmts ++ ["COMMIT TRANSACTION"])
          | none => (.returns (), "BEGIN TRANSACTION" :: stmts ++ ["COMMIT TRANSACTION"])

/-- A work function whose lambda captures state of type `σ` of its caller by
reference: besides issuing statements and possibly raising, it updates that state. -/
abbrev StatefulWork (σ : Type) := Connection → σ → (List String × Option String) × σ

/-- The `try`/`catch` statement of `executeTransaction` (as `transactionBody`) for a
work function that updates caller state: the updates made before a failure stay,
the rollback concerns the database only. -/
def transactionBodyOn {σ : Type} (sql : SqlEnv) (func : StatefulWork σ) (conn : Connection)
    (s : σ) : (Outcome Unit × List String) × σ :=
  match sql.beginFails with
  | some what => (rollbackAndRethrow sql what ["BEGIN TRANSACTION"], s)
  | none =>
      match func conn s with
      | ((stmts, some what), s1) =>
          (rollbackAndRethrow sql what ("BEGIN TRANSACTION" :: stmts), s1)
      | ((stmts, none), s1) =>
          match sql.commitFails with
          | some what =>
              (rollbackAndRethrow sql what
                ("BEGIN TRANSACTION" :: stmts ++ ["COMMIT TRANSACTION"]), s1)
          | none => ((.returns (), "BEGIN TRANSACTION" :: stmts ++ ["COMMIT TRANSACTION"]), s1)

/-- `releaseConnection` of `storage_bot.cpp` and `storage_bot_improved.cpp`
(the two bodies are the same). -/
def releaseConnectionGuarded (env : DbEnv) (p : DatabaseManager) (conn : Option Connection) :
    DatabaseManager :=
  match conn with
  | none => p
  | some c =>
      if p.shutdownFlag_ || !env.probe c then
        if !p.shutdownFlag_ && p.totalConnections_ > 0 then
          { p with totalConnections_ := p.totalConnections_ - 1 }
        else p
      else { p with availableConnections_ := p.availableConnections_ ++ [c] }

/-- `shutdown` of `storage_bot.cpp` and `storage_bot_improved.cpp` (the two bodies are the same). -/
def shutdownReset (p : DatabaseManager) : DatabaseManager :=
  { p with shutdownFlag_ := true, availableConnections_ := [], totalConnections_ := 0 }

/-! ## `storage_bot.cpp`: connection pool -/

namespace StorageBot

/-- `DatabaseManager::createNewConnection`: a failure is re-raised. -/
def createNewConnection (env : DbEnv) (attempt : Nat) (p : DatabaseManager) :
    Except String Connection × DatabaseManager :=
  match env.create attempt with
  | .ok c => (.ok c, { p with totalConnections_ := p.totalConnections_ + 1 })
  | .error what => (.error ("Connection creation failed: " ++ what), p)

/-- `DatabaseManager::getConnection`. With an empty idle queue and the pool at its
maximum the untimed wait ends only under shutdown. -/
def getConnection (env : DbEnv) (p : DatabaseManager) :
    Outcome (Option Connection) × DatabaseManager :=
  match p.availableConnections_ with
  | [] =>
      if p.totalConnections_ < p.maxPoolSize_ then
        match createNewConnection env 0 p with
        | (.ok c, p1) => (.returns (some c), p1)
        | (.error what, p1) => (.throws what, p1)
      else if p.shutdownFlag_ then (.returns none, p)
      else (.blocks, p)
  | c :: rest =>
      if p.shutdownFlag_ then (.returns none, p)
      else (.returns (some c), { p with availableConnections_ := rest })

/-- `DatabaseManager::releaseConnection`. -/
def releaseConnection (env : DbEnv) (p : DatabaseManager) (conn : Option Connection) :
    DatabaseManager :=
  releaseConnectionGuarded env p conn

/-- `DatabaseManager::executeTransaction`: result, pool afterwards, statements issued. -/
def executeTransaction (env : DbEnv) (sql : SqlEnv) (func : Work) (p : DatabaseManager) :
    Outcome Unit × DatabaseManager × List String :=
  match getConnection env p with
  | (.throws what, p1) => (.throws what, p1, [])
  | (.blocks, p1) => (.blocks, p1, [])
  | (.returns none, p1) => (.throws "Database connection unavailable", p1, [])
  | (.returns (some conn), p1) =>
      match transactionBody sql func conn with
      | (.returns (), issued) => (.returns (), releaseConnection env p1 (some conn), issued)
      | (.throws what, issued) => (.throws what, p1, issued)
      | (.blocks, issued) => (.blocks, p1, issued)

/-- `DatabaseManager::executeTransaction` for a work function that updates caller
state: result, pool afterwards, statements issued, caller state afterwards. -/
def executeTransactionOn {σ : Type} (env : DbEnv) (sql : SqlEnv) (func : StatefulWork σ)
    (p : DatabaseManager) (s : σ) : Outcome Unit × DatabaseManager × List String × σ :=
  match getConnection env p with
  | (.throws what, p1) => (.throws what, p1, [], s)
  | (.blocks, p1) => (.blocks, p1, [], s)
  | (.returns none, p1) => (.throws "Database connection unavailable", p1, [], s)
  | (.returns (some conn), p1) =>
      match transactionBodyOn sql func conn s with
      | ((.returns (), issued), s1) =>
          (.returns (), releaseConnection env p1 (some conn), issued, s1)
      | ((.throws what, issued), s1) => (.throws what, p1, issued, s1)
      | ((.blocks, issued), s1) => (.blocks, p1, issued, s1)

/-- `DatabaseManager::shutdown`. -/
def shutdown (p : DatabaseManager) : DatabaseManager := shutdownReset p

/-- `DatabaseManager::initializePool`, from iteration `i` on with `n` iterations left. -/
def initializeFrom (env : DbEnv) : Nat → Nat → DatabaseManager → Except String DatabaseManager
  | 0, _, p => .ok p
  | n + 1, i, p =>
      match createNewConnection env i p with
      | (.ok c, p1) =>
          initializeFrom env n (i + 1)
            { p1 with availableConnections_ := p1.availableConnections_ ++ [c] }
      | (.error what, _) => .error what

/-- `DatabaseManager::initializePool`. -/
def initializePool (env : DbEnv) (p : DatabaseManager) : Except String DatabaseManager :=
  initializeFrom env (min 5 p.maxPoolSize_) 0 p

end StorageBot

/-! ## `storage_bot_improved.cpp`: connection pool -/

namespace Improved

/-- `DatabaseManager::createNewConnection`: a failure yields `nullptr`. -/
def createNewConnection (env : DbEnv) (attempt : Nat) (p : DatabaseManager) :
    Option Connection × DatabaseManager :=
  match env.create attempt with
  | .ok c => (some c, { p with totalConnections_ := p.totalConnections_ + 1 })
  | .error _ => (none, p)

/-- The statement `if (totalConnections_ < maxPoolSize_) \x7b auto conn = createNewConnection(); ... \x7d`. -/
def tryCreate (env : DbEnv) (attempt : Nat) (p : DatabaseManager) :
    Option Connection × DatabaseManager :=
  if p.totalConnections_ < p.maxPoolSize_ then createNewConnection env attempt p else (none, p)

/-- The `for` loop of `DatabaseManager::getConnection` with `remaining` iterations
left, `attempts` being the loop counter. With an empty idle queue the timed wait
returns `true` at once under shutdown (then `nullptr` is returned) and times out
otherwise (`continue`). -/
def getConnectionLoop (env : DbEnv) :
    Nat → Nat → DatabaseManager → Outcome (Option Connection) × DatabaseManager
  | 0, _, p => (.throws "Failed to get valid database connection after 3 attempts", p)
  | remaining + 1, attempts, p =>
      match p.availableConnections_ with
      | [] =>
          match tryCreate env attempts p with
          | (some c, p1) => (.returns (some c), p1)
          | (none, p1) =>
              if p1.shutdownFlag_ then (.returns none, p1)
              else getConnectionLoop env remaining (attempts + 1) p1
      | c :: rest =>
          if p.shutdownFlag_ then (.returns none, p)
          else if env.probe c then (.returns (some c), { p with availableConnections_ := rest })
          else
            getConnectionLoop env remaining (attempts + 1)
              { p with
                availableConnections_ := rest
                totalConnections_ :=
                  if p.totalConnections_ > 0 then p.totalConnections_ - 1
                  else p.totalConnections_ }

/-- `DatabaseManager::getConnection`. -/
def getConnection (env : DbEnv) (p : DatabaseManager) :
    Outcome (Option Connection) × DatabaseManager :=
  getConnectionLoop env 3 0 p

/-- `DatabaseManager::releaseConnection`. -/
def releaseConnection (env : DbEnv) (p : DatabaseManager) (conn : Option Connection) :
    DatabaseManager :=
  releaseConnectionGuarded env p conn

/-- `DatabaseManager::executeTransaction`: result, pool afterwards, statements issued. -/
def executeTransaction (env : DbEnv) (sql : SqlEnv) (func : Work) (p : DatabaseManager) :
    Outcome Unit × DatabaseManager × List String :=
  match getConnection env p with
  | (.throws what, p1) => (.throws what, p1, [])
  | (.blocks, p1) => (.blocks, p1, [])
  | (.returns none, p1) => (.throws "Database connection unavailable", p1, [])
  | (.returns (some conn), p1) =>
      match transactionBody sql func conn with
      | (.returns (), issued) => (.returns (), releaseConnection env p1 (some conn), issued)
      | (.throws what, issued) => (.throws what, p1, issued)
      | (.blocks, issued) => (.blocks, p1, issued)

/-- `DatabaseManager::shutdown`. -/
def shutdown (p : DatabaseManager) : DatabaseManager := shutdownReset p

/-- `DatabaseManager::initializePool`, from iteration `i` on with `n` iterations left. -/
def initializeFrom (env : DbEnv) : Nat → Nat → DatabaseManager → DatabaseManager
  | 0, _, p => p
  | n + 1, i, p =>
      match createNewConnection env i p with
      | (some c, p1) =>
          initializeFrom env n (i + 1)
            { p1 with availableConnections_ := p1.availableConnections_ ++ [c] }
      | (none, p1) => initializeFrom env n (i + 1) p1

/-- `DatabaseManager::initializePool`. -/
def initializePool (env : DbEnv) (p : DatabaseManager) : DatabaseManager :=
  initializeFrom env (min 5 p.maxPoolSize_) 0 p

/-- A client-side call on the pool: `getConnection()`, or `releaseConnection(c)`;
each carries the driver's answers during the call. -/
inductive PoolCall where
  | get (env : DbEnv)
  | release (c : Connection) (env : DbEnv)

/-- The pool together with the connections handed out and not yet given back. -/
structure PoolRun where
  pool : DatabaseManager
  checkedOut : List Connection
deriving DecidableEq, Repr

/-- One call. A `release` of a connection that is not checked out is not a call
of a well-formed client (`none`). -/
def PoolRun.call (s : PoolRun) : PoolCall → Option PoolRun
  | .get env =>
      match getConnection env s.pool with
      | (.returns (some c), p) => some { pool := p, checkedOut := c :: s.checkedOut }
      | (_, p) => some { pool := p, checkedOut := s.checkedOut }
  | .release c env =>
      if c ∈ s.checkedOut then
        some { pool := releaseConnection env s.pool (some c), checkedOut := s.checkedOut.erase c }
      else none

/-- A finite sequence of calls, in order. -/
def PoolRun.calls (s : PoolRun) : List PoolCall → Option PoolRun
  | [] => some s
  | op :: ops =>
      match s.call op with
      | some s1 => s1.calls ops
      | none => none

/-- The pool right after its constructor: `initializePool` on a fresh object. -/
def PoolRun.start (env : DbEnv) (poolSize : Nat) : PoolRun :=
  { pool := initializePool env (DatabaseManager.fresh poolSize), checkedOut := [] }

end Improved

/-! ## `storage_bot_optimized.cpp`: connection pool -/

namespace Optimized

/-- The operation `totalConnections_--` on `atomic<size_t>`: it wraps at zero. -/
def decSize (n : Nat) : Nat := if n = 0 then 2 ^ 64 - 1 else n - 1

/-- `DatabaseManager::createNewConnection`: the new connection is counted only if it
passes the liveness probe; every failure yields `nullptr`. -/
def createNewConnection (env : DbEnv) (attempt : Nat) (p : DatabaseManager) :
    Option Connection × DatabaseManager :=
  match env.create attempt with
  | .ok c =>
      if env.probe c then (some c, { p with totalConnections_ := p.totalConnections_ + 1 })
      else (none, p)
  | .error _ => (none, p)

/-- The statement `if (totalConnections_ < maxPoolSize_) \x7b auto conn = createNewConnection(); ... \x7d`. -/
def tryCreate (env : DbEnv) (attempt : Nat) (p : DatabaseManager) :
    Option Connection × DatabaseManager :=
  if p.totalConnections_ < p.maxPoolSize_ then createNewConnection env attempt p else (none, p)

/-- The `for` loop of `DatabaseManager::getConnection` with `remaining` iterations
left; no path of it returns `nullptr`. With an empty idle queue the timed wait
either times out (`continue`) or, under shutdown, returns `true` and the following
`if` finds the queue still empty: the next iteration starts in both cases. -/
def getConnectionLoop (env : DbEnv) :
    Nat → Nat → DatabaseManager → Outcome Connection × DatabaseManager
  | 0, _, p => (.throws "فشل في الحصول على اتصال قاعدة البيانات", p)
  | remaining + 1, attempts, p =>
      match p.availableConnections_ with
      | [] =>
          match tryCreate env attempts p with
          | (some c, p1) => (.returns c, p1)
          | (none, p1) => getConnectionLoop env remaining (attempts + 1) p1
      | c :: rest =>
          if env.probe c then (.returns c, { p with availableConnections_ := rest })
          else
            getConnectionLoop env remaining (attempts + 1)
              { p with
                availableConnections_ := rest
                totalConnections_ := decSize p.totalConnections_ }

/-- `RETRY_ATTEMPTS` of `EnvironmentConfig`. -/
def RETRY_ATTEMPTS : Nat := 3

/-- `DatabaseManager::getConnection`. -/
def getConnection (env : DbEnv) (p : DatabaseManager) : Outcome Connection × DatabaseManager :=
  getConnectionLoop env RETRY_ATTEMPTS 0 p

/-- `DatabaseManager::releaseConnection`. -/
def releaseConnection (env : DbEnv) (p : DatabaseManager) (conn : Option Connection) :
    DatabaseManager :=
  match conn with
  | none => p
  | some c =>
      if !p.shutdownFlag_ && env.probe c then
        { p with availableConnections_ := p.availableConnections_ ++ [c] }
      else { p with totalConnections_ := decSize p.totalConnections_ }

/-- The handler `catch (...) \x7b conn->rollback(); throw; \x7d`: a failing rollback
replaces the exception being handled. -/
def rollbackAndRethrow (sql : SqlEnv) (what : String) (issued : List String) :
    Outcome Unit × List String :=
  match sql.rollbackFails with
  | some what2 => (.throws what2, issued ++ ["rollback"])
  | none => (.throws what, issued ++ ["rollback"])

/-- The `try`/`catch` statement of `executeTransaction`; the markers `conn->begin()`,
`conn->commit()` and `conn->rollback()` are logged as `begin`, `commit`, `rollback`. -/
def transactionBody (sql : SqlEnv) (func : Work) (conn : Connection) :
    Outcome Unit × List String :=
  match sql.beginFails with
  | some what => rollbackAndRethrow sql what ["begin"]
  | none =>
      match func conn with
      | (stmts, some what) => rollbackAndRethrow sql what ("begin" :: stmts)
      | (stmts, none) =>
          match sql.commitFails with
          | some what => rollbackAndRethrow sql what ("begin" :: stmts ++ ["commit"])
          | none => (.returns (), "begin" :: stmts ++ ["commit"])

/-- `DatabaseManager::executeTransaction`: result, pool afterwards, statements issued. -/
def executeTransaction (env : DbEnv) (sql : SqlEnv) (func : Work) (p : DatabaseManager) :
    Outcome Unit × DatabaseManager × List String :=
  match getConnection env p with
  | (.throws what, p1) => (.throws what, p1, [])
  | (.blocks, p1) => (.blocks, p1, [])
  | (.returns conn, p1) =>
      match transactionBody sql func conn with
      | (.returns (), issued) => (.returns (), releaseConnection env p1 (some conn), issued)
      | (.throws what, issued) => (.throws what, p1, issued)
      | (.blocks, issued) => (.blocks, p1, issued)

/-- `DatabaseManager::shutdown`: the live count is left as it is. -/
def shutdown (p : DatabaseManager) : DatabaseManager :=
  { p with shutdownFlag_ := true, availableConnections_ := [] }

/-- `DatabaseManager::initializePool`, from iteration `i` on with `n` iterations left. -/
def initializeFrom (env : DbEnv) : Nat → Nat → DatabaseManager → DatabaseManager
  | 0, _, p => p
  | n + 1, i, p =>
      match createNewConnection env i p with
      | (some c, p1) =>
          initializeFrom env n (i + 1)
            { p1 with availableConnections_ := p1.availableConnections_ ++ [c] }
      | (none, p1) => initializeFrom env n (i + 1) p1

/-- `DatabaseManager::initializePool`. -/
def initializePool (env : DbEnv) (p : DatabaseManager) : DatabaseManager :=
  initializeFrom env (min 5 p.maxPoolSize_) 0 p

end Optimized

/-! ## Worker tasks: shared vocabulary -/

/-- What the external message source answers to one worker task.
`attach token` is the failure, if any, raised while the task builds its `Bot`,
installs the handlers and creates the poller or webhook object; `poll n` is the
failure, if any, raised by the `n`-th call of `longPoll.start()` or
`webhook.start()`; `detach` is the failure, if any, of `webhook.stop()`. The
handlers that run inside a poll are modelled by their own functions. -/
structure SourceEnv where
  attach : String → Option String
  poll : Nat → Option String
  detach : Option String

/-- How far a worker task got: it left at the failed decryption, at the malformed
token, through the outer `catch` (`crashed`), by the normal end of
`runBotInstance` (`completed`), or it is still in its receive loop after the
iterations considered (`running`). -/
inductive TaskEnd where
  | decryptFailed (what : String)
  | invalidToken
  | crashed (what : String)
  | completed
  | running
deriving DecidableEq, Repr

/-- The order in which a range-`for` visits the entries of the `unordered_map`
`botUsers` of `processBatchInTransaction`, given as the rearrangement of the
list of groups. The language leaves this order unspecified. -/
abbrev GroupOrder :=
  List (String × List (Int × String)) → List (String × List (Int × String))

namespace StorageBot

/-- Data members of `struct BotConfig` in `storage_bot.cpp`. -/
structure BotConfig where
  token : String
  name : String
  username : String
  encryptedToken : String
  storedUsers : Int
  totalUsers : Int
  isActive : Bool
deriving DecidableEq, Repr

/-- State of `BotManager`: the registry, the configs captured by detached worker
threads, the event buffer `messageBatch_` (a circular buffer of capacity
`BATCH_SIZE`) and the clock reading `lastBatchTime_`. -/
structure BotManager where
  activeBots_ : StdMap BotConfig
  workerTasks : List BotConfig
  messageBatch_ : List MessageData
  lastBatchTime_ : Nat
deriving DecidableEq, Repr

/-- `BotManager::startBot` of `storage_bot.cpp` (returns `void`, may throw). -/
def BotManager.startBot (bm : BotManager) (config : BotConfig) : Outcome Unit × BotManager :=
  if bm.activeBots_.size ≥ MAX_ACTIVE_BOTS then
    (.throws "Maximum active bots reached", bm)
  else if (bm.activeBots_.find config.encryptedToken).isSome then
    (.throws "Bot already active", bm)
  else
    (.returns (),
      { bm with
        activeBots_ := bm.activeBots_.assign config.encryptedToken { config with isActive := true }
        workerTasks := bm.workerTasks ++ [config] })

/-- `BotManager::isBotActive`. -/
def BotManager.isBotActive (bm : BotManager) (encryptedToken : String) : Bool :=
  (bm.activeBots_.find encryptedToken).isSome

/-- `BotManager::isBotPaused`. -/
def BotManager.isBotPaused (bm : BotManager) (encryptedToken : String) : Bool :=
  match bm.activeBots_.find encryptedToken with
  | some record => !record.isActive
  | none => false

/-- The `while (isBotActive(...))` loop of `runBotInstance` for `fuel` iterations,
`polls` being the number of `longPoll.start()` calls made so far. A failure of
`longPoll.start()` is caught inside the loop, which goes on. -/
def receiveLoop (src : SourceEnv) (bm : BotManager) (encryptedToken : String) :
    Nat → Nat → TaskEnd
  | 0, _ => .running
  | fuel + 1, polls =>
      if !bm.isBotActive encryptedToken then .completed
      else if bm.isBotPaused encryptedToken then receiveLoop src bm encryptedToken fuel polls
      else
        match src.poll polls with
        | some _ => receiveLoop src bm encryptedToken fuel (polls + 1)
        | none => receiveLoop src bm encryptedToken fuel (polls + 1)

/-- `BotManager::runBotInstance`, its receive loop followed for `fuel` iterations:
how the task ends and the manager afterwards. No statement of the function
writes to the manager, and every failure is caught inside it. -/
def BotManager.runBotInstance (env : BotEnv) (src : SourceEnv) (fuel : Nat) (bm : BotManager)
    (config : BotConfig) : Outcome TaskEnd × BotManager :=
  match env.decrypt config.encryptedToken with
  | .error what => (.returns (.decryptFailed what), bm)
  | .ok token =>
      if !regexMatchToken token then (.returns .invalidToken, bm)
      else
        match src.attach token with
        | some what => (.returns (.crashed what), bm)
        | none => (.returns (receiveLoop src bm config.encryptedToken fuel 0), bm)

/-- The grouping loop of `processBatchInTransaction`: append the event to the group
of its worker, adding the group at the end when the worker is new. -/
def addToGroup :
    List (String × List (Int × String)) → MessageData → List (String × List (Int × String))
  | [], msg => [(msg.encryptedToken, [(msg.userId, msg.username)])]
  | (k, users) :: groups, msg =>
      if k = msg.encryptedToken then (k, users ++ [(msg.userId, msg.username)]) :: groups
      else (k, users) :: addToGroup groups msg

/-- The map `botUsers` built by `processBatchInTransaction`, its groups listed by
first occurrence. The order in which the map is iterated is a `GroupOrder`. -/
def groupByBot (batch : List MessageData) : List (String × List (Int × String)) :=
  batch.foldl addToGroup []

/-- The `for` loop of `BotManager::updateUserRecords`: one upsert per user of the
group; the first failing statement ends the loop and is raised. -/
def updateUserRecords (upsertFails : MessageData → Option String) (botToken : String) :
    List (Int × String) → List String × Option String
  | [] => ([], none)
  | (userId, username) :: users =>
      match upsertFails ⟨botToken, userId, username⟩ with
      | some what => (["MERGE INTO users"], some what)
      | none =>
          match updateUserRecords upsertFails botToken users with
          | (stmts, failure) => ("MERGE INTO users" :: stmts, failure)

/-- `BotManager::updateBotStats`: both counters of a registered worker grow by `newUsers`. -/
def updateBotStats (bots : StdMap BotConfig) (encryptedToken : String) (newUsers : Nat) :
    StdMap BotConfig :=
  match bots.find encryptedToken with
  | some record =>
      bots.assign encryptedToken
        { record with
          storedUsers := wrapLong (record.storedUsers + newUsers)
          totalUsers := wrapLong (record.totalUsers + newUsers) }
  | none => bots

/-- The second `for` loop of `processBatchInTransaction` on the groups in the order
in which they are visited: per group the upserts, then `updateBotStats`; a
failing upsert leaves the loop at once. -/
def processGroups (upsertFails : MessageData → Option String) :
    List (String × List (Int × String)) → StdMap BotConfig →
      (List String × Option String) × StdMap BotConfig
  | [], bots => (([], none), bots)
  | (botToken, users) :: groups, bots =>
      match updateUserRecords upsertFails botToken users with
      | (stmts, some what) => ((stmts, some what), bots)
      | (stmts, none) =>
          match processGroups upsertFails groups (updateBotStats bots botToken users.length) with
          | ((more, failure), bots1) => ((stmts ++ more, failure), bots1)

/-- `BotManager::processBatchInTransaction` as the work of a transaction; the state
it updates is the registry. The groups are visited in the order `visit`. -/
def processBatchInTransaction (upsertFails : MessageData → Option String)
    (visit : GroupOrder) (batch : List MessageData) : StatefulWork (StdMap BotConfig) :=
  fun _ bots => processGroups upsertFails (visit (groupByBot batch)) bots

/-- `BotManager::processBatch`, entered with `batchMutex_` free; `now` is the clock
reading. An exception of the transaction is caught and logged. Yields the
result, the manager, the pool and the statements issued. -/
def BotManager.processBatch (env : DbEnv) (sql : SqlEnv)
    (upsertFails : MessageData → Option String) (visit : GroupOrder) (now : Nat)
    (bm : BotManager) (db : DatabaseManager) :
    Outcome Unit × BotManager × DatabaseManager × List String :=
  if bm.messageBatch_.isEmpty then (.returns (), bm, db, [])
  else
    match executeTransactionOn env sql
        (processBatchInTransaction upsertFails visit bm.messageBatch_) db bm.activeBots_ with
    | (.blocks, db1, issued, bots) =>
        (.blocks, { bm with messageBatch_ := [], lastBatchTime_ := now, activeBots_ := bots },
          db1, issued)
    | (_, db1, issued, bots) =>
        (.returns (), { bm with messageBatch_ := [], lastBatchTime_ := now, activeBots_ := bots },
          db1, issued)

/-- A call `processBatch()` made by a thread; `holdsBatchMutex` tells whether that
thread owns `batchMutex_` at the call. The first statement of `processBatch`
locks `batchMutex_`, a non-recursive `std::mutex`: a thread that owns it already
never gets past that statement. -/
def BotManager.callProcessBatch (holdsBatchMutex : Bool) (env : DbEnv) (sql : SqlEnv)
    (upsertFails : MessageData → Option String) (visit : GroupOrder) (now : Nat)
    (bm : BotManager) (db : DatabaseManager) :
    Outcome Unit × BotManager × DatabaseManager × List String :=
  if holdsBatchMutex then (.blocks, bm, db, [])
  else bm.processBatch env sql upsertFails visit now db

/-- The operation `messageBatch_.push_back(msg)` on the circular buffer of capacity
`BATCH_SIZE`: a full buffer loses its oldest event. -/
def circularPush (buffer : List MessageData) (msg : MessageData) : List MessageData :=
  if buffer.length ≥ BATCH_SIZE then buffer.drop 1 ++ [msg] else buffer ++ [msg]

/-- `BotManager::processUserMessage`; `now` is the clock reading in seconds. Its
`lock_guard` on `batchMutex_` is held from the first statement to the return,
so both calls of `processBatch` are made by a thread that owns the mutex. -/
def BotManager.processUserMessage (env : DbEnv) (sql : SqlEnv)
    (upsertFails : MessageData → Option String) (visit : GroupOrder) (now : Nat)
    (bm : BotManager) (db : DatabaseManager) (msg : MessageData) :
    Outcome Unit × BotManager × DatabaseManager × List String :=
  let first : Outcome Unit × BotManager × DatabaseManager × List String :=
    if bm.messageBatch_.length ≥ BATCH_SIZE then
      bm.callProcessBatch true env sql upsertFails visit now db
    else (.returns (), bm, db, [])
  match first with
  | (.returns (), bm1, db1, issued1) =>
      let bm2 := { bm1 with messageBatch_ := circularPush bm1.messageBatch_ msg }
      if bm2.lastBatchTime_ + 5 < now then
        match bm2.callProcessBatch true env sql upsertFails visit now db1 with
        | (r, bm3, db3, issued3) => (r, bm3, db3, issued1 ++ issued3)
      else (.returns (), bm2, db1, issued1)
  | other => other

/-- Successive `processUserMessage` calls, one per event, all at the clock reading
`now`; a call that does not return ends the run. -/
def BotManager.submitAll (env : DbEnv) (sql : SqlEnv)
    (upsertFails : MessageData → Option String) (visit : GroupOrder) (now : Nat) :
    List MessageData → BotManager → DatabaseManager →
      Outcome Unit × BotManager × DatabaseManager × List String
  | [], bm, db => (.returns (), bm, db, [])
  | msg :: rest, bm, db =>
      match bm.processUserMessage env sql upsertFails visit now db msg with
      | (.returns (), bm1, db1, issued) =>
          match submitAll env sql upsertFails visit now rest bm1 db1 with
          | (r, bm2, db2, more) => (r, bm2, db2, issued ++ more)
      | other => other

end StorageBot

/-! ## `storage_bot_improved.cpp`: worker supervisor -/

namespace Improved

/-- Data members of `struct BotConfig` in `storage_bot_improved.cpp` (the task handle
`botThread` is represented by the entry of `workerTasks`). -/
structure BotConfig where
  token : String
  name : String
  username : String
  encryptedToken : String
  storedUsers : Int
  totalUsers : Int
  isActive : Bool
  isRunning : Bool
deriving DecidableEq, Repr

/-- State of `BotManager`: the registry and the configs captured by launched worker tasks. -/
structure BotManager where
  activeBots_ : StdMap BotConfig
  workerTasks : List BotConfig
deriving DecidableEq, Repr

/-- The `try` block of `startBot` that decrypts and checks the token; every failure
is re-raised as `runtime_error("Invalid encrypted token: " + what)`. -/
def checkToken (env : BotEnv) (config : BotConfig) : Except String String :=
  match env.decrypt config.encryptedToken with
  | .error what => .error ("Invalid encrypted token: " ++ what)
  | .ok token =>
      if regexMatchToken token then .ok token
      else .error ("Invalid encrypted token: " ++ "Invalid token format")

/-- `BotManager::startBot` of `storage_bot_improved.cpp`. -/
def BotManager.startBot (env : BotEnv) (bm : BotManager) (config : BotConfig) :
    Outcome Bool × BotManager :=
  if bm.activeBots_.size ≥ MAX_ACTIVE_BOTS then
    (.throws "Maximum active bots reached", bm)
  else if (bm.activeBots_.find config.encryptedToken).isSome then
    (.throws "Bot already active", bm)
  else
    match checkToken env config with
    | .error what => (.throws what, bm)
    | .ok _ =>
        let botConfig := { config with isRunning := true }
        (.returns true,
          { activeBots_ := bm.activeBots_.assign config.encryptedToken botConfig,
            workerTasks := bm.workerTasks ++ [botConfig] })

/-- `BotManager::stopBot`. A record of the registry was stored by `startBot` and
owns `botThread`, the future that `std::async` gave for its task. The record is
marked (`isRunning`, `isActive` cleared) and, with `botsMutex_` released, the
task is given up to five seconds to end; `task` is how far the task has got
when `botsMutex_` is locked again, `TaskEnd.running` standing for a task that
has not returned from `runBotInstance`. Then `activeBots_.erase(it)` destroys
the future, which waits for its task: with a task that has not returned the
call stays there and holds `botsMutex_`, which that task needs for its next
loop test `isBotRunning`. -/
def BotManager.stopBot (bm : BotManager) (task : TaskEnd) (encryptedToken : String) :
    Outcome Bool × BotManager :=
  match bm.activeBots_.find encryptedToken with
  | none => (.returns false, bm)
  | some record =>
      let marked :=
        bm.activeBots_.assign encryptedToken { record with isRunning := false, isActive := false }
      match task with
      | .running => (.blocks, { bm with activeBots_ := marked })
      | _ => (.returns true, { bm with activeBots_ := marked.erase encryptedToken })

/-- `BotManager::pauseBot`. -/
def BotManager.pauseBot (bm : BotManager) (encryptedToken : String) : Bool × BotManager :=
  match bm.activeBots_.find encryptedToken with
  | some record =>
      (true,
        { bm with
          activeBots_ := bm.activeBots_.assign encryptedToken { record with isActive := false } })
  | none => (false, bm)

/-- `BotManager::resumeBot`. -/
def BotManager.resumeBot (bm : BotManager) (encryptedToken : String) : Bool × BotManager :=
  match bm.activeBots_.find encryptedToken with
  | some record =>
      (true,
        { bm with
          activeBots_ := bm.activeBots_.assign encryptedToken { record with isActive := true } })
  | none => (false, bm)

/-- `BotManager::isBotRunning`. -/
def BotManager.isBotRunning (bm : BotManager) (encryptedToken : String) : Bool :=
  match bm.activeBots_.find encryptedToken with
  | some record => record.isRunning
  | none => false

/-- `BotManager::isBotPaused`. -/
def BotManager.isBotPaused (bm : BotManager) (encryptedToken : String) : Bool :=
  match bm.activeBots_.find encryptedToken with
  | some record => !record.isActive
  | none => false

/-- The `while (isBotRunning(...))` loop of `runBotInstance` for `fuel` iterations,
`polls` being the number of `webhook.start()` calls made so far. A failure of
`webhook.start()` is caught inside the loop, which goes on. -/
def receiveLoop (src : SourceEnv) (bm : BotManager) (encryptedToken : String) :
    Nat → Nat → TaskEnd
  | 0, _ => .running
  | fuel + 1, polls =>
      if !bm.isBotRunning encryptedToken then
        (match src.detach with
         | some what => .crashed what
         | none => .completed)
      else if bm.isBotPaused encryptedToken then receiveLoop src bm encryptedToken fuel polls
      else
        match src.poll polls with
        | some _ => receiveLoop src bm encryptedToken fuel (polls + 1)
        | none => receiveLoop src bm encryptedToken fuel (polls + 1)

/-- `BotManager::runBotInstance`, its receive loop followed for `fuel` iterations:
how the task ends and the manager afterwards. A failed decryption, a failed
attachment and a failed `webhook.stop()` all leave through the outer `catch`.
No statement of the function writes to the manager. -/
def BotManager.runBotInstance (env : BotEnv) (src : SourceEnv) (fuel : Nat) (bm : BotManager)
    (config : BotConfig) : Outcome TaskEnd × BotManager :=
  match env.decrypt config.encryptedToken with
  | .error what => (.returns (.crashed what), bm)
  | .ok token =>
      match src.attach token with
      | some what => (.returns (.crashed what), bm)
      | none => (.returns (receiveLoop src bm config.encryptedToken fuel 0), bm)

/-- The members `messageBatch_` and `lastBatchTime_` of `BotManager`, which
`batchMutex_` guards (the registry members are guarded by `botsMutex_`). -/
structure BatchBuffer where
  messageBatch_ : List MessageData
  lastBatchTime_ : Nat
deriving DecidableEq, Repr

/-- `DatabaseManager::executeTransaction` for a work function that updates caller
state: result, pool afterwards, statements issued, caller state afterwards. -/
def executeTransactionOn {σ : Type} (env : DbEnv) (sql : SqlEnv) (func : StatefulWork σ)
    (p : DatabaseManager) (s : σ) : Outcome Unit × DatabaseManager × List String × σ :=
  match getConnection env p with
  | (.throws what, p1) => (.throws what, p1, [], s)
  | (.blocks, p1) => (.blocks, p1, [], s)
  | (.returns none, p1) => (.throws "Database connection unavailable", p1, [], s)
  | (.returns (some conn), p1) =>
      match transactionBodyOn sql func conn s with
      | ((.returns (), issued), s1) =>
          (.returns (), releaseConnection env p1 (some conn), issued, s1)
      | ((.throws what, issued), s1) => (.throws what, p1, issued, s1)
      | ((.blocks, issued), s1) => (.blocks, p1, issued, s1)

/-- `BotManager::updateBotStats`: both counters of a registered worker grow by `newUsers`. -/
def updateBotStats (bots : StdMap BotConfig) (encryptedToken : String) (newUsers : Nat) :
    StdMap BotConfig :=
  match bots.find encryptedToken with
  | some record =>
      bots.assign encryptedToken
        { record with
          storedUsers := wrapLong (record.storedUsers + newUsers)
          totalUsers := wrapLong (record.totalUsers + newUsers) }
  | none => bots

/-- The second `for` loop of `processBatchInTransaction` on the groups in the order
in which they are visited: per group the upserts (`updateUserRecords`, the same
code as in `storage_bot.cpp`), then `updateBotStats`; a failing upsert leaves
the loop at once. -/
def processGroups (upsertFails : MessageData → Option String) :
    List (String × List (Int × String)) → StdMap BotConfig →
      (List String × Option String) × StdMap BotConfig
  | [], bots => (([], none), bots)
  | (botToken, users) :: groups, bots =>
      match StorageBot.updateUserRecords upsertFails botToken users with
      | (stmts, some what) => ((stmts, some what), bots)
      | (stmts, none) =>
          match processGroups upsertFails groups (updateBotStats bots botToken users.length) with
          | ((more, failure), bots1) => ((stmts ++ more, failure), bots1)

/-- `BotManager::processBatchInTransaction` as the work of a transaction (its
grouping loop is the one of `storage_bot.cpp`); the state it updates is the
registry. The groups are visited in the order `visit`. -/
def processBatchInTransaction (upsertFails : MessageData → Option String)
    (visit : GroupOrder) (batch : List MessageData) : StatefulWork (StdMap BotConfig) :=
  fun _ bots => processGroups upsertFails (visit (StorageBot.groupByBot batch)) bots

/-- `BotManager::processBatch`, entered with `batchMutex_` free; `now` is the clock
reading. An exception of the transaction is caught and logged. Yields the
result, the manager, the buffer, the pool and the statements issued. -/
def BotManager.processBatch (env : DbEnv) (sql : SqlEnv)
    (upsertFails : MessageData → Option String) (visit : GroupOrder) (now : Nat)
    (bm : BotManager) (buffer : BatchBuffer) (db : DatabaseManager) :
    Outcome Unit × BotManager × BatchBuffer × DatabaseManager × List String :=
  if buffer.messageBatch_.isEmpty then (.returns (), bm, buffer, db, [])
  else
    match executeTransactionOn env sql
        (processBatchInTransaction upsertFails visit buffer.messageBatch_) db
        bm.activeBots_ with
    | (.blocks, db1, issued, bots) =>
        (.blocks, { bm with activeBots_ := bots },
          { messageBatch_ := [], lastBatchTime_ := now }, db1, issued)
    | (_, db1, issued, bots) =>
        (.returns (), { bm with activeBots_ := bots },
          { messageBatch_ := [], lastBatchTime_ := now }, db1, issued)

/-- A call `processBatch()` made by a thread; `holdsBatchMutex` tells whether that
thread owns `batchMutex_` at the call. The first statement of `processBatch`
locks `batchMutex_`, a non-recursive `std::mutex`: a thread that owns it already
never gets past that statement. -/
def BotManager.callProcessBatch (holdsBatchMutex : Bool) (env : DbEnv) (sql : SqlEnv)
    (upsertFails : MessageData → Option String) (visit : GroupOrder) (now : Nat)
    (bm : BotManager) (buffer : BatchBuffer) (db : DatabaseManager) :
    Outcome Unit × BotManager × BatchBuffer × DatabaseManager × List String :=
  if holdsBatchMutex then (.blocks, bm, buffer, db, [])
  else bm.processBatch env sql upsertFails visit now buffer db

/-- `BotManager::processUserMessage`; `now` is the clock reading in seconds. Its
`lock_guard` on `batchMutex_` is held from the first statement to the return,
so both calls of `processBatch` are made by a thread that owns the mutex. -/
def BotManager.processUserMessage (env : DbEnv) (sql : SqlEnv)
    (upsertFails : MessageData → Option String) (visit : GroupOrder) (now : Nat)
    (bm : BotManager) (buffer : BatchBuffer) (db : DatabaseManager) (msg : MessageData) :
    Outcome Unit × BotManager × BatchBuffer × DatabaseManager × List String :=
  let first : Outcome Unit × BotManager × BatchBuffer × DatabaseManager × List String :=
    if buffer.messageBatch_.length ≥ BATCH_SIZE then
      bm.callProcessBatch true env sql upsertFails visit now buffer db
    else (.returns (), bm, buffer, db, [])
  match first with
  | (.returns (), bm1, buffer1, db1, issued1) =>
      let buffer2 := { buffer1 with messageBatch_ := buffer1.messageBatch_ ++ [msg] }
      if buffer2.lastBatchTime_ + 5 < now then
        match bm1.callProcessBatch true env sql upsertFails visit now buffer2 db1 with
        | (r, bm3, buffer3, db3, issued3) => (r, bm3, buffer3, db3, issued1 ++ issued3)
      else (.returns (), bm1, buffer2, db1, issued1)
  | other => other

/-- Successive `processUserMessage` calls, one per event, all at the clock reading
`now`; a call that does not return ends the run. -/
def BotManager.submitAll (env : DbEnv) (sql : SqlEnv)
    (upsertFails : MessageData → Option String) (visit : GroupOrder) (now : Nat) :
    List MessageData → BotManager → BatchBuffer → DatabaseManager →
      Outcome Unit × BotManager × BatchBuffer × DatabaseManager × List String
  | [], bm, buffer, db => (.returns (), bm, buffer, db, [])
  | msg :: rest, bm, buffer, db =>
      match bm.processUserMessage env sql upsertFails visit now buffer db msg with
      | (.returns (), bm1, buffer1, db1, issued) =>
          match submitAll env sql upsertFails visit now rest bm1 buffer1 db1 with
          | (r, bm2, buffer2, db2, more) => (r, bm2, buffer2, db2, issued ++ more)
      | other => other

end Improved

/-! ## `storage_bot_optimized.cpp`: worker supervisor -/

namespace Optimized

/-- Data members of `struct BotConfig` in `storage_bot_optimized.cpp` (the task handle,
the shutdown promise and the start barrier are synchronisation objects and carry no data). -/
structure BotConfig where
  token : String
  name : String
  username : String
  encryptedToken : String
  storedUsers : Int
  totalUsers : Int
  isActive : Bool
  isRunning : Bool
  isInitialized : Bool
  maxConcurrentUsers : Nat
  messageQueueSize : Nat
  processingTimeout : Nat
deriving DecidableEq, Repr

/-- State of `BotManager`: registry, configs captured by launched worker tasks, the
event queue, the free permits of `taskSemaphore_` and the shutdown flag. -/
structure BotManager where
  activeBots_ : StdMap BotConfig
  workerTasks : List BotConfig
  messageQueue_ : List MessageData
  taskSemaphore_ : Nat
  shutdownFlag_ : Bool
deriving DecidableEq, Repr

/-- `BotManager::startBot` of `storage_bot_optimized.cpp`. The rendezvous on
`initBarrier` completes on every path of the worker task, so the call returns. -/
def BotManager.startBot (env : BotEnv) (bm : BotManager) (config : BotConfig) :
    Bool × BotManager :=
  if bm.activeBots_.size ≥ MAX_ACTIVE_BOTS then (false, bm)
  else
    match env.decrypt config.encryptedToken with
    | .error _ => (false, bm)
    | .ok token =>
        match env.getMe token with
        | .error _ => (false, bm)
        | .ok false => (false, bm)
        | .ok true =>
            let botConfig := config
            (true,
              { bm with
                workerTasks := bm.workerTasks ++ [botConfig]
                activeBots_ := bm.activeBots_.assign config.encryptedToken botConfig })

/-- `BotManager::stopBot`, which holds `botsMutex_` from its first statement to its
return. The shutdown promise of the record is fulfilled (it is taken to be
unfulfilled before); no statement of the program waits for it. The task is
given up to ten seconds to end; `task` is how the task ends,
`TaskEnd.running` standing for a task that does not return from
`runBotInstance`. Then `activeBots_.erase(it)` destroys `botThread`, the future
that `std::async` gave for the task, which waits for the task: with a task that
does not return the call stays there. -/
def BotManager.stopBot (bm : BotManager) (task : TaskEnd) (encryptedToken : String) :
    Outcome Bool × BotManager :=
  match bm.activeBots_.find encryptedToken with
  | none => (.returns false, bm)
  | some _ =>
      match task with
      | .running => (.blocks, bm)
      | _ => (.returns true, { bm with activeBots_ := bm.activeBots_.erase encryptedToken })

/-- `BotManager::runBotInstance` for a task launched by `startBot`: how the task
ends and the manager afterwards. Decryption, attachment, the task's arrival at
`initBarrier` and the single `webhook.start()` sit in one `try` block whose
handler logs the failure and then arrives at `initBarrier` as well. The barrier
takes two arrivals per phase and `startBot` arrives once. After a failure of
the decryption or of the attachment the handler's arrival is the first of the
task: it meets the one of `startBot` and the task returns. A failure of
`webhook.start()` comes after the task has arrived: the handler's arrival is a
second one, nobody joins it, and the task never returns. No statement of the
function writes to the manager. -/
def BotManager.runBotInstance (env : BotEnv) (src : SourceEnv) (bm : BotManager)
    (config : BotConfig) : Outcome TaskEnd × BotManager :=
  match env.decrypt config.encryptedToken with
  | .error what => (.returns (.crashed what), bm)
  | .ok token =>
      match src.attach token with
      | some what => (.returns (.crashed what), bm)
      | none =>
          match src.poll 0 with
          | some _ => (.blocks, bm)
          | none => (.returns .completed, bm)

/-- `BotManager::pauseBot`. -/
def BotManager.pauseBot (bm : BotManager) (encryptedToken : String) : Bool × BotManager :=
  match bm.activeBots_.find encryptedToken with
  | some record =>
      (true,
        { bm with
          activeBots_ := bm.activeBots_.assign encryptedToken { record with isActive := false } })
  | none => (false, bm)

/-- `BotManager::resumeBot`. -/
def BotManager.resumeBot (bm : BotManager) (encryptedToken : String) : Bool × BotManager :=
  match bm.activeBots_.find encryptedToken with
  | some record =>
      (true,
        { bm with
          activeBots_ := bm.activeBots_.assign encryptedToken { record with isActive := true } })
  | none => (false, bm)

/-- `BotManager::addMessageToQueue`: `taskSemaphore_.acquire()` does not return
while no permit is free. -/
def BotManager.addMessageToQueue (bm : BotManager) (encryptedToken : String) (userId : Int)
    (username : String) : Outcome Unit × BotManager :=
  if bm.taskSemaphore_ = 0 then (.blocks, bm)
  else
    (.returns (),
      { bm with
        taskSemaphore_ := bm.taskSemaphore_ - 1
        messageQueue_ := bm.messageQueue_ ++ [⟨encryptedToken, userId, username⟩] })

/-- What the handlers read of a received message: `message->from->id` and
`message->from->username` (`message->from` is dereferenced without a test). -/
structure Message where
  fromId : Int
  fromUsername : String
deriving DecidableEq, Repr

/-- The `onAnyMessage` handler installed by `setupBotHandlers(bot, config)`. Its
`config` is the reference passed by `runBotInstance`, that is the copy of the
`BotConfig` captured by the worker task. -/
def BotManager.onAnyMessage (bm : BotManager) (config : BotConfig) (message : Message) :
    Outcome Unit × BotManager :=
  if !config.isActive then (.returns (), bm)
  else
    let username :=
      if message.fromUsername.isEmpty then "user_" ++ toString message.fromId
      else message.fromUsername
    bm.addMessageToQueue config.encryptedToken message.fromId username

/-- The inner `while` of `batchProcessorLoop`: move events from the queue to the
batch while the queue is non-empty and the batch is shorter than `BATCH_SIZE`. -/
def drainQueue : List MessageData → List MessageData → List MessageData × List MessageData
  | [], batch => ([], batch)
  | msg :: queue, batch =>
      if batch.length < BATCH_SIZE then drainQueue queue (batch ++ [msg])
      else (msg :: queue, batch)

/-- Text of the statement prepared by `updateUserRecords`. -/
def mergeStatement : String := "MERGE INTO Users"

/-- `BotManager::updateUserRecords`: the upsert of one event. `upsertFails msg` is the
failure of the statement, if any; the function catches it and only logs it, so
nothing is raised to the caller. -/
def updateUserRecords (upsertFails : MessageData → Option String) (msg : MessageData) :
    List String × Option String :=
  match upsertFails msg with
  | some _ => ([mergeStatement], none)
  | none => ([mergeStatement], none)

/-- The `for` loop of `processBatchInTransaction`: it stops at the first event whose
`updateUserRecords` raises. -/
def upsertAll (upsertFails : MessageData → Option String) :
    List MessageData → List String × Option String
  | [] => ([], none)
  | msg :: batch =>
      match updateUserRecords upsertFails msg with
      | (stmts, some what) => (stmts, some what)
      | (stmts, none) =>
          match upsertAll upsertFails batch with
          | (more, failure) => (stmts ++ more, failure)

/-- `BotManager::processBatchInTransaction` as the work of a transaction. -/
def processBatchInTransaction (upsertFails : MessageData → Option String)
    (batch : List MessageData) : Work :=
  fun _ => upsertAll upsertFails batch

/-- `BotManager::updateBotStats`: `totalUsers++` on the record of each event's worker. -/
def updateBotStats (bots : StdMap BotConfig) (batch : List MessageData) : StdMap BotConfig :=
  batch.foldl
    (fun m msg =>
      match m.find msg.encryptedToken with
      | some record =>
          m.assign msg.encryptedToken { record with totalUsers := wrapLong (record.totalUsers + 1) }
      | none => m)
    bots

/-- `BotManager::processBatch`: the transaction, then `updateBotStats`; an exception
is caught and logged. Yields the manager, the pool, the statements issued and
whether the flush succeeded. -/
def BotManager.processBatch (env : DbEnv) (sql : SqlEnv)
    (upsertFails : MessageData → Option String) (bm : BotManager)
    (db : DatabaseManager) (batch : List MessageData) :
    BotManager × DatabaseManager × List String × Bool :=
  match executeTransaction env sql (processBatchInTransaction upsertFails batch) db with
  | (.returns (), db1, issued) =>
      ({ bm with activeBots_ := updateBotStats bm.activeBots_ batch }, db1, issued, true)
  | (_, db1, issued) => (bm, db1, issued, false)

/-- One iteration of the `while` loop of `batchProcessorLoop`, started with an empty
working batch: drain the queue, then flush a non-empty batch. -/
def BotManager.batchProcessorIteration (env : DbEnv) (sql : SqlEnv)
    (upsertFails : MessageData → Option String) (bm : BotManager)
    (db : DatabaseManager) : BotManager × DatabaseManager × List String × Bool :=
  match drainQueue bm.messageQueue_ [] with
  | (queue, batch) =>
      if batch.isEmpty then ({ bm with messageQueue_ := queue }, db, [], false)
      else
        BotManager.processBatch env sql upsertFails { bm with messageQueue_ := queue } db batch

/-- Where the consumer thread stands in `batchProcessorLoop`: at the loop test
`while (!shutdownFlag_)`, inside the timed wait on the queue, or in
`processBatch` on the batch it has drained. -/
inductive ConsumerPoint where
  | loopTest
  | waiting
  | flushing (batch : List MessageData)
deriving DecidableEq, Repr

/-- The consumer thread of `batchProcessorLoop` followed for `fuel` steps from
`point`, no producer touching the queue meanwhile: the manager, the pool and
the batches passed to `processBatch`, in order. A timed wait ends at once when
the queue is non-empty or the shutdown flag is set, and after five seconds
otherwise; the drain and the test of the batch follow in either case. -/
def BotManager.consumer (env : DbEnv) (sql : SqlEnv)
    (upsertFails : MessageData → Option String) :
    Nat → ConsumerPoint → BotManager → DatabaseManager →
      BotManager × DatabaseManager × List (List MessageData)
  | 0, _, bm, db => (bm, db, [])
  | fuel + 1, .loopTest, bm, db =>
      if bm.shutdownFlag_ then (bm, db, [])
      else consumer env sql upsertFails fuel .waiting bm db
  | fuel + 1, .waiting, bm, db =>
      match drainQueue bm.messageQueue_ [] with
      | (queue, batch) =>
          if batch.isEmpty then
            consumer env sql upsertFails fuel .loopTest { bm with messageQueue_ := queue } db
          else
            consumer env sql upsertFails fuel (.flushing batch)
              { bm with messageQueue_ := queue } db
  | fuel + 1, .flushing batch, bm, db =>
      match BotManager.processBatch env sql upsertFails bm db batch with
      | (bm1, db1, _, _) =>
          match consumer env sql upsertFails fuel .loopTest bm1 db1 with
          | (bm2, db2, flushed) => (bm2, db2, batch :: flushed)

/-- `BotManager::shutdown` called while the consumer stands at `point`: the flag is
set, the waiters are woken, and the call waits for the consumer to leave its
loop, which it does within three steps. (Fulfilling the shutdown promises of
the workers afterwards changes nothing modelled here.) -/
def BotManager.shutdown (env : DbEnv) (sql : SqlEnv)
    (upsertFails : MessageData → Option String) (point : ConsumerPoint) (bm : BotManager)
    (db : DatabaseManager) : BotManager × DatabaseManager × List (List MessageData) :=
  BotManager.consumer env sql upsertFails 3 point { bm with shutdownFlag_ := true } db

/-- `BotManager::isHealthy`. -/
def BotManager.isHealthy (bm : BotManager) : Bool :=
  !bm.shutdownFlag_ && decide (bm.activeBots_.size ≤ MAX_ACTIVE_BOTS)

/-- `BotManager::getStatus`. -/
def BotManager.getStatus (bm : BotManager) : String :=
  if bm.shutdownFlag_ then "shutdown"
  else if bm.activeBots_.size ≥ MAX_ACTIVE_BOTS then "at_capacity"
  else "healthy"

/-- State of a `BotManager` right after its constructor. -/
def BotManager.fresh : BotManager :=
  { activeBots_ := StdMap.empty, workerTasks := [], messageQueue_ := [],
    taskSemaphore_ := MAX_CONCURRENT_TASKS, shutdownFlag_ := false }

end Optimized

/-! ## `config.hpp`: configuration and its validation -/

namespace Config

/-- `enum class ErrorCode`. -/
inductive ErrorCode where
  | INVALID_CONFIG
  | MISSING_ENV_VAR
  | INVALID_TOKEN_FORMAT
  | DATABASE_CONNECTION_FAILED
  | ENCRYPTION_FAILED
  | BOT_ALREADY_EXISTS
  | BOT_NOT_FOUND
  | INSUFFICIENT_PERMISSIONS
  | RATE_LIMIT_EXCEEDED
  | INTERNAL_ERROR
deriving DecidableEq, Repr

/-- `class ConfigException`: the error code and the message of the `runtime_error`. -/
structure ConfigException where
  errorCode_ : ErrorCode
  message : String
deriving DecidableEq, Repr

/-- `std::string::length()` and `strlen`: the number of bytes of the string. -/
def byteLength (s : String) : Nat := s.utf8ByteSize

/-- `ConfigValidator::isValidToken`: `regex_match` with the token pattern. -/
def ConfigValidator.isValidToken (token : String) : Bool := regexMatchToken token

/-- `ConfigValidator::isValidDatabaseUrl`. -/
def ConfigValidator.isValidDatabaseUrl (url : String) : Bool :=
  !(byteLength url == 0) && decide (byteLength url > 10)

/-- `ConfigValidator::isValidEncryptionKey`. -/
def ConfigValidator.isValidEncryptionKey (key : String) : Bool := decide (byteLength key ≥ 32)

/-- The process environment as seen by `std::getenv`: `none` for an unset variable. -/
abbrev Environment := String → Option String

/-- `EnvironmentConfig::getRequiredEnvVar`. -/
def EnvironmentConfig.getRequiredEnvVar (env : Environment) (name : String) :
    Except ConfigException String :=
  match env name with
  | some value =>
      if byteLength value == 0 then
        .error ⟨.MISSING_ENV_VAR, "Required environment variable not set: " ++ name⟩
      else .ok value
  | none => .error ⟨.MISSING_ENV_VAR, "Required environment variable not set: " ++ name⟩

/-- `EnvironmentConfig::getOptionalEnvVar`. -/
def EnvironmentConfig.getOptionalEnvVar (env : Environment) (name : String)
    (defaultValue : String) : String :=
  match env name with
  | some value => value
  | none => defaultValue

/-- White space skipped by `std::stoi` (`isspace` in the C locale). -/
def isSpaceChar (c : Char) : Bool :=
  c == ' ' || c == Char.ofNat 9 || c == Char.ofNat 10 || c == Char.ofNat 11 ||
    c == Char.ofNat 12 || c == Char.ofNat 13

/-- `std::stoi(s)` in base 10: leading white space, an optional sign, then the longest
run of digits; `none` when it throws (`invalid_argument` without a digit,
`out_of_range` outside the range of a 32-bit `int`). -/
def stoi (s : String) : Option Int :=
  let body := s.data.dropWhile isSpaceChar
  let signed : Bool × List Char :=
    match body with
    | '-' :: rest => (true, rest)
    | '+' :: rest => (false, rest)
    | rest => (false, rest)
  let digits := signed.2.takeWhile isTokenDigit
  if digits.isEmpty then none
  else
    let magnitude : Nat := digits.foldl (fun acc c => 10 * acc + (c.toNat - 48)) 0
    let value : Int := if signed.1 then -(magnitude : Int) else (magnitude : Int)
    if value < -2147483648 ∨ value > 2147483647 then none else some value

/-- `EnvironmentConfig::getOptionalEnvVarAsInt`. -/
def EnvironmentConfig.getOptionalEnvVarAsInt (env : Environment) (name : String)
    (defaultValue : Int) : Int :=
  match stoi (EnvironmentConfig.getOptionalEnvVar env name (toString defaultValue)) with
  | some value => value
  | none => defaultValue

/-- `struct DatabaseConfig`. -/
structure DatabaseConfig where
  server : String
  database : String
  username : String
  password : String
  port : Int
  connectionPoolSize : Int
  connectionTimeout : Int
  useSSL : Bool
deriving DecidableEq, Repr

/-- `DatabaseConfig::fromEnvironment`. -/
def DatabaseConfig.fromEnvironment (env : Environment) : Except ConfigException DatabaseConfig :=
  match EnvironmentConfig.getRequiredEnvVar env "DB_USER" with
  | .error e => .error e
  | .ok username =>
      match EnvironmentConfig.getRequiredEnvVar env "DB_PASS" with
      | .error e => .error e
      | .ok password =>
          .ok
            { server := EnvironmentConfig.getOptionalEnvVar env "DB_SERVER" "localhost"
              database := EnvironmentConfig.getOptionalEnvVar env "DB_NAME" "TelegramBots"
              username := username
              password := password
              port := EnvironmentConfig.getOptionalEnvVarAsInt env "DB_PORT" 1433
              connectionPoolSize := EnvironmentConfig.getOptionalEnvVarAsInt env "DB_POOL_SIZE" 15
              connectionTimeout := EnvironmentConfig.getOptionalEnvVarAsInt env "DB_TIMEOUT" 30
              useSSL := EnvironmentConfig.getOptionalEnvVar env "DB_SSL" "true" == "true" }

/-- `DatabaseConfig::validate`. -/
def DatabaseConfig.validate (c : DatabaseConfig) : Except ConfigException Unit :=
  if !ConfigValidator.isValidDatabaseUrl c.server then
    .error ⟨.INVALID_CONFIG, "Invalid database server"⟩
  else if c.connectionPoolSize ≤ 0 ∨ c.connectionPoolSize > 100 then
    .error ⟨.INVALID_CONFIG, "Invalid connection pool size"⟩
  else .ok ()

/-- `struct SecurityConfig`. -/
structure SecurityConfig where
  encryptionKey : String
  keyRotationDays : Int
  enableAuditLog : Bool
  allowedAdminUsers : String
deriving DecidableEq, Repr

/-- `SecurityConfig::validate`. -/
def SecurityConfig.validate (c : SecurityConfig) : Except ConfigException Unit :=
  if !ConfigValidator.isValidEncryptionKey c.encryptionKey then
    .error ⟨.INVALID_CONFIG, "Invalid encryption key length"⟩
  else if c.keyRotationDays ≤ 0 then
    .error ⟨.INVALID_CONFIG, "Invalid key rotation days"⟩
  else .ok ()

/-- The data members of `struct BotConfig` of `config.hpp` read by `validate`, and its
counters and flag. -/
structure BotConfig where
  token : String
  name : String
  username : String
  encryptedToken : String
  storedUsers : Int
  totalUsers : Int
  isActive : Bool
deriving DecidableEq, Repr

/-- `BotConfig::validate`. -/
def BotConfig.validate (c : BotConfig) : Except ConfigException Unit :=
  if !ConfigValidator.isValidToken c.token then
    .error ⟨.INVALID_TOKEN_FORMAT, "Invalid bot token format"⟩
  else if byteLength c.name == 0 || byteLength c.username == 0 then
    .error ⟨.INVALID_CONFIG, "Bot name and username required"⟩
  else .ok ()

/-- `struct AppConfig`. -/
structure AppConfig where
  database : DatabaseConfig
  security : SecurityConfig
  managerToken : String
  maxActiveBots : Int
  batchSize : Int
  batchTimeoutMs : Int
  enableMetrics : Bool
  logLevel : String
deriving DecidableEq, Repr

/-- `AppConfig::validate`. -/
def AppConfig.validate (c : AppConfig) : Except ConfigException Unit :=
  match c.database.validate with
  | .error e => .error e
  | .ok () =>
      match c.security.validate with
      | .error e => .error e
      | .ok () =>
          if !ConfigValidator.isValidToken c.managerToken then
            .error ⟨.INVALID_TOKEN_FORMAT, "Invalid manager token"⟩
          else if c.maxActiveBots ≤ 0 ∨ c.maxActiveBots > 1000 then
            .error ⟨.INVALID_CONFIG, "Invalid max active bots"⟩
          else if c.batchSize ≤ 0 ∨ c.batchSize > 10000 then
            .error ⟨.INVALID_CONFIG, "Invalid batch size"⟩
          else .ok ()

/-- The token shape in the words of the specification: one or more ASCII digits, a
single colon, then exactly 35 characters that are ASCII letters, ASCII digits,
`_` or `-`, with nothing before or after. -/
def TokenShape (t : String) : Prop :=
  ∃ digits tail : List Char,
    t.data = digits ++ ':' :: tail ∧ digits ≠ [] ∧ (∀ c ∈ digits, c.isDigit = true) ∧
    tail.length = 35 ∧ ∀ c ∈ tail, (c.isAlphanum || c == '_' || c == '-') = true

end Config

/-! ## What one `getConnection` call does to the pool -/

/-- Description of the result `r` of a `getConnection` call of `storage_bot_improved.cpp`
on pool `p` in which `k` idle connections were dequeued and discarded: these are
the first `k` idle connections and each fails the probe; then either the next idle
connection passes the probe and is returned, or nothing is returned (`nullptr` or
an exception), or the idle queue is used up and a newly created connection is
returned. The live count drops by `k` and rises by one for a created connection. -/
def Improved.AcquireSpec (env : DbEnv) (p : DatabaseManager)
    (r : Outcome (Option Connection) × DatabaseManager) (k : Nat) : Prop :=
  k ≤ p.availableConnections_.length ∧
  (∀ c ∈ p.availableConnections_.take k, env.probe c = false) ∧
  r.2.maxPoolSize_ = p.maxPoolSize_ ∧
  r.2.shutdownFlag_ = p.shutdownFlag_ ∧
  ((∃ c, p.availableConnections_[k]? = some c ∧ env.probe c = true ∧
      r.1 = .returns (some c) ∧
      r.2.availableConnections_ = p.availableConnections_.drop (k + 1) ∧
      r.2.totalConnections_ = p.totalConnections_ - k) ∨
    ((r.1 = .returns none ∨ ∃ what, r.1 = .throws what) ∧
      r.2.availableConnections_ = p.availableConnections_.drop k ∧
      r.2.totalConnections_ = p.totalConnections_ - k) ∨
    (∃ c, (∃ i, env.create i = .ok c) ∧ r.1 = .returns (some c) ∧
      p.availableConnections_.drop k = [] ∧ r.2.availableConnections_ = [] ∧
      p.totalConnections_ - k < p.maxPoolSize_ ∧
      r.2.totalConnections_ = p.totalConnections_ - k + 1))

/-- The same description for `storage_bot_optimized.cpp`, where `getConnection`
returns no `nullptr` and a created connection has passed the probe. -/
def Optimized.AcquireSpec (env : DbEnv) (p : DatabaseManager)
    (r : Outcome Connection × DatabaseManager) (k : Nat) : Prop :=
  k ≤ p.availableConnections_.length ∧
  (∀ c ∈ p.availableConnections_.take k, env.probe c = false) ∧
  r.2.maxPoolSize_ = p.maxPoolSize_ ∧
  r.2.shutdownFlag_ = p.shutdownFlag_ ∧
  ((∃ c, p.availableConnections_[k]? = some c ∧ env.probe c = true ∧
      r.1 = .returns c ∧
      r.2.availableConnections_ = p.availableConnections_.drop (k + 1) ∧
      r.2.totalConnections_ = p.totalConnections_ - k) ∨
    ((∃ what, r.1 = .throws what) ∧
      r.2.availableConnections_ = p.availableConnections_.drop k ∧
      r.2.totalConnections_ = p.totalConnections_ - k) ∨
    (∃ c, (∃ i, env.create i = .ok c) ∧ env.probe c = true ∧ r.1 = .returns c ∧
      p.availableConnections_.drop k = [] ∧ r.2.availableConnections_ = [] ∧
      p.totalConnections_ - k < p.maxPoolSize_ ∧
      r.2.totalConnections_ = p.totalConnections_ - k + 1))

/-- Invariant of a run of `storage_bot_improved.cpp` pool calls on a pool of maximum
`poolSize`: the pool is open, its live count is within the maximum and equals
the number of idle plus checked-out connections. -/
def Improved.PoolRun.Inv (poolSize : Nat) (s : Improved.PoolRun) : Prop :=
  s.pool.maxPoolSize_ = poolSize ∧ s.pool.shutdownFlag_ = false ∧
  s.pool.totalConnections_ ≤ poolSize ∧
  s.pool.totalConnections_ = s.pool.availableConnections_.length + s.checkedOut.length

/-! ## Concrete inputs used by the closed statements below -/

/-- A vault that decrypts every identifier to one well-formed token, and a
messaging service that accepts every token. -/
def acceptingEnv : BotEnv :=
  { decrypt := fun _ => .ok "123456:ABCDEFGHIJKLMNOPQRSTUVWXYZabcdefghi"
    getMe := fun _ => .ok true }

/-- A vault that rejects every identifier. -/
def rejectingEnv : BotEnv :=
  { decrypt := fun _ => .error "Decryption failed", getMe := fun _ => .ok true }

/-- A `storage_bot.cpp` config with identifier `k`. -/
def StorageBot.sampleConfig (k : String) : StorageBot.BotConfig :=
  { token := "", name := "bot", username := "bot", encryptedToken := k,
    storedUsers := 0, totalUsers := 0, isActive := true }

/-- A `storage_bot_improved.cpp` config with identifier `k`. -/
def Improved.sampleConfig (k : String) : Improved.BotConfig :=
  { token := "", name := "bot", username := "bot", encryptedToken := k,
    storedUsers := 0, totalUsers := 0, isActive := true, isRunning := false }

/-- A `storage_bot_optimized.cpp` config with identifier `k` and display name `n`. -/
def Optimized.sampleConfig (k n : String) : Optimized.BotConfig :=
  { token := "", name := n, username := "bot", encryptedToken := k,
    storedUsers := 0, totalUsers := 0, isActive := true, isRunning := false,
    isInitialized := false, maxConcurrentUsers := 1000, messageQueueSize := 1000,
    processingTimeout := 5000 }

/-- Fifty identifiers `0`, ..., `49`. -/
def fiftyKeys : List String := (List.range 50).map toString

/-- A full `storage_bot.cpp` manager: fifty registered workers. -/
def StorageBot.fullManager : StorageBot.BotManager :=
  { activeBots_ := ⟨fiftyKeys.map (fun k => (k, StorageBot.sampleConfig k))⟩, workerTasks := [],
    messageBatch_ := [], lastBatchTime_ := 0 }

/-- A full `storage_bot_improved.cpp` manager: fifty registered workers. -/
def Improved.fullManager : Improved.BotManager :=
  { activeBots_ := ⟨fiftyKeys.map (fun k => (k, Improved.sampleConfig k))⟩, workerTasks := [] }

/-- A full `storage_bot_optimized.cpp` manager: fifty registered workers. -/
def Optimized.fullManager : Optimized.BotManager :=
  { Optimized.BotManager.fresh with
    activeBots_ := ⟨fiftyKeys.map (fun k => (k, Optimized.sampleConfig k "bot"))⟩ }

/-- An optimized manager with the single worker `W1`, registered under the name
`first` with 5 persisted and 7 seen events. -/
def Optimized.oneWorker : Optimized.BotManager :=
  { Optimized.BotManager.fresh with
    activeBots_ :=
      ⟨[("W1", { Optimized.sampleConfig "W1" "first" with storedUsers := 5, totalUsers := 7 })]⟩
    workerTasks := [Optimized.sampleConfig "W1" "first"] }

/-- A driver on which every connection attempt succeeds (the `n`-th attempt yields
connection `n`) and every probe passes. -/
def liveEnv : DbEnv := { create := fun n => .ok ⟨n⟩, probe := fun _ => true }

/-- As `liveEnv`, the `n`-th attempt yielding connection `100 + n`. -/
def laterEnv : DbEnv := { create := fun n => .ok ⟨100 + n⟩, probe := fun _ => true }

/-- A driver on which every connection attempt and every probe fails. -/
def deadEnv : DbEnv := { create := fun _ => .error "down", probe := fun _ => false }

/-- Every transaction marker succeeds. -/
def noFailure : SqlEnv := { beginFails := none, commitFails := none, rollbackFails := none }

/-- A work function that issues one statement and then raises `boom`. -/
def failingWork : Work := fun _ => (["MERGE INTO users"], some "boom")

/-- A pool of maximum 10 whose single live connection `0` is idle. -/
def onePool : DatabaseManager :=
  { maxPoolSize_ := 10, totalConnections_ := 1, shutdownFlag_ := false,
    availableConnections_ := [⟨0⟩] }

/-- The pool `onePool` after its connection was taken out. -/
def drainedPool : DatabaseManager :=
  { maxPoolSize_ := 10, totalConnections_ := 1, shutdownFlag_ := false,
    availableConnections_ := [] }

/-- The optimized manager after `startBot` of worker `W1` on a fresh manager. -/
def Optimized.startedW1 : Optimized.BotManager :=
  (Optimized.BotManager.fresh.startBot acceptingEnv (Optimized.sampleConfig "W1" "first")).2

/-- The manager `startedW1` after `pauseBot("W1")`. -/
def Optimized.pausedW1 : Optimized.BotManager := (Optimized.startedW1.pauseBot "W1").2

/-- A fresh optimized manager after three `addMessageToQueue` calls for worker `W1`. -/
def Optimized.threeQueued : Optimized.BotManager :=
  (((Optimized.BotManager.fresh.addMessageToQueue "W1" 1 "a").2.addMessageToQueue
    "W1" 1 "a").2.addMessageToQueue "W1" 1 "b").2

/-- A driver on which connection `0` fails the probe and every other connection
passes; the `n`-th attempt to connect yields connection `100 + n`. -/
def flakyEnv : DbEnv := { create := fun n => .ok ⟨100 + n⟩, probe := fun c => c.id != 0 }

/-- A pool of maximum 10 whose two live connections `0` and `1` are idle. -/
def twoIdle : DatabaseManager :=
  { maxPoolSize_ := 10, totalConnections_ := 2, shutdownFlag_ := false,
    availableConnections_ := [⟨0⟩, ⟨1⟩] }

/-- Two acquisitions, then the release of connection `1`, which has died meanwhile. -/
def Improved.sampleCalls : List Improved.PoolCall :=
  [.get flakyEnv, .get flakyEnv, .release ⟨1⟩ deadEnv]

/-- The state reached by `sampleCalls` on a pool of maximum 2: connection `100` is
checked out and is the only live connection. -/
def Improved.sampleEnd : Improved.PoolRun :=
  { pool := { maxPoolSize_ := 2, totalConnections_ := 1, shutdownFlag_ := false,
              availableConnections_ := [] },
    checkedOut := [⟨100⟩] }

/-- A driver on which connection `3` passes the probe and every other connection fails. -/
def fourthLiveEnv : DbEnv := { create := fun _ => .error "down", probe := fun c => c.id == 3 }

/-- A pool at its maximum 4 whose four live connections `0`, `1`, `2`, `3` are idle. -/
def fourIdle : DatabaseManager :=
  { maxPoolSize_ := 4, totalConnections_ := 4, shutdownFlag_ := false,
    availableConnections_ := [⟨0⟩, ⟨1⟩, ⟨2⟩, ⟨3⟩] }

/-- Record of the running, active worker `W1` with 4 persisted events. -/
def Improved.recordW1 : Improved.BotConfig :=
  { Improved.sampleConfig "W1" with isRunning := true, storedUsers := 4 }

/-- Record of the running, active worker `W2` with 9 seen events. -/
def Improved.recordW2 : Improved.BotConfig :=
  { Improved.sampleConfig "W2" with isRunning := true, totalUsers := 9 }

/-- An improved manager with the two running workers `W1` and `W2`. -/
def Improved.twoWorkers : Improved.BotManager :=
  { activeBots_ := ⟨[("W1", Improved.recordW1), ("W2", Improved.recordW2)]⟩
    workerTasks := [] }

/-- A message source on which attaching succeeds and every poll raises. -/
def failingSource : SourceEnv :=
  { attach := fun _ => none, poll := fun _ => some "network down", detach := none }

/-- The `storage_bot.cpp` manager after `startBot` of worker `W1` on an empty manager. -/
def StorageBot.startedW1 : StorageBot.BotManager :=
  ((⟨StdMap.empty, [], [], 0⟩ : StorageBot.BotManager).startBot (StorageBot.sampleConfig "W1")).2

/-- A `storage_bot.cpp` manager with the workers `W1` and `W2` registered (counters 0)
and one event of `W1` in the buffer. -/
def StorageBot.oneBuffered : StorageBot.BotManager :=
  { activeBots_ :=
      ⟨[("W1", StorageBot.sampleConfig "W1"), ("W2", StorageBot.sampleConfig "W2")]⟩
    workerTasks := []
    messageBatch_ := [⟨"W1", 1, "a"⟩]
    lastBatchTime_ := 0 }

/-- As `oneBuffered`, with an event of `W1` followed by an event of `W2` in the buffer. -/
def StorageBot.twoBuffered : StorageBot.BotManager :=
  { StorageBot.oneBuffered with messageBatch_ := [⟨"W1", 1, "a"⟩, ⟨"W2", 2, "b"⟩] }

/-- Every transaction marker succeeds except the commit. -/
def commitBroken : SqlEnv :=
  { beginFails := none, commitFails := some "deadlock victim", rollbackFails := none }

/-- The optimized manager `startedW1` after three `addMessageToQueue` calls for `W1`. -/
def Optimized.startedThreeQueued : Optimized.BotManager :=
  (((Optimized.startedW1.addMessageToQueue "W1" 1 "a").2.addMessageToQueue
    "W1" 1 "a").2.addMessageToQueue "W1" 1 "b").2

/-- An environment in which only `DB_USER` and `DB_PASS` are set. -/
def Config.minimalEnv : Config.Environment :=
  fun name => if name = "DB_USER" then some "sa" else if name = "DB_PASS" then some "secret" else none

/-- A `config.hpp` bot configuration with token `t`. -/
def Config.sampleBot (t : String) : Config.BotConfig :=
  { token := t, name := "bot", username := "bot", encryptedToken := "", storedUsers := 0,
    totalUsers := 0, isActive := true }

/-- An application configuration that passes every check. -/
def Config.goodApp : Config.AppConfig :=
  { database :=
      { server := "db.example.org", database := "TelegramBots", username := "sa",
        password := "secret", port := 1433, connectionPoolSize := 15, connectionTimeout := 30,
        useSSL := true }
    security :=
      { encryptionKey := "0123456789abcdef0123456789abcdef", keyRotationDays := 90,
        enableAuditLog := true, allowedAdminUsers := "" }
    managerToken := "123456:ABCDEFGHIJKLMNOPQRSTUVWXYZabcdefghi"
    maxActiveBots := 50
    batchSize := 100
    batchTimeoutMs := 5000
    enableMetrics := true
    logLevel := "INFO" }

/-- The database configuration built from the defaults and `minimalEnv`. -/
def Config.defaultDatabase : Config.DatabaseConfig :=
  { server := "localhost", database := "TelegramBots", username := "sa", password := "secret",
    port := 1433, connectionPoolSize := 15, connectionTimeout := 30, useSSL := true }

/-- The optimized manager `startedW1` after one `addMessageToQueue` call for `W1`. -/
def Optimized.startedOneQueued : Optimized.BotManager :=
  (Optimized.startedW1.addMessageToQueue "W1" 1 "a").2

/-- One hundred events of worker `W1`, from the users `0` to `99`. -/
def hundredEvents : List MessageData :=
  (List.range 100).map fun (i : Nat) => ⟨"W1", Int.ofNat i, "a"⟩

/-- The manager `oneBuffered` with an empty buffer (last flush at clock reading 0). -/
def StorageBot.noneBuffered : StorageBot.BotManager :=
  { StorageBot.oneBuffered with messageBatch_ := [] }

/-- The manager `noneBuffered` with the events `hundredEvents` in its buffer. -/
def StorageBot.hundredBuffered : StorageBot.BotManager :=
  { StorageBot.oneBuffered with messageBatch_ := hundredEvents }

/-- An empty buffer of the improved variant whose last flush was at clock reading 0. -/
def Improved.emptyBuffer : Improved.BatchBuffer := { messageBatch_ := [], lastBatchTime_ := 0 }

/-- A buffer of the improved variant holding `hundredEvents`. -/
def Improved.hundredBuffer : Improved.BatchBuffer :=
  { messageBatch_ := hundredEvents, lastBatchTime_ := 0 }

/-- A buffer of the improved variant holding one event of `W1`. -/
def Improved.oneBuffer : Improved.BatchBuffer :=
  { messageBatch_ := [⟨"W1", 1, "a"⟩], lastBatchTime_ := 0 }

/-! # Theorems -/

/-! ## Worker supervisor: `startBot` -/

/-- C1: with `MAX_ACTIVE_BOTS` or more workers registered, `startBot` fails in each
variant (it throws in `storage_bot.cpp` and `storage_bot_improved.cpp`, it returns
`false` in `storage_bot_optimized.cpp`) and the manager, hence the registry and
its size, is exactly as before; nothing is assumed about the config or about the
vault, so the capacity test comes before every other test. -/
theorem startBot_fails_at_capacity (env : BotEnv)
    (sb : StorageBot.BotManager) (cs : StorageBot.BotConfig)
    (ib : Improved.BotManager) (ci : Improved.BotConfig)
    (ob : Optimized.BotManager) (co : Optimized.BotConfig)
    (hs : MAX_ACTIVE_BOTS ≤ sb.activeBots_.size)
    (hi : MAX_ACTIVE_BOTS ≤ ib.activeBots_.size)
    (ho : MAX_ACTIVE_BOTS ≤ ob.activeBots_.size) :
    sb.startBot cs = (.throws "Maximum active bots reached", sb) ∧
    ib.startBot env ci = (.throws "Maximum active bots reached", ib) ∧
    ob.startBot env co = (false, ob) := by
  refine ⟨?_, ?_, ?_⟩
  · simp [StorageBot.BotManager.startBot, hs]
  · simp [Improved.BotManager.startBot, hi]
  · simp [Optimized.BotManager.startBot, ho]

/-- Witness of C1: the fifty-worker managers, a config whose identifier `7` is
already registered, and a vault that rejects every credential. -/
theorem startBot_fails_at_capacity_witness :
    MAX_ACTIVE_BOTS ≤ StorageBot.fullManager.activeBots_.size ∧
    MAX_ACTIVE_BOTS ≤ Improved.fullManager.activeBots_.size ∧
    MAX_ACTIVE_BOTS ≤ Optimized.fullManager.activeBots_.size ∧
    (Improved.fullManager.activeBots_.find "7").isSome = true ∧
    StorageBot.fullManager.startBot (StorageBot.sampleConfig "7") =
      (.throws "Maximum active bots reached", StorageBot.fullManager) ∧
    Improved.fullManager.startBot rejectingEnv (Improved.sampleConfig "7") =
      (.throws "Maximum active bots reached", Improved.fullManager) ∧
    Optimized.fullManager.startBot rejectingEnv (Optimized.sampleConfig "7" "bot") =
      (false, Optimized.fullManager) :=
  ⟨by decide, by decide, by decide, by decide,
    startBot_fails_at_capacity rejectingEnv
      StorageBot.fullManager (StorageBot.sampleConfig "7")
      Improved.fullManager (Improved.sampleConfig "7")
      Optimized.fullManager (Optimized.sampleConfig "7" "bot")
      (by decide) (by decide) (by decide)⟩

/-- C2, the optimized variant evaluated on a duplicate identifier: the registry is
below capacity and already holds `W1` (name `first`, 5 persisted and 7 seen
events); `startBot` with a second config for `W1` (name `second`, counters 0)
returns `true`, replaces the record and launches a second worker task. -/
theorem startBot_optimized_duplicate_overwrites :
    (Optimized.oneWorker.activeBots_.find "W1").isSome = true ∧
    Optimized.oneWorker.activeBots_.size < MAX_ACTIVE_BOTS ∧
    Optimized.oneWorker.startBot acceptingEnv (Optimized.sampleConfig "W1" "second") =
      (true,
        { Optimized.oneWorker with
          activeBots_ := ⟨[("W1", Optimized.sampleConfig "W1" "second")]⟩
          workerTasks :=
            [Optimized.sampleConfig "W1" "first", Optimized.sampleConfig "W1" "second"] }) := by
  refine ⟨by decide, by decide, ?_⟩
  decide

/-- C3: in `storage_bot_improved.cpp`, with the registry below capacity and a config
whose identifier fails to decrypt or decrypts to a string that does not match the
token pattern, `startBot` throws, launches no worker task and leaves the registry
unchanged. -/
theorem startBot_improved_rejects_bad_credential (env : BotEnv) (bm : Improved.BotManager)
    (config : Improved.BotConfig)
    (hcap : bm.activeBots_.size < MAX_ACTIVE_BOTS)
    (hbad : (∃ what, env.decrypt config.encryptedToken = .error what) ∨
      (∃ token, env.decrypt config.encryptedToken = .ok token ∧ regexMatchToken token = false)) :
    (∃ what, (bm.startBot env config).1 = .throws what) ∧
    (bm.startBot env config).2.workerTasks = bm.workerTasks ∧
    (bm.startBot env config).2.activeBots_ = bm.activeBots_ := by
  have hnot : ¬ bm.activeBots_.size ≥ MAX_ACTIVE_BOTS := Nat.not_le.mpr hcap
  have hcheck : ∃ what, Improved.checkToken env config = .error what := by
    rcases hbad with ⟨what, h⟩ | ⟨token, h, hre⟩
    · exact ⟨"Invalid encrypted token: " ++ what, by simp [Improved.checkToken, h]⟩
    · exact ⟨"Invalid encrypted token: " ++ "Invalid token format", by
        simp [Improved.checkToken, h, hre]⟩
  obtain ⟨what, hwhat⟩ := hcheck
  unfold Improved.BotManager.startBot
  rw [if_neg hnot]
  by_cases hdup : (bm.activeBots_.find config.encryptedToken).isSome = true
  · rw [if_pos hdup]
    exact ⟨⟨_, rfl⟩, rfl, rfl⟩
  · rw [if_neg hdup, hwhat]
    exact ⟨⟨_, rfl⟩, rfl, rfl⟩

/-- Witness of C3: an empty registry and a config whose credential decrypts to the
malformed token `abc` (no digits, no colon). -/
theorem startBot_improved_rejects_bad_credential_witness :
    (StdMap.empty : StdMap Improved.BotConfig).size < MAX_ACTIVE_BOTS ∧
    regexMatchToken "abc" = false ∧
    (∃ what, ((⟨StdMap.empty, []⟩ : Improved.BotManager).startBot
        ⟨fun _ => .ok "abc", fun _ => .ok true⟩ (Improved.sampleConfig "W1")).1 = .throws what) ∧
    ((⟨StdMap.empty, []⟩ : Improved.BotManager).startBot
        ⟨fun _ => .ok "abc", fun _ => .ok true⟩ (Improved.sampleConfig "W1")).2.workerTasks = [] ∧
    ((⟨StdMap.empty, []⟩ : Improved.BotManager).startBot
        ⟨fun _ => .ok "abc", fun _ => .ok true⟩ (Improved.sampleConfig "W1")).2.activeBots_ =
      StdMap.empty :=
  ⟨by decide, by decide,
    startBot_improved_rejects_bad_credential ⟨fun _ => .ok "abc", fun _ => .ok true⟩
      ⟨StdMap.empty, []⟩ (Improved.sampleConfig "W1") (by decide)
      (Or.inr ⟨"abc", rfl, by decide⟩)⟩

/-! ## Connection pool: transactions -/

/-- C4, the three variants evaluated on a failing work function: the pool holds one
idle live connection; `executeTransaction` takes it out, the work raises `boom`,
the rollback is issued and `boom` re-raised, and the pool is left as it was right
after `getConnection` (idle set empty, live count 1): `releaseConnection` was not
called, although it would have put the connection back (or, for a dead
connection, lowered the live count to 0). -/
theorem executeTransaction_failure_skips_release :
    (Improved.getConnection laterEnv onePool = (.returns (some ⟨0⟩), drainedPool) ∧
      Improved.executeTransaction laterEnv noFailure failingWork onePool =
        (.throws "boom", drainedPool,
          ["BEGIN TRANSACTION", "MERGE INTO users", "ROLLBACK TRANSACTION"]) ∧
      Improved.releaseConnection laterEnv drainedPool (some ⟨0⟩) = onePool ∧
      Improved.releaseConnection deadEnv drainedPool (some ⟨0⟩) =
        { drainedPool with totalConnections_ := 0 }) ∧
    (StorageBot.getConnection laterEnv onePool = (.returns (some ⟨0⟩), drainedPool) ∧
      StorageBot.executeTransaction laterEnv noFailure failingWork onePool =
        (.throws "boom", drainedPool,
          ["BEGIN TRANSACTION", "MERGE INTO users", "ROLLBACK TRANSACTION"]) ∧
      StorageBot.releaseConnection laterEnv drainedPool (some ⟨0⟩) = onePool ∧
      StorageBot.releaseConnection deadEnv drainedPool (some ⟨0⟩) =
        { drainedPool with totalConnections_ := 0 }) ∧
    (Optimized.getConnection laterEnv onePool = (.returns ⟨0⟩, drainedPool) ∧
      Optimized.executeTransaction laterEnv noFailure failingWork onePool =
        (.throws "boom", drainedPool, ["begin", "MERGE INTO users", "rollback"]) ∧
      Optimized.releaseConnection laterEnv drainedPool (some ⟨0⟩) = onePool ∧
      Optimized.releaseConnection deadEnv drainedPool (some ⟨0⟩) =
        { drainedPool with totalConnections_ := 0 }) := by
  refine ⟨⟨?_, ?_, ?_, ?_⟩, ⟨?_, ?_, ?_, ?_⟩, ⟨?_, ?_, ?_, ?_⟩⟩ <;> decide

/-- C6, the optimized variant evaluated on three events: three `addMessageToQueue`
calls take three of the 100 permits; one iteration of the batch processor drains
the three events and flushes them successfully; the number of free permits is
still 97. -/
theorem processBatch_optimized_keeps_permits :
    Optimized.BotManager.fresh.taskSemaphore_ = MAX_CONCURRENT_TASKS ∧
    Optimized.threeQueued.taskSemaphore_ = 97 ∧
    Optimized.threeQueued.messageQueue_ = [⟨"W1", 1, "a"⟩, ⟨"W1", 1, "a"⟩, ⟨"W1", 1, "b"⟩] ∧
    Optimized.BotManager.batchProcessorIteration laterEnv noFailure (fun _ => none)
        Optimized.threeQueued onePool =
      ({ Optimized.BotManager.fresh with taskSemaphore_ := 97 }, onePool,
        ["begin", "MERGE INTO Users", "MERGE INTO Users", "MERGE INTO Users", "commit"],
        true) := by
  refine ⟨?_, ?_, ?_, ?_⟩ <;> decide

/-- C7, the optimized variant evaluated on a paused worker: `startBot` of `W1`
returns `true` and launches one worker task, whose captured config has
`isActive = true`; `pauseBot("W1")` returns `true` and clears `isActive` in the
registry record only; a message from user 7 (`alice`) received by the worker's
handler is then still appended to the message queue. -/
theorem pauseBot_optimized_still_forwards :
    (Optimized.BotManager.fresh.startBot acceptingEnv
        (Optimized.sampleConfig "W1" "first")).1 = true ∧
    Optimized.startedW1.workerTasks = [Optimized.sampleConfig "W1" "first"] ∧
    (Optimized.startedW1.pauseBot "W1").1 = true ∧
    Optimized.pausedW1.activeBots_ =
      ⟨[("W1", { Optimized.sampleConfig "W1" "first" with isActive := false })]⟩ ∧
    Optimized.pausedW1.workerTasks = [Optimized.sampleConfig "W1" "first"] ∧
    Optimized.pausedW1.messageQueue_ = [] ∧
    Optimized.pausedW1.onAnyMessage (Optimized.sampleConfig "W1" "first") ⟨7, "alice"⟩ =
      (.returns (),
        { Optimized.pausedW1 with
          taskSemaphore_ := 99
          messageQueue_ := [⟨"W1", 7, "alice"⟩] }) := by
  refine ⟨?_, ?_, ?_, ?_, ?_, ?_, ?_⟩ <;> decide

/-! ## Connection pool: shutdown -/

/-- C10, the three variants evaluated after `shutdown`: a pool of maximum 10 is
initialised (five connections) and shut down; the next `getConnection` finds the
idle queue empty and the live count below the maximum, creates connection `100`
and returns it. -/
theorem getConnection_after_shutdown_creates :
    (Improved.shutdown (Improved.initializePool liveEnv (DatabaseManager.fresh 10)) =
        ⟨10, 0, true, []⟩ ∧
      Improved.getConnection laterEnv ⟨10, 0, true, []⟩ =
        (.returns (some ⟨100⟩), ⟨10, 1, true, []⟩)) ∧
    ((StorageBot.initializePool liveEnv (DatabaseManager.fresh 10)).map StorageBot.shutdown =
        .ok ⟨10, 0, true, []⟩ ∧
      StorageBot.getConnection laterEnv ⟨10, 0, true, []⟩ =
        (.returns (some ⟨100⟩), ⟨10, 1, true, []⟩)) ∧
    (Optimized.shutdown (Optimized.initializePool liveEnv (DatabaseManager.fresh 10)) =
        ⟨10, 5, true, []⟩ ∧
      Optimized.getConnection laterEnv ⟨10, 5, true, []⟩ =
        (.returns ⟨100⟩, ⟨10, 6, true, []⟩)) := by
  refine ⟨⟨?_, ?_⟩, ⟨?_, ?_⟩, ⟨?_, ?_⟩⟩ <;> first | decide | rfl

/-! ## Connection pool: acquisition -/

/-- Discarding one more failing connection at the head of the idle queue. -/
theorem improved_acquire_step (env : DbEnv) (mx total : Nat) (flag : Bool)
    (c : Connection) (rest : List Connection)
    (r : Outcome (Option Connection) × DatabaseManager) (k : Nat)
    (hc : env.probe c = false)
    (h : Improved.AcquireSpec env ⟨mx, total - 1, flag, rest⟩ r k) :
    Improved.AcquireSpec env ⟨mx, total, flag, c :: rest⟩ r (k + 1) := by
  obtain ⟨hk, hall, hmax, hflag, hcases⟩ := h
  simp only at hk hall hmax hflag hcases
  have hsub : total - 1 - k = total - (k + 1) := by omega
  refine ⟨by simpa using hk, ?_, hmax, hflag, ?_⟩
  · intro d hd
    simp only [List.take_succ_cons, List.mem_cons] at hd
    rcases hd with rfl | hd
    · exact hc
    · exact hall d hd
  · simp only [List.getElem?_cons_succ, List.drop_succ_cons]
    rw [← hsub]
    exact hcases

/-- The loop of `getConnection` in `storage_bot_improved.cpp` meets `AcquireSpec`
with at most `n` discarded connections. -/
theorem improved_getConnectionLoop_spec (env : DbEnv) (n : Nat) :
    ∀ (a : Nat) (p : DatabaseManager),
      p.availableConnections_.length ≤ p.totalConnections_ →
      ∃ k, k ≤ n ∧ Improved.AcquireSpec env p (Improved.getConnectionLoop env n a p) k := by
  induction n with
  | zero =>
    intro a p _
    exact ⟨0, le_refl _, by simp [Improved.AcquireSpec, Improved.getConnectionLoop]⟩
  | succ n ih =>
    intro a p hlen
    rcases p with ⟨mx, total, flag, idle⟩
    cases idle with
    | nil =>
      have hrec : flag = false →
          ∃ k, k ≤ n + 1 ∧ Improved.AcquireSpec env ⟨mx, total, flag, []⟩
            (Improved.getConnectionLoop env n (a + 1) ⟨mx, total, flag, []⟩) k := by
        intro _
        obtain ⟨k, hk, hspec⟩ := ih (a + 1) ⟨mx, total, flag, []⟩ (by simp)
        exact ⟨k, Nat.le_succ_of_le hk, hspec⟩
      have hnull : flag = true →
          ∃ k, k ≤ n + 1 ∧ Improved.AcquireSpec env ⟨mx, total, flag, []⟩
            (Outcome.returns none, ⟨mx, total, flag, []⟩) k := by
        intro _
        exact ⟨0, Nat.zero_le _, by simp [Improved.AcquireSpec]⟩
      by_cases hlt : total < mx
      · cases hc : env.create a with
        | ok c =>
          refine ⟨0, Nat.zero_le _, ?_⟩
          simp only [Improved.getConnectionLoop, Improved.tryCreate, Improved.createNewConnection,
            hlt, hc, if_true]
          simp [Improved.AcquireSpec, hlt]
          exact ⟨a, hc⟩
        | error e =>
          cases flag with
          | false =>
            simpa [Improved.getConnectionLoop, Improved.tryCreate, Improved.createNewConnection,
              hlt, hc] using hrec rfl
          | true =>
            simpa [Improved.getConnectionLoop, Improved.tryCreate, Improved.createNewConnection,
              hlt, hc] using hnull rfl
      · cases flag with
        | false =>
          simpa [Improved.getConnectionLoop, Improved.tryCreate, hlt] using hrec rfl
        | true =>
          simpa [Improved.getConnectionLoop, Improved.tryCreate, hlt] using hnull rfl
    | cons c rest =>
      simp only [List.length_cons] at hlen
      cases flag with
      | true =>
        exact ⟨0, Nat.zero_le _, by simp [Improved.AcquireSpec, Improved.getConnectionLoop]⟩
      | false =>
        cases hp : env.probe c with
        | true =>
          exact ⟨0, Nat.zero_le _, by
            simp [Improved.AcquireSpec, Improved.getConnectionLoop, hp]⟩
        | false =>
          have hpos : total > 0 := by omega
          obtain ⟨k, hk, hspec⟩ := ih (a + 1) ⟨mx, total - 1, false, rest⟩ (by simp; omega)
          refine ⟨k + 1, Nat.succ_le_succ hk, ?_⟩
          have := improved_acquire_step env mx total false c rest _ k hp hspec
          simpa [Improved.getConnectionLoop, hp, hpos] using this

/-- Discarding one more failing connection at the head of the idle queue (optimized variant). -/
theorem optimized_acquire_step (env : DbEnv) (mx total : Nat) (flag : Bool)
    (c : Connection) (rest : List Connection)
    (r : Outcome Connection × DatabaseManager) (k : Nat)
    (hc : env.probe c = false)
    (h : Optimized.AcquireSpec env ⟨mx, total - 1, flag, rest⟩ r k) :
    Optimized.AcquireSpec env ⟨mx, total, flag, c :: rest⟩ r (k + 1) := by
  obtain ⟨hk, hall, hmax, hflag, hcases⟩ := h
  simp only at hk hall hmax hflag hcases
  have hsub : total - 1 - k = total - (k + 1) := by omega
  refine ⟨by simpa using hk, ?_, hmax, hflag, ?_⟩
  · intro d hd
    simp only [List.take_succ_cons, List.mem_cons] at hd
    rcases hd with rfl | hd
    · exact hc
    · exact hall d hd
  · simp only [List.getElem?_cons_succ, List.drop_succ_cons]
    rw [← hsub]
    exact hcases

/-- The loop of `getConnection` in `storage_bot_optimized.cpp` meets `AcquireSpec`
with at most `n` discarded connections. -/
theorem optimized_getConnectionLoop_spec (env : DbEnv) (n : Nat) :
    ∀ (a : Nat) (p : DatabaseManager),
      p.availableConnections_.length ≤ p.totalConnections_ →
      ∃ k, k ≤ n ∧ Optimized.AcquireSpec env p (Optimized.getConnectionLoop env n a p) k := by
  induction n with
  | zero =>
    intro a p _
    exact ⟨0, le_refl _, by simp [Optimized.AcquireSpec, Optimized.getConnectionLoop]⟩
  | succ n ih =>
    intro a p hlen
    rcases p with ⟨mx, total, flag, idle⟩
    cases idle with
    | nil =>
      have hrec : ∃ k, k ≤ n + 1 ∧ Optimized.AcquireSpec env ⟨mx, total, flag, []⟩
            (Optimized.getConnectionLoop env n (a + 1) ⟨mx, total, flag, []⟩) k := by
        obtain ⟨k, hk, hspec⟩ := ih (a + 1) ⟨mx, total, flag, []⟩ (by simp)
        exact ⟨k, Nat.le_succ_of_le hk, hspec⟩
      by_cases hlt : total < mx
      · cases hc : env.create a with
        | ok c =>
          cases hp : env.probe c with
          | true =>
            refine ⟨0, Nat.zero_le _, ?_⟩
            simp only [Optimized.getConnectionLoop, Optimized.tryCreate,
              Optimized.createNewConnection, hlt, hc, hp, if_true]
            simp [Optimized.AcquireSpec, hlt, hp]
            exact ⟨a, hc⟩
          | false =>
            simpa [Optimized.getConnectionLoop, Optimized.tryCreate,
              Optimized.createNewConnection, hlt, hc, hp] using hrec
        | error e =>
          simpa [Optimized.getConnectionLoop, Optimized.tryCreate,
            Optimized.createNewConnection, hlt, hc] using hrec
      · simpa [Optimized.getConnectionLoop, Optimized.tryCreate, hlt] using hrec
    | cons c rest =>
      simp only [List.length_cons] at hlen
      cases hp : env.probe c with
      | true =>
        exact ⟨0, Nat.zero_le _, by
          simp [Optimized.AcquireSpec, Optimized.getConnectionLoop, hp]⟩
      | false =>
        have hpos : total ≠ 0 := by omega
        obtain ⟨k, hk, hspec⟩ := ih (a + 1) ⟨mx, total - 1, flag, rest⟩ (by simp; omega)
        refine ⟨k + 1, Nat.succ_le_succ hk, ?_⟩
        have := optimized_acquire_step env mx total flag c rest _ k hp hspec
        simpa [Optimized.getConnectionLoop, Optimized.decSize, hp, hpos] using this

/-- C9: in `storage_bot_improved.cpp` and `storage_bot_optimized.cpp`, on a pool whose
live count covers its idle connections, `getConnection` dequeues and discards
some number `k ≤ 3` of idle connections, the first `k` of the idle queue, each of
which fails the probe; the live count is lowered by one for each of them (and
raised by one if a connection is then created) and none of them stays in the
idle queue. A connection taken from the idle queue is returned only if it passes
the probe: it is the idle connection at position `k`, with `probe = true`. -/
theorem getConnection_discards_failed_probes (env : DbEnv) (p : DatabaseManager)
    (hlen : p.availableConnections_.length ≤ p.totalConnections_) :
    (∃ k, k ≤ 3 ∧ k ≤ p.availableConnections_.length ∧
      (∀ c ∈ p.availableConnections_.take k, env.probe c = false) ∧
      ((∃ c, p.availableConnections_[k]? = some c ∧ env.probe c = true ∧
          (Improved.getConnection env p).1 = .returns (some c) ∧
          (Improved.getConnection env p).2.availableConnections_ =
            p.availableConnections_.drop (k + 1) ∧
          (Improved.getConnection env p).2.totalConnections_ = p.totalConnections_ - k) ∨
        (((Improved.getConnection env p).1 = .returns none ∨
            ∃ what, (Improved.getConnection env p).1 = .throws what) ∧
          (Improved.getConnection env p).2.availableConnections_ =
            p.availableConnections_.drop k ∧
          (Improved.getConnection env p).2.totalConnections_ = p.totalConnections_ - k) ∨
        (∃ c, (∃ i, env.create i = .ok c) ∧
          (Improved.getConnection env p).1 = .returns (some c) ∧
          p.availableConnections_.drop k = [] ∧
          (Improved.getConnection env p).2.availableConnections_ = [] ∧
          (Improved.getConnection env p).2.totalConnections_ = p.totalConnections_ - k + 1))) ∧
    (∃ k, k ≤ 3 ∧ k ≤ p.availableConnections_.length ∧
      (∀ c ∈ p.availableConnections_.take k, env.probe c = false) ∧
      ((∃ c, p.availableConnections_[k]? = some c ∧ env.probe c = true ∧
          (Optimized.getConnection env p).1 = .returns c ∧
          (Optimized.getConnection env p).2.availableConnections_ =
            p.availableConnections_.drop (k + 1) ∧
          (Optimized.getConnection env p).2.totalConnections_ = p.totalConnections_ - k) ∨
        ((∃ what, (Optimized.getConnection env p).1 = .throws what) ∧
          (Optimized.getConnection env p).2.availableConnections_ =
            p.availableConnections_.drop k ∧
          (Optimized.getConnection env p).2.totalConnections_ = p.totalConnections_ - k) ∨
        (∃ c, (∃ i, env.create i = .ok c) ∧ env.probe c = true ∧
          (Optimized.getConnection env p).1 = .returns c ∧
          p.availableConnections_.drop k = [] ∧
          (Optimized.getConnection env p).2.availableConnections_ = [] ∧
          (Optimized.getConnection env p).2.totalConnections_ = p.totalConnections_ - k + 1))) := by
  constructor
  · obtain ⟨k, hk, h1, h2, _, _, h3⟩ := improved_getConnectionLoop_spec env 3 0 p hlen
    refine ⟨k, hk, h1, h2, ?_⟩
    rcases h3 with h | h | ⟨c, hc, hr, hd, hi, _, ht⟩
    · exact Or.inl h
    · exact Or.inr (Or.inl h)
    · exact Or.inr (Or.inr ⟨c, hc, hr, hd, hi, ht⟩)
  · obtain ⟨k, hk, h1, h2, _, _, h3⟩ :=
      optimized_getConnectionLoop_spec env Optimized.RETRY_ATTEMPTS 0 p hlen
    refine ⟨k, hk, h1, h2, ?_⟩
    rcases h3 with h | h | ⟨c, hc, hp, hr, hd, hi, _, ht⟩
    · exact Or.inl h
    · exact Or.inr (Or.inl h)
    · exact Or.inr (Or.inr ⟨c, hc, hp, hr, hd, hi, ht⟩)

/-- Witness of C9: a pool whose idle queue holds the dead connection `0` before the
live connection `1`; both variants discard `0`, return `1` and lower the live
count from 2 to 1. -/
theorem getConnection_discards_failed_probes_witness :
    twoIdle.availableConnections_.length ≤ twoIdle.totalConnections_ ∧
    Improved.getConnection flakyEnv twoIdle = (.returns (some ⟨1⟩), ⟨10, 1, false, []⟩) ∧
    Optimized.getConnection flakyEnv twoIdle = (.returns ⟨1⟩, ⟨10, 1, false, []⟩) ∧
    (∃ k, k ≤ 3 ∧ ∀ c ∈ twoIdle.availableConnections_.take k, flakyEnv.probe c = false) :=
  ⟨by decide, by decide, by decide,
    (getConnection_discards_failed_probes flakyEnv twoIdle (by decide)).1.imp
      (fun _ h => ⟨h.1, h.2.2.1⟩)⟩

/-! ## Connection pool: the bound on live connections -/

/-- The loop of `initializePool` keeps the live count equal to the number of idle
connections and adds at most one connection per iteration. -/
theorem improved_initializeFrom_count (env : DbEnv) (n : Nat) :
    ∀ (i : Nat) (p : DatabaseManager),
      p.totalConnections_ = p.availableConnections_.length →
      (Improved.initializeFrom env n i p).maxPoolSize_ = p.maxPoolSize_ ∧
      (Improved.initializeFrom env n i p).shutdownFlag_ = p.shutdownFlag_ ∧
      (Improved.initializeFrom env n i p).totalConnections_ =
        (Improved.initializeFrom env n i p).availableConnections_.length ∧
      (Improved.initializeFrom env n i p).totalConnections_ ≤ p.totalConnections_ + n := by
  induction n with
  | zero =>
    intro i p h
    simp [Improved.initializeFrom, h]
  | succ n ih =>
    intro i p h
    cases hc : env.create i with
    | ok c =>
      have := ih (i + 1)
        { p with
          totalConnections_ := p.totalConnections_ + 1
          availableConnections_ := p.availableConnections_ ++ [c] }
        (by simp [h])
      simp only [Improved.initializeFrom, Improved.createNewConnection, hc]
      obtain ⟨h1, h2, h3, h4⟩ := this
      exact ⟨h1, h2, h3, by simp only at h4; omega⟩
    | error e =>
      have := ih (i + 1) p h
      simp only [Improved.initializeFrom, Improved.createNewConnection, hc]
      obtain ⟨h1, h2, h3, h4⟩ := this
      exact ⟨h1, h2, h3, by omega⟩

/-- The invariant holds right after the constructor. -/
theorem poolRun_start_inv (env : DbEnv) (poolSize : Nat) :
    Improved.PoolRun.Inv poolSize (Improved.PoolRun.start env poolSize) := by
  obtain ⟨h1, h2, h3, h4⟩ :=
    improved_initializeFrom_count env (min 5 poolSize) 0 (DatabaseManager.fresh poolSize) rfl
  simp only [DatabaseManager.fresh] at h1 h2 h3 h4
  refine ⟨h1, h2, ?_, ?_⟩
  · have : min 5 poolSize ≤ poolSize := Nat.min_le_right _ _
    simp only [Improved.PoolRun.start, Improved.initializePool, DatabaseManager.fresh]
    omega
  · simp only [Improved.PoolRun.start, Improved.initializePool, DatabaseManager.fresh,
      List.length_nil, Nat.add_zero]
    exact h3

/-- Every call of a well-formed client keeps the invariant. -/
theorem poolRun_call_inv (poolSize : Nat) (s s1 : Improved.PoolRun)
    (op : Improved.PoolCall) (hinv : Improved.PoolRun.Inv poolSize s)
    (hcall : s.call op = some s1) : Improved.PoolRun.Inv poolSize s1 := by
  obtain ⟨hmax, hflag, hle, hcount⟩ := hinv
  cases op with
  | get env =>
    have hspec : ∃ k, k ≤ 3 ∧
        Improved.AcquireSpec env s.pool (Improved.getConnection env s.pool) k :=
      improved_getConnectionLoop_spec env 3 0 s.pool (by omega)
    obtain ⟨k, _, hk, _, hmax1, hflag1, hcases⟩ := hspec
    simp only [Improved.PoolRun.call] at hcall
    rcases hg : Improved.getConnection env s.pool with ⟨r1, p1⟩
    rw [hg] at hcall hmax1 hflag1 hcases
    simp only at hmax1 hflag1 hcases
    rcases hcases with ⟨c, hget, _, hr, hidle, htot⟩ | ⟨hr, hidle, htot⟩ |
      ⟨c, _, hr, hdrop, hidle, hlt, htot⟩
    · subst hr
      simp only [Option.some.injEq] at hcall
      subst hcall
      have hklt : k < s.pool.availableConnections_.length := by
        by_contra hge
        rw [List.getElem?_eq_none (Nat.le_of_not_lt hge)] at hget
        exact Option.noConfusion hget
      refine ⟨hmax1.trans hmax, hflag1.trans hflag, ?_, ?_⟩
      · show p1.totalConnections_ ≤ poolSize
        omega
      · show p1.totalConnections_ = p1.availableConnections_.length + (c :: s.checkedOut).length
        rw [hidle, htot, List.length_drop, List.length_cons]
        omega
    · have hs1 : s1 = { pool := p1, checkedOut := s.checkedOut } := by
        rcases hr with hr | ⟨what, hr⟩ <;> subst hr <;> simp at hcall <;> exact hcall.symm
      subst hs1
      refine ⟨hmax1.trans hmax, hflag1.trans hflag, ?_, ?_⟩
      · show p1.totalConnections_ ≤ poolSize
        omega
      · show p1.totalConnections_ = p1.availableConnections_.length + s.checkedOut.length
        rw [hidle, htot, List.length_drop]
        omega
    · subst hr
      simp only [Option.some.injEq] at hcall
      subst hcall
      have hkeq : s.pool.availableConnections_.length ≤ k := by
        have := congrArg List.length hdrop
        rw [List.length_drop, List.length_nil] at this
        omega
      refine ⟨hmax1.trans hmax, hflag1.trans hflag, ?_, ?_⟩
      · show p1.totalConnections_ ≤ poolSize
        omega
      · show p1.totalConnections_ = p1.availableConnections_.length + (c :: s.checkedOut).length
        rw [hidle, htot, List.length_nil, List.length_cons]
        omega
  | release c env =>
    simp only [Improved.PoolRun.call] at hcall
    by_cases hmem : c ∈ s.checkedOut
    · rw [if_pos hmem] at hcall
      simp only [Option.some.injEq] at hcall
      subst hcall
      have hpos : 0 < s.checkedOut.length := List.length_pos_of_mem hmem
      have hlen : (s.checkedOut.erase c).length = s.checkedOut.length - 1 :=
        List.length_erase_of_mem hmem
      cases hp : env.probe c with
      | true =>
        refine ⟨?_, ?_, ?_, ?_⟩ <;>
          simp [Improved.releaseConnection, releaseConnectionGuarded, hflag, hp, hmax, hle]
        rw [hlen]
        omega
      | false =>
        have htpos : 0 < s.pool.totalConnections_ := by omega
        refine ⟨?_, ?_, ?_, ?_⟩ <;>
          simp [Improved.releaseConnection, releaseConnectionGuarded, hflag, hp, hmax, htpos]
        · omega
        · rw [hlen]
          omega
    · rw [if_neg hmem] at hcall
      exact Option.noConfusion hcall

/-- Every sequence of calls of a well-formed client keeps the invariant. -/
theorem poolRun_calls_inv (poolSize : Nat) (ops : List Improved.PoolCall) :
    ∀ (s s1 : Improved.PoolRun), Improved.PoolRun.Inv poolSize s →
      s.calls ops = some s1 → Improved.PoolRun.Inv poolSize s1 := by
  induction ops with
  | nil =>
    intro s s1 hinv h
    simp only [Improved.PoolRun.calls, Option.some.injEq] at h
    exact h ▸ hinv
  | cons op ops ih =>
    intro s s1 hinv h
    simp only [Improved.PoolRun.calls] at h
    cases hc : s.call op with
    | none =>
      rw [hc] at h
      exact Option.noConfusion h
    | some s2 =>
      rw [hc] at h
      exact ih s2 s1 (poolRun_call_inv poolSize s s2 op hinv hc) h

/-- C8: a pool of `storage_bot_improved.cpp` is constructed with maximum `poolSize`
(`initializePool` with arbitrary creation outcomes `env0`) and then serves any
finite sequence `ops` of `getConnection` and `releaseConnection` calls, each
with its own creation and probe outcomes and each release giving back a
connection that is checked out. In the state `s` reached, the live count
`totalConnections_` is at most `poolSize` and equals the number of idle plus
checked-out connections. The empty sequence is the state right after
`initializePool`; every prefix of a sequence is a sequence, so the bound holds
at every point of a run. -/
theorem pool_live_count_within_maximum (env0 : DbEnv) (poolSize : Nat)
    (ops : List Improved.PoolCall) (s : Improved.PoolRun)
    (hrun : (Improved.PoolRun.start env0 poolSize).calls ops = some s) :
    s.pool.maxPoolSize_ = poolSize ∧
    s.pool.totalConnections_ ≤ poolSize ∧
    s.pool.totalConnections_ = s.pool.availableConnections_.length + s.checkedOut.length := by
  obtain ⟨h1, _, h3, h4⟩ :=
    poolRun_calls_inv poolSize ops _ s (poolRun_start_inv env0 poolSize) hrun
  exact ⟨h1, h3, h4⟩

/-- Witness of C8: a pool of maximum 2 is initialised with two connections; the
first acquisition discards the dead connection `0` and returns `1`, the second
creates connection `100`, and connection `1` is released dead. -/
theorem pool_live_count_within_maximum_witness :
    (Improved.PoolRun.start liveEnv 2).calls Improved.sampleCalls = some Improved.sampleEnd ∧
    Improved.sampleEnd.pool.maxPoolSize_ = 2 ∧
    Improved.sampleEnd.pool.totalConnections_ ≤ 2 ∧
    Improved.sampleEnd.pool.totalConnections_ =
      Improved.sampleEnd.pool.availableConnections_.length +
        Improved.sampleEnd.checkedOut.length :=
  ⟨by decide,
    pool_live_count_within_maximum liveEnv 2 Improved.sampleCalls Improved.sampleEnd
      (by decide)⟩

/-! ## Connection pool: release, retry limit, shutdown -/

/-- C11 as stated fails in `storage_bot_improved.cpp` and `storage_bot.cpp` for a pool
that is shut down. A pool of maximum 10 is initialised and shut down, a later
`getConnection` creates connection `100` (live count 1); its release leaves the
live count at 1 instead of lowering it. Likewise the release, after shutdown,
of a connection taken out before leaves the reset count 0 as it is. -/
theorem releaseConnection_shutdown_keeps_count :
    Improved.getConnection laterEnv
        (Improved.shutdown (Improved.initializePool liveEnv (DatabaseManager.fresh 10))) =
      (.returns (some ⟨100⟩), ⟨10, 1, true, []⟩) ∧
    Improved.releaseConnection laterEnv ⟨10, 1, true, []⟩ (some ⟨100⟩) = ⟨10, 1, true, []⟩ ∧
    StorageBot.releaseConnection laterEnv ⟨10, 1, true, []⟩ (some ⟨100⟩) = ⟨10, 1, true, []⟩ ∧
    (Improved.releaseConnection laterEnv ⟨10, 1, true, []⟩ (some ⟨100⟩)).totalConnections_ + 1 ≠
      (⟨10, 1, true, []⟩ : DatabaseManager).totalConnections_ ∧
    Improved.releaseConnection liveEnv ⟨10, 0, true, []⟩ (some ⟨0⟩) = ⟨10, 0, true, []⟩ := by
  refine ⟨?_, ?_, ?_, ?_, ?_⟩ <;> decide

/-- C11, amended: the release of a connection `c` into a pool with a positive live
count. In `storage_bot_improved.cpp` and `storage_bot.cpp` a shut-down pool is
left exactly as it was (the connection is not added, the live count is
unchanged), and an open pool whose probe of `c` fails loses one from its live
count, the idle queue unchanged. In `storage_bot_optimized.cpp` the live count
drops by one, the idle queue unchanged, when the pool is shut down or the probe
fails. In all three variants an open pool whose probe of `c` passes gets `c`
appended to its idle queue, the live count unchanged. -/
theorem releaseConnection_effect (env : DbEnv) (p : DatabaseManager) (c : Connection)
    (hpos : 0 < p.totalConnections_) :
    (p.shutdownFlag_ = true →
      Improved.releaseConnection env p (some c) = p ∧
      StorageBot.releaseConnection env p (some c) = p) ∧
    (p.shutdownFlag_ = false → env.probe c = false →
      Improved.releaseConnection env p (some c) =
        { p with totalConnections_ := p.totalConnections_ - 1 } ∧
      StorageBot.releaseConnection env p (some c) =
        { p with totalConnections_ := p.totalConnections_ - 1 }) ∧
    (p.shutdownFlag_ = true ∨ env.probe c = false →
      Optimized.releaseConnection env p (some c) =
        { p with totalConnections_ := p.totalConnections_ - 1 }) ∧
    (p.shutdownFlag_ = false → env.probe c = true →
      Improved.releaseConnection env p (some c) =
        { p with availableConnections_ := p.availableConnections_ ++ [c] } ∧
      StorageBot.releaseConnection env p (some c) =
        { p with availableConnections_ := p.availableConnections_ ++ [c] } ∧
      Optimized.releaseConnection env p (some c) =
        { p with availableConnections_ := p.availableConnections_ ++ [c] }) := by
  have hne : p.totalConnections_ ≠ 0 := Nat.pos_iff_ne_zero.mp hpos
  refine ⟨?_, ?_, ?_, ?_⟩
  · intro hflag
    simp [Improved.releaseConnection, StorageBot.releaseConnection, releaseConnectionGuarded,
      hflag]
  · intro hflag hprobe
    simp [Improved.releaseConnection, StorageBot.releaseConnection, releaseConnectionGuarded,
      hflag, hprobe, hpos]
  · intro h
    rcases h with hflag | hprobe
    · simp [Optimized.releaseConnection, Optimized.decSize, hflag, hne]
    · simp [Optimized.releaseConnection, Optimized.decSize, hprobe, hne]
  · intro hflag hprobe
    simp [Improved.releaseConnection, StorageBot.releaseConnection, releaseConnectionGuarded,
      Optimized.releaseConnection, hflag, hprobe]

/-- Witness of the amended C11: the dead connection `0` is released into an open
pool with live count 1; the improved variant lowers the count to 0. -/
theorem releaseConnection_effect_witness :
    0 < drainedPool.totalConnections_ ∧
    Improved.releaseConnection deadEnv drainedPool (some ⟨0⟩) =
      { drainedPool with totalConnections_ := drainedPool.totalConnections_ - 1 } :=
  ⟨by decide,
    ((releaseConnection_effect deadEnv drainedPool ⟨0⟩ (by decide)).2.1 rfl rfl).1⟩

/-- C12: `getConnection` of `storage_bot_improved.cpp` on an open pool whose live count
covers its idle queue. If the first three idle connections all fail the probe,
the call throws after discarding exactly these three, whatever follows them in
the queue, and the live count is lower by three. If the idle connection at a
position `j < 3` passes the probe and those before it fail, the call returns
it, having discarded the `j` connections before it. -/
theorem getConnection_improved_three_attempts (env : DbEnv) (p : DatabaseManager)
    (hopen : p.shutdownFlag_ = false)
    (hlen : p.availableConnections_.length ≤ p.totalConnections_) :
    (∀ c1 c2 c3 rest, p.availableConnections_ = c1 :: c2 :: c3 :: rest →
      env.probe c1 = false → env.probe c2 = false → env.probe c3 = false →
      Improved.getConnection env p =
        (.throws "Failed to get valid database connection after 3 attempts",
          { p with
            availableConnections_ := rest
            totalConnections_ := p.totalConnections_ - 3 })) ∧
    (∀ j c, j < 3 → p.availableConnections_[j]? = some c → env.probe c = true →
      (∀ d ∈ p.availableConnections_.take j, env.probe d = false) →
      Improved.getConnection env p =
        (.returns (some c),
          { p with
            availableConnections_ := p.availableConnections_.drop (j + 1)
            totalConnections_ := p.totalConnections_ - j })) := by
  rcases p with ⟨mx, total, flag, idle⟩
  simp only at hopen hlen
  subst hopen
  constructor
  · intro c1 c2 c3 rest hidle h1 h2 h3
    simp only at hidle
    subst hidle
    simp only [List.length_cons] at hlen
    have e1 : total > 0 := by omega
    have e2 : total - 1 > 0 := by omega
    have e3 : total - 1 - 1 > 0 := by omega
    have e4 : total - 1 - 1 - 1 = total - 3 := by omega
    simp [Improved.getConnection, Improved.getConnectionLoop, h1, h2, h3, e1, e2, e3, e4]
  · intro j c hj hget hc hbefore
    simp only at hget hbefore
    match j, idle, hget, hbefore, hlen with
    | 0, d0 :: rest, hget, _, _ =>
      simp only [List.getElem?_cons_zero, Option.some.injEq] at hget
      subst hget
      simp [Improved.getConnection, Improved.getConnectionLoop, hc]
    | 1, d0 :: d1 :: rest, hget, hbefore, hlen =>
      simp only [List.getElem?_cons_succ, List.getElem?_cons_zero, Option.some.injEq] at hget
      subst hget
      have h0 : env.probe d0 = false := hbefore d0 (by simp)
      simp only [List.length_cons] at hlen
      have e1 : total > 0 := by omega
      simp [Improved.getConnection, Improved.getConnectionLoop, hc, h0, e1]
    | 2, d0 :: d1 :: d2 :: rest, hget, hbefore, hlen =>
      simp only [List.getElem?_cons_succ, List.getElem?_cons_zero, Option.some.injEq] at hget
      subst hget
      have h0 : env.probe d0 = false := hbefore d0 (by simp)
      have h1 : env.probe d1 = false := hbefore d1 (by simp)
      simp only [List.length_cons] at hlen
      have e1 : total > 0 := by omega
      have e2 : total - 1 > 0 := by omega
      have e4 : total - 1 - 1 = total - 2 := by omega
      simp [Improved.getConnection, Improved.getConnectionLoop, hc, h0, h1, e1, e2, e4]

/-- Witness of C12: a pool at its maximum 4 with idle queue `0`, `1`, `2`, `3`, of
which only `3` is alive: the call throws, `3` stays idle and the live count is 1. -/
theorem getConnection_improved_three_attempts_witness :
    fourIdle.shutdownFlag_ = false ∧
    fourIdle.availableConnections_.length ≤ fourIdle.totalConnections_ ∧
    Improved.getConnection fourthLiveEnv fourIdle =
      (.throws "Failed to get valid database connection after 3 attempts",
        { fourIdle with
          availableConnections_ := [⟨3⟩]
          totalConnections_ := fourIdle.totalConnections_ - 3 }) :=
  ⟨rfl, by decide,
    (getConnection_improved_three_attempts fourthLiveEnv fourIdle rfl (by decide)).1
      ⟨0⟩ ⟨1⟩ ⟨2⟩ [⟨3⟩] rfl rfl rfl rfl⟩

/-- C13: in each variant `shutdown` leaves the pool marked closed with an empty idle
queue, and a second `shutdown` changes nothing more. -/
theorem shutdown_closes_and_is_idempotent (p : DatabaseManager) :
    ((Improved.shutdown p).shutdownFlag_ = true ∧
      (Improved.shutdown p).availableConnections_ = [] ∧
      Improved.shutdown (Improved.shutdown p) = Improved.shutdown p) ∧
    ((Optimized.shutdown p).shutdownFlag_ = true ∧
      (Optimized.shutdown p).availableConnections_ = [] ∧
      Optimized.shutdown (Optimized.shutdown p) = Optimized.shutdown p) ∧
    ((StorageBot.shutdown p).shutdownFlag_ = true ∧
      (StorageBot.shutdown p).availableConnections_ = [] ∧
      StorageBot.shutdown (StorageBot.shutdown p) = StorageBot.shutdown p) := by
  refine ⟨⟨rfl, rfl, rfl⟩, ⟨rfl, rfl, rfl⟩, ⟨rfl, rfl, rfl⟩⟩

/-! ## The registry as a map -/

/-- After `m[k] = v` the key `k` maps to `v`. -/
theorem stdMap_findIn_assignIn_self {V : Type} (l : List (String × V)) (k : String) (v : V) :
    StdMap.findIn (StdMap.assignIn l k v) k = some v := by
  induction l with
  | nil => simp [StdMap.assignIn, StdMap.findIn]
  | cons e rest ih =>
    rcases e with ⟨k1, v1⟩
    by_cases h : k1 = k
    · simp [StdMap.assignIn, StdMap.findIn, h]
    · simp [StdMap.assignIn, StdMap.findIn, h, ih]

/-- The assignment `m[k] = v` does not change what another key maps to. -/
theorem stdMap_findIn_assignIn_ne {V : Type} (l : List (String × V)) (k k2 : String) (v : V)
    (h : k2 ≠ k) : StdMap.findIn (StdMap.assignIn l k v) k2 = StdMap.findIn l k2 := by
  induction l with
  | nil => simp [StdMap.assignIn, StdMap.findIn, Ne.symm h]
  | cons e rest ih =>
    rcases e with ⟨k1, v1⟩
    by_cases h1 : k1 = k
    · subst h1
      simp [StdMap.assignIn, StdMap.findIn, Ne.symm h]
    · by_cases h2 : k1 = k2
      · subst h2
        simp [StdMap.assignIn, StdMap.findIn, h1]
      · simp [StdMap.assignIn, StdMap.findIn, h1, h2, ih]

/-- A second assignment to the same key overrides the first. -/
theorem stdMap_assignIn_assignIn {V : Type} (l : List (String × V)) (k : String) (v w : V) :
    StdMap.assignIn (StdMap.assignIn l k v) k w = StdMap.assignIn l k w := by
  induction l with
  | nil => simp [StdMap.assignIn]
  | cons e rest ih =>
    rcases e with ⟨k1, v1⟩
    by_cases h : k1 = k
    · simp [StdMap.assignIn, h]
    · simp [StdMap.assignIn, h, ih]

/-- Assigning to a key the value it already maps to changes nothing. -/
theorem stdMap_assignIn_of_findIn {V : Type} (l : List (String × V)) (k : String) (r : V)
    (h : StdMap.findIn l k = some r) : StdMap.assignIn l k r = l := by
  induction l with
  | nil => simp [StdMap.findIn] at h
  | cons e rest ih =>
    rcases e with ⟨k1, v1⟩
    by_cases h1 : k1 = k
    · simp [StdMap.findIn, h1] at h
      simp [StdMap.assignIn, h1, h]
    · simp [StdMap.findIn, h1] at h
      simp [StdMap.assignIn, h1, ih h]

/-- Assigning to a key that is present keeps the number of entries. -/
theorem stdMap_length_assignIn_of_findIn {V : Type} (l : List (String × V)) (k : String)
    (r v : V) (h : StdMap.findIn l k = some r) :
    (StdMap.assignIn l k v).length = l.length := by
  induction l with
  | nil => simp [StdMap.findIn] at h
  | cons e rest ih =>
    rcases e with ⟨k1, v1⟩
    by_cases h1 : k1 = k
    · simp [StdMap.assignIn, h1]
    · simp [StdMap.findIn, h1] at h
      simp [StdMap.assignIn, h1, ih h]

/-- Erasing a key right after assigning to it is erasing it. -/
theorem stdMap_eraseIn_assignIn {V : Type} (l : List (String × V)) (k : String) (v : V)
    (r : V) (h : StdMap.findIn l k = some r) :
    StdMap.eraseIn (StdMap.assignIn l k v) k = StdMap.eraseIn l k := by
  induction l with
  | nil => simp [StdMap.findIn] at h
  | cons e rest ih =>
    rcases e with ⟨k1, v1⟩
    by_cases h1 : k1 = k
    · simp [StdMap.assignIn, StdMap.eraseIn, h1]
    · simp [StdMap.findIn, h1] at h
      simp [StdMap.assignIn, StdMap.eraseIn, h1, ih h]

/-- Erasing a key does not change what another key maps to. -/
theorem stdMap_findIn_eraseIn_ne {V : Type} (l : List (String × V)) (k k2 : String)
    (h : k2 ≠ k) : StdMap.findIn (StdMap.eraseIn l k) k2 = StdMap.findIn l k2 := by
  induction l with
  | nil => simp [StdMap.eraseIn]
  | cons e rest ih =>
    rcases e with ⟨k1, v1⟩
    by_cases h1 : k1 = k
    · subst h1
      simp [StdMap.eraseIn, StdMap.findIn, Ne.symm h]
    · by_cases h2 : k1 = k2
      · subst h2
        simp [StdMap.eraseIn, StdMap.findIn, h1]
      · simp [StdMap.eraseIn, StdMap.findIn, h1, h2, ih]

/-- A key that labels no entry is not found. -/
theorem stdMap_findIn_of_not_mem {V : Type} (l : List (String × V)) (k : String)
    (h : k ∉ l.map Prod.fst) : StdMap.findIn l k = none := by
  induction l with
  | nil => simp [StdMap.findIn]
  | cons e rest ih =>
    rcases e with ⟨k1, v1⟩
    simp only [List.map_cons, List.mem_cons, not_or] at h
    simp [StdMap.findIn, Ne.symm h.1, ih h.2]

/-- With distinct keys, an erased key is not found any more. -/
theorem stdMap_findIn_eraseIn_self {V : Type} (l : List (String × V)) (k : String)
    (hwf : (l.map Prod.fst).Nodup) : StdMap.findIn (StdMap.eraseIn l k) k = none := by
  induction l with
  | nil => simp [StdMap.eraseIn, StdMap.findIn]
  | cons e rest ih =>
    rcases e with ⟨k1, v1⟩
    simp only [List.map_cons, List.nodup_cons] at hwf
    by_cases h1 : k1 = k
    · subst h1
      simp [StdMap.eraseIn, stdMap_findIn_of_not_mem rest k1 hwf.1]
    · simp [StdMap.eraseIn, StdMap.findIn, h1, ih hwf.2]

/-- Erasing a key that is present removes one entry. -/
theorem stdMap_length_eraseIn {V : Type} (l : List (String × V)) (k : String) (r : V)
    (h : StdMap.findIn l k = some r) : (StdMap.eraseIn l k).length + 1 = l.length := by
  induction l with
  | nil => simp [StdMap.findIn] at h
  | cons e rest ih =>
    rcases e with ⟨k1, v1⟩
    by_cases h1 : k1 = k
    · simp [StdMap.eraseIn, h1]
    · simp [StdMap.findIn, h1] at h
      simp [StdMap.eraseIn, h1, ih h]

/-- The keys left by an erasure are among the keys before, in the same order. -/
theorem stdMap_keys_eraseIn_sublist {V : Type} (l : List (String × V)) (k : String) :
    ((StdMap.eraseIn l k).map Prod.fst).Sublist (l.map Prod.fst) := by
  induction l with
  | nil => simp [StdMap.eraseIn]
  | cons e rest ih =>
    rcases e with ⟨k1, v1⟩
    by_cases h1 : k1 = k
    · simp [StdMap.eraseIn, h1]
    · simp [StdMap.eraseIn, h1, ih]

/-! ## Worker supervisor: stop, pause, resume -/

/-- C14: in `storage_bot_improved.cpp` and `storage_bot_optimized.cpp`, for an identifier
that is not a key of the registry, `stopBot`, `pauseBot` and `resumeBot` each
return `false` and leave the manager, hence the registry, unchanged, whatever
the worker tasks are doing. -/
theorem unknown_worker_calls_change_nothing (id : String) (task : TaskEnd)
    (ib : Improved.BotManager) (ob : Optimized.BotManager)
    (hi : ib.activeBots_.find id = none) (ho : ob.activeBots_.find id = none) :
    (ib.stopBot task id = (.returns false, ib) ∧ ib.pauseBot id = (false, ib) ∧
      ib.resumeBot id = (false, ib)) ∧
    (ob.stopBot task id = (.returns false, ob) ∧ ob.pauseBot id = (false, ob) ∧
      ob.resumeBot id = (false, ob)) := by
  refine ⟨⟨?_, ?_, ?_⟩, ⟨?_, ?_, ?_⟩⟩
  · simp [Improved.BotManager.stopBot, hi]
  · simp [Improved.BotManager.pauseBot, hi]
  · simp [Improved.BotManager.resumeBot, hi]
  · simp [Optimized.BotManager.stopBot, ho]
  · simp [Optimized.BotManager.pauseBot, ho]
  · simp [Optimized.BotManager.resumeBot, ho]

/-- Witness of C14: the identifier `W9` in the improved registry of `W1` and `W2`
and in the optimized registry of `W1`. -/
theorem unknown_worker_calls_change_nothing_witness :
    Improved.twoWorkers.activeBots_.find "W9" = none ∧
    Optimized.oneWorker.activeBots_.find "W9" = none ∧
    Improved.twoWorkers.stopBot .running "W9" = (.returns false, Improved.twoWorkers) ∧
    Optimized.oneWorker.stopBot .running "W9" = (.returns false, Optimized.oneWorker) ∧
    Optimized.oneWorker.pauseBot "W9" = (false, Optimized.oneWorker) :=
  ⟨by decide, by decide,
    (unknown_worker_calls_change_nothing "W9" .running Improved.twoWorkers Optimized.oneWorker
      (by decide) (by decide)).1.1,
    (unknown_worker_calls_change_nothing "W9" .running Improved.twoWorkers Optimized.oneWorker
      (by decide) (by decide)).2.1,
    (unknown_worker_calls_change_nothing "W9" .running Improved.twoWorkers Optimized.oneWorker
      (by decide) (by decide)).2.2.1⟩

/-- C15: in `storage_bot_improved.cpp`, for a registry in which `id` maps to the record
`r`: `pauseBot(id)` and `resumeBot(id)` return `true`; after `pauseBot`
`isBotPaused(id)` is true and after `resumeBot` it is false; each call repeated
changes nothing more; `resumeBot` after `pauseBot` gives back the manager of a
worker that was active; the record of `id` afterwards is `r` with only `isActive`
set, every other identifier maps to what it mapped to, and the number of
entries and the launched tasks are unchanged. -/
theorem pause_resume_improved_toggle (bm : Improved.BotManager) (id : String)
    (r : Improved.BotConfig) (h : bm.activeBots_.find id = some r) :
    ((bm.pauseBot id).1 = true ∧ (bm.pauseBot id).2.isBotPaused id = true) ∧
    ((bm.resumeBot id).1 = true ∧ (bm.resumeBot id).2.isBotPaused id = false) ∧
    ((bm.pauseBot id).2.pauseBot id = (true, (bm.pauseBot id).2) ∧
      (bm.resumeBot id).2.resumeBot id = (true, (bm.resumeBot id).2)) ∧
    (r.isActive = true → ((bm.pauseBot id).2.resumeBot id).2 = bm) ∧
    ((bm.pauseBot id).2.activeBots_.find id = some { r with isActive := false } ∧
      (bm.resumeBot id).2.activeBots_.find id = some { r with isActive := true }) ∧
    (∀ k, k ≠ id →
      (bm.pauseBot id).2.activeBots_.find k = bm.activeBots_.find k ∧
      (bm.resumeBot id).2.activeBots_.find k = bm.activeBots_.find k) ∧
    ((bm.pauseBot id).2.activeBots_.size = bm.activeBots_.size ∧
      (bm.resumeBot id).2.activeBots_.size = bm.activeBots_.size) ∧
    ((bm.pauseBot id).2.workerTasks = bm.workerTasks ∧
      (bm.resumeBot id).2.workerTasks = bm.workerTasks) := by
  rcases bm with ⟨⟨entries⟩, tasks⟩
  have hf : StdMap.findIn entries id = some r := h
  have hp : Improved.BotManager.pauseBot ⟨⟨entries⟩, tasks⟩ id =
      (true, ⟨⟨StdMap.assignIn entries id { r with isActive := false }⟩, tasks⟩) := by
    simp [Improved.BotManager.pauseBot, StdMap.find, StdMap.assign, hf]
  have hr : Improved.BotManager.resumeBot ⟨⟨entries⟩, tasks⟩ id =
      (true, ⟨⟨StdMap.assignIn entries id { r with isActive := true }⟩, tasks⟩) := by
    simp [Improved.BotManager.resumeBot, StdMap.find, StdMap.assign, hf]
  rw [hp, hr]
  refine ⟨⟨rfl, ?_⟩, ⟨rfl, ?_⟩, ⟨?_, ?_⟩, ?_, ⟨?_, ?_⟩, ?_, ⟨?_, ?_⟩, ⟨rfl, rfl⟩⟩
  · simp [Improved.BotManager.isBotPaused, StdMap.find, stdMap_findIn_assignIn_self]
  · simp [Improved.BotManager.isBotPaused, StdMap.find, stdMap_findIn_assignIn_self]
  · simp [Improved.BotManager.pauseBot, StdMap.find, StdMap.assign, stdMap_findIn_assignIn_self,
      stdMap_assignIn_assignIn]
  · simp [Improved.BotManager.resumeBot, StdMap.find, StdMap.assign,
      stdMap_findIn_assignIn_self, stdMap_assignIn_assignIn]
  · intro hact
    have hrec : ({ r with isActive := true } : Improved.BotConfig) = r := by
      cases r
      simp only at hact
      subst hact
      rfl
    simp [Improved.BotManager.resumeBot, StdMap.find, StdMap.assign,
      stdMap_findIn_assignIn_self, stdMap_assignIn_assignIn, hrec,
      stdMap_assignIn_of_findIn entries id r hf]
  · simp [StdMap.find, stdMap_findIn_assignIn_self]
  · simp [StdMap.find, stdMap_findIn_assignIn_self]
  · intro k hk
    simp [StdMap.find, stdMap_findIn_assignIn_ne entries id k _ hk]
  · simp [StdMap.size, stdMap_length_assignIn_of_findIn entries id r _ hf]
  · simp [StdMap.size, stdMap_length_assignIn_of_findIn entries id r _ hf]

/-- Witness of C15: worker `W1` of the registry of `W1` and `W2`. -/
theorem pause_resume_improved_toggle_witness :
    Improved.twoWorkers.activeBots_.find "W1" = some Improved.recordW1 ∧
    (Improved.twoWorkers.pauseBot "W1").2.isBotPaused "W1" = true ∧
    ((Improved.twoWorkers.pauseBot "W1").2.resumeBot "W1").2 = Improved.twoWorkers :=
  ⟨by decide,
    (pause_resume_improved_toggle Improved.twoWorkers "W1" Improved.recordW1 (by decide)).1.2,
    (pause_resume_improved_toggle Improved.twoWorkers "W1" Improved.recordW1
      (by decide)).2.2.2.1 rfl⟩

/-- In `storage_bot_improved.cpp`, for a registry (a map, so with distinct keys) in
which `id` maps to a record and whose task has returned when `stopBot` locks
`botsMutex_` again, `stopBot(id)` returns `true` and the registry afterwards is
the old one with the entry of `id` erased: `id` is no longer a key, there is one
entry less, every other identifier maps to what it mapped to, and the keys are
still distinct. -/
theorem improved_stopBot_removes_ended_worker (bm : Improved.BotManager) (id : String)
    (r : Improved.BotConfig) (task : TaskEnd) (hwf : bm.activeBots_.WF)
    (h : bm.activeBots_.find id = some r) (htask : task ≠ .running) :
    bm.stopBot task id = (.returns true, { bm with activeBots_ := bm.activeBots_.erase id }) ∧
    (bm.stopBot task id).2.activeBots_.find id = none ∧
    (bm.stopBot task id).2.activeBots_.size + 1 = bm.activeBots_.size ∧
    (∀ k, k ≠ id → (bm.stopBot task id).2.activeBots_.find k = bm.activeBots_.find k) ∧
    (bm.stopBot task id).2.activeBots_.WF ∧
    (bm.stopBot task id).2.workerTasks = bm.workerTasks := by
  rcases bm with ⟨⟨entries⟩, tasks⟩
  have hf : StdMap.findIn entries id = some r := h
  have hnodup : (entries.map Prod.fst).Nodup := hwf
  have hs : Improved.BotManager.stopBot ⟨⟨entries⟩, tasks⟩ task id =
      (.returns true, ⟨⟨StdMap.eraseIn entries id⟩, tasks⟩) := by
    cases task <;>
      first
      | exact absurd rfl htask
      | simp [Improved.BotManager.stopBot, StdMap.find, StdMap.assign, StdMap.erase, hf,
          stdMap_eraseIn_assignIn entries id _ r hf]
  rw [hs]
  refine ⟨rfl, ?_, ?_, ?_, ?_, rfl⟩
  · exact stdMap_findIn_eraseIn_self entries id hnodup
  · exact stdMap_length_eraseIn entries id r hf
  · intro k hk
    exact stdMap_findIn_eraseIn_ne entries id k hk
  · exact hnodup.sublist (stdMap_keys_eraseIn_sublist entries id)

/-- In `storage_bot_improved.cpp`, for a registry in which `id` maps to the record `r`
and whose task has not returned when `stopBot` locks `botsMutex_` again,
`stopBot(id)` never returns; the record of `id` is still in the registry, marked
as stopped. -/
theorem improved_stopBot_blocks_on_running_worker (bm : Improved.BotManager) (id : String)
    (r : Improved.BotConfig) (h : bm.activeBots_.find id = some r) :
    bm.stopBot .running id =
      (.blocks,
        { bm with
          activeBots_ :=
            bm.activeBots_.assign id { r with isRunning := false, isActive := false } }) := by
  simp [Improved.BotManager.stopBot, h]

/-- C16, `storage_bot_improved.cpp` evaluated on the registry of `W1` and `W2`. When the
task of `W1` has returned by the end of the five-second wait, `stopBot("W1")`
returns `true` and leaves the registry of `W2` alone. When the task of `W1` has
not returned by then, `stopBot("W1")` does not return: it stays in `erase`, and
`W1` is still in the registry, marked as stopped. -/
theorem stopBot_improved_blocks_on_running_task :
    Improved.twoWorkers.activeBots_.find "W1" = some Improved.recordW1 ∧
    Improved.twoWorkers.stopBot .completed "W1" =
      (.returns true,
        { Improved.twoWorkers with activeBots_ := ⟨[("W2", Improved.recordW2)]⟩ }) ∧
    Improved.twoWorkers.stopBot .running "W1" =
      (.blocks,
        { Improved.twoWorkers with
          activeBots_ :=
            ⟨[("W1", { Improved.recordW1 with isRunning := false, isActive := false }),
              ("W2", Improved.recordW2)]⟩ }) ∧
    (Improved.twoWorkers.stopBot .running "W1").2.activeBots_.find "W1" ≠ none := by
  refine ⟨?_, ?_, ?_, ?_⟩ <;> decide

/-! ## Worker tasks -/

/-- The worker task of `storage_bot.cpp` returns and leaves the manager as it was. -/
theorem storageBot_runBotInstance_frame (env : BotEnv) (src : SourceEnv) (fuel : Nat)
    (bm : StorageBot.BotManager) (config : StorageBot.BotConfig) :
    ∃ e, bm.runBotInstance env src fuel config = (.returns e, bm) := by
  unfold StorageBot.BotManager.runBotInstance
  cases env.decrypt config.encryptedToken with
  | error what => exact ⟨_, rfl⟩
  | ok token =>
    by_cases hre : regexMatchToken token = true
    · cases hatt : src.attach token with
      | some what => exact ⟨.crashed what, by simp [hre, hatt]⟩
      | none =>
        exact ⟨StorageBot.receiveLoop src bm config.encryptedToken fuel 0, by
          simp [hre, hatt]⟩
    · exact ⟨.invalidToken, by simp [hre]⟩

/-- The worker task of `storage_bot_improved.cpp` returns and leaves the manager as it was. -/
theorem improved_runBotInstance_frame (env : BotEnv) (src : SourceEnv) (fuel : Nat)
    (bm : Improved.BotManager) (config : Improved.BotConfig) :
    ∃ e, bm.runBotInstance env src fuel config = (.returns e, bm) := by
  unfold Improved.BotManager.runBotInstance
  cases env.decrypt config.encryptedToken with
  | error what => exact ⟨_, rfl⟩
  | ok token =>
    cases hatt : src.attach token with
    | some what => exact ⟨.crashed what, by simp [hatt]⟩
    | none =>
      exact ⟨Improved.receiveLoop src bm config.encryptedToken fuel 0, by simp [hatt]⟩

/-- C18: in `storage_bot.cpp` and `storage_bot_improved.cpp`, with worker `B` registered
and a task running for a worker `A` (distinct from `B` or not), whatever the
vault and the message source answer to `A`'s task (a failed decryption, a
malformed token, a failed attachment, failing polls), `runBotInstance` returns
normally and `B` maps to the same record as before: its `isActive` flag and its
counters are unchanged. -/
theorem worker_failure_leaves_other_worker (env : BotEnv) (src : SourceEnv) (fuel : Nat)
    (sb : StorageBot.BotManager) (ca : StorageBot.BotConfig) (rb : StorageBot.BotConfig)
    (ib : Improved.BotManager) (cia : Improved.BotConfig) (rib : Improved.BotConfig)
    (b : String)
    (hsb : sb.activeBots_.find b = some rb) (hib : ib.activeBots_.find b = some rib) :
    ((∃ e, (sb.runBotInstance env src fuel ca).1 = .returns e) ∧
      (sb.runBotInstance env src fuel ca).2.activeBots_.find b = some rb) ∧
    ((∃ e, (ib.runBotInstance env src fuel cia).1 = .returns e) ∧
      (ib.runBotInstance env src fuel cia).2.activeBots_.find b = some rib) := by
  obtain ⟨e1, h1⟩ := storageBot_runBotInstance_frame env src fuel sb ca
  obtain ⟨e2, h2⟩ := improved_runBotInstance_frame env src fuel ib cia
  rw [h1, h2]
  exact ⟨⟨⟨e1, rfl⟩, hsb⟩, ⟨⟨e2, rfl⟩, hib⟩⟩

/-- Witness of C18: the task of `W1` meets a vault that rejects its credential while
`W2` is registered, in `storage_bot.cpp` and in `storage_bot_improved.cpp`. -/
theorem worker_failure_leaves_other_worker_witness :
    StorageBot.oneBuffered.activeBots_.find "W2" = some (StorageBot.sampleConfig "W2") ∧
    Improved.twoWorkers.activeBots_.find "W2" = some Improved.recordW2 ∧
    (StorageBot.oneBuffered.runBotInstance rejectingEnv failingSource 5
        (StorageBot.sampleConfig "W1")).2.activeBots_.find "W2" =
      some (StorageBot.sampleConfig "W2") ∧
    (Improved.twoWorkers.runBotInstance rejectingEnv failingSource 5
        Improved.recordW1).2.activeBots_.find "W2" = some Improved.recordW2 :=
  ⟨by decide, by decide,
    (worker_failure_leaves_other_worker rejectingEnv failingSource 5
      StorageBot.oneBuffered (StorageBot.sampleConfig "W1") (StorageBot.sampleConfig "W2")
      Improved.twoWorkers Improved.recordW1 Improved.recordW2 "W2"
      (by decide) (by decide)).1.2,
    (worker_failure_leaves_other_worker rejectingEnv failingSource 5
      StorageBot.oneBuffered (StorageBot.sampleConfig "W1") (StorageBot.sampleConfig "W2")
      Improved.twoWorkers Improved.recordW1 Improved.recordW2 "W2"
      (by decide) (by decide)).2.2⟩

/-- The transaction body for a state-updating work function agrees with
`transactionBody` when the work updates nothing. -/
theorem transactionBodyOn_without_state (sql : SqlEnv) (func : Work) (conn : Connection) :
    (transactionBodyOn sql (fun c (_ : Unit) => (func c, ())) conn ()).1 =
      transactionBody sql func conn := by
  unfold transactionBodyOn transactionBody
  cases sql.beginFails with
  | some what => rfl
  | none =>
    rcases hf : func conn with ⟨stmts, failure⟩
    cases failure with
    | some what => simp [hf]
    | none =>
      cases sql.commitFails with
      | some what => simp [hf]
      | none => simp [hf]

/-- In `storage_bot.cpp`, `executeTransactionOn` agrees with `executeTransaction` when
the work updates nothing. -/
theorem storageBot_executeTransactionOn_without_state (env : DbEnv) (sql : SqlEnv)
    (func : Work) (p : DatabaseManager) :
    ((StorageBot.executeTransactionOn env sql (fun c (_ : Unit) => (func c, ())) p ()).1,
      (StorageBot.executeTransactionOn env sql (fun c (_ : Unit) => (func c, ())) p ()).2.1,
      (StorageBot.executeTransactionOn env sql (fun c (_ : Unit) => (func c, ())) p ()).2.2.1) =
      StorageBot.executeTransaction env sql func p := by
  unfold StorageBot.executeTransactionOn StorageBot.executeTransaction
  rcases StorageBot.getConnection env p with ⟨_ | _ | _, p1⟩
  · rename_i conn
    cases conn with
    | none => rfl
    | some c =>
      have hb := transactionBodyOn_without_state sql func c
      rcases hon : transactionBodyOn sql (fun c (_ : Unit) => (func c, ())) c ()
        with ⟨⟨r, issued⟩, u⟩
      rw [hon] at hb
      simp only at hb
      simp only [hon, ← hb]
      cases r <;> rfl
  · rfl
  · rfl

/-! ## Event batcher: worker counters -/

/-- C19, the optimized variant evaluated on three events of the registered worker
`W1` (counters 0): one iteration of the batch processor flushes them
successfully; afterwards `W1` has `totalUsers = 3` and `storedUsers = 0`. -/
theorem processBatch_optimized_leaves_storedUsers :
    Optimized.startedThreeQueued.activeBots_.find "W1" =
      some (Optimized.sampleConfig "W1" "first") ∧
    Optimized.startedThreeQueued.messageQueue_ =
      [⟨"W1", 1, "a"⟩, ⟨"W1", 1, "a"⟩, ⟨"W1", 1, "b"⟩] ∧
    Optimized.BotManager.batchProcessorIteration laterEnv noFailure (fun _ => none)
        Optimized.startedThreeQueued onePool =
      ({ Optimized.startedW1 with
          taskSemaphore_ := 97
          activeBots_ :=
            ⟨[("W1", { Optimized.sampleConfig "W1" "first" with totalUsers := 3 })]⟩ },
        onePool,
        ["begin", "MERGE INTO Users", "MERGE INTO Users", "MERGE INTO Users", "commit"],
        true) ∧
    ((Optimized.BotManager.batchProcessorIteration laterEnv noFailure (fun _ => none)
        Optimized.startedThreeQueued onePool).1.activeBots_.find "W1").map
        (fun record => record.storedUsers) = some 0 := by
  refine ⟨?_, ?_, ?_, ?_⟩ <;> decide

/-- C29, `DatabaseConfig::fromEnvironment` evaluated with only `DB_USER` and `DB_PASS`
set: it yields the defaults (server `localhost`, port 1433, pool size 15, time-out
30); `localhost` has 9 bytes, `isValidDatabaseUrl` asks for more than 10, and
`validate` throws `INVALID_CONFIG`. -/
theorem default_database_config_rejected :
    Config.DatabaseConfig.fromEnvironment Config.minimalEnv = .ok Config.defaultDatabase ∧
    Config.byteLength "localhost" = 9 ∧
    Config.ConfigValidator.isValidDatabaseUrl Config.defaultDatabase.server = false ∧
    Config.defaultDatabase.validate = .error ⟨.INVALID_CONFIG, "Invalid database server"⟩ := by
  refine ⟨?_, ?_, ?_, ?_⟩
  · rfl
  · decide
  · decide
  · rfl

/-- The digit class of the token pattern is the class of ASCII digits. -/
theorem isTokenDigit_eq_isDigit (c : Char) : isTokenDigit c = c.isDigit := by
  simp only [isTokenDigit, Char.isDigit, Char.le_def, UInt32.le_def, ge_iff_le]
  rfl

/-- The character class of the token pattern: ASCII letters, ASCII digits, `_` and `-`. -/
theorem isTokenChar_eq_class (c : Char) :
    isTokenChar c = (c.isAlphanum || c == '_' || c == '-') := by
  simp only [isTokenChar, Char.isAlphanum, Char.isAlpha, Char.isUpper, Char.isLower,
    Char.isDigit, Char.le_def, UInt32.le_def, ge_iff_le]
  congr 3
  exact Bool.or_comm _ _

/-- A run of digits followed by a colon is split at the colon by the matcher. -/
theorem takeWhile_digits_colon (ds tail : List Char)
    (h : ∀ c ∈ ds, isTokenDigit c = true) :
    (ds ++ ':' :: tail).takeWhile isTokenDigit = ds ∧
    (ds ++ ':' :: tail).dropWhile isTokenDigit = ':' :: tail := by
  induction ds with
  | nil =>
    exact ⟨by simp [List.takeWhile, show isTokenDigit ':' = false by decide],
      by simp [List.dropWhile, show isTokenDigit ':' = false by decide]⟩
  | cons c ds ih =>
    have hc : isTokenDigit c = true := h c (by simp)
    have := ih (fun x hx => h x (by simp [hx]))
    simp [List.takeWhile, List.dropWhile, hc, this]

/-- C26: `ConfigValidator::isValidToken(t)` is true exactly when `t` has the shape of
the specification (`TokenShape`: one or more ASCII digits, one colon, exactly 35
characters of `[a-zA-Z0-9_-]`, nothing else), and `BotConfig::validate` throws
`ConfigException` with code `INVALID_TOKEN_FORMAT` for every token for which it
is false. -/
theorem isValidToken_iff_token_shape (t : String) :
    (Config.ConfigValidator.isValidToken t = true ↔ Config.TokenShape t) ∧
    (∀ c : Config.BotConfig, c.token = t → Config.ConfigValidator.isValidToken t = false →
      c.validate = .error ⟨.INVALID_TOKEN_FORMAT, "Invalid bot token format"⟩) := by
  constructor
  · constructor
    · intro h
      unfold Config.ConfigValidator.isValidToken regexMatchToken at h
      simp only [Bool.and_eq_true, Bool.not_eq_true'] at h
      obtain ⟨hne, hm⟩ := h
      have hsplit : t.data.takeWhile isTokenDigit ++ t.data.dropWhile isTokenDigit = t.data :=
        List.takeWhile_append_dropWhile _ _
      have hdig : ∀ c ∈ t.data.takeWhile isTokenDigit, c.isDigit = true := by
        intro c hc
        rw [← isTokenDigit_eq_isDigit]
        exact List.mem_takeWhile_imp hc
      split at hm
      · rename_i tail hrest
        simp only [Bool.and_eq_true, beq_iff_eq, List.all_eq_true] at hm
        refine ⟨t.data.takeWhile isTokenDigit, tail, ?_, ?_, hdig, hm.1, ?_⟩
        · rw [← hrest, hsplit]
        · intro hnil
          rw [hnil] at hne
          simp at hne
        · intro c hc
          rw [← isTokenChar_eq_class]
          exact hm.2 c hc
      · exact absurd hm (by simp)
    · rintro ⟨ds, tail, hdata, hne, hdig, hlen, hcls⟩
      have hsp := takeWhile_digits_colon ds tail
        (fun c hc => by rw [isTokenDigit_eq_isDigit]; exact hdig c hc)
      unfold Config.ConfigValidator.isValidToken regexMatchToken
      rw [hdata, hsp.1, hsp.2]
      have hall : tail.all isTokenChar = true := by
        rw [List.all_eq_true]
        intro c hc
        rw [isTokenChar_eq_class]
        exact hcls c hc
      cases ds with
      | nil => exact absurd rfl hne
      | cons d ds => simp [hlen, hall]
  · intro c hc hfalse
    subst hc
    simp [Config.BotConfig.validate, hfalse]

/-- Witness of C26: a well-formed token, and the rejection of the token `abc`. -/
theorem isValidToken_iff_token_shape_witness :
    Config.ConfigValidator.isValidToken "123456:ABCDEFGHIJKLMNOPQRSTUVWXYZabcdefghi" = true ∧
    Config.TokenShape "123456:ABCDEFGHIJKLMNOPQRSTUVWXYZabcdefghi" ∧
    Config.ConfigValidator.isValidToken "abc" = false ∧
    (Config.sampleBot "abc").validate =
      .error ⟨.INVALID_TOKEN_FORMAT, "Invalid bot token format"⟩ :=
  ⟨by decide,
    (isValidToken_iff_token_shape "123456:ABCDEFGHIJKLMNOPQRSTUVWXYZabcdefghi").1.mp (by decide),
    by decide,
    (isValidToken_iff_token_shape "abc").2 (Config.sampleBot "abc") rfl (by decide)⟩

/-- C27: `AppConfig::validate` returns normally exactly when the database server has
more than 10 characters, the pool size is between 1 and 100, the encryption key
has at least 32 characters, the key rotation period is positive, the manager
token is valid, the number of active bots is between 1 and 1000 and the batch
size is between 1 and 10000; otherwise it throws for the first of these checks
that fails, in this order, with code `INVALID_TOKEN_FORMAT` for the manager
token and `INVALID_CONFIG` for every other check. -/
theorem appConfig_validate_checks (c : Config.AppConfig) :
    (c.validate = .ok () ↔
      (Config.byteLength c.database.server > 10 ∧
        (1 ≤ c.database.connectionPoolSize ∧ c.database.connectionPoolSize ≤ 100) ∧
        Config.byteLength c.security.encryptionKey ≥ 32 ∧
        c.security.keyRotationDays > 0 ∧
        Config.ConfigValidator.isValidToken c.managerToken = true ∧
        (1 ≤ c.maxActiveBots ∧ c.maxActiveBots ≤ 1000) ∧
        (1 ≤ c.batchSize ∧ c.batchSize ≤ 10000))) ∧
    (¬ Config.byteLength c.database.server > 10 →
      c.validate = .error ⟨.INVALID_CONFIG, "Invalid database server"⟩) ∧
    (Config.byteLength c.database.server > 10 →
      ¬ (1 ≤ c.database.connectionPoolSize ∧ c.database.connectionPoolSize ≤ 100) →
      c.validate = .error ⟨.INVALID_CONFIG, "Invalid connection pool size"⟩) ∧
    (Config.byteLength c.database.server > 10 →
      (1 ≤ c.database.connectionPoolSize ∧ c.database.connectionPoolSize ≤ 100) →
      ¬ Config.byteLength c.security.encryptionKey ≥ 32 →
      c.validate = .error ⟨.INVALID_CONFIG, "Invalid encryption key length"⟩) ∧
    (Config.byteLength c.database.server > 10 →
      (1 ≤ c.database.connectionPoolSize ∧ c.database.connectionPoolSize ≤ 100) →
      Config.byteLength c.security.encryptionKey ≥ 32 →
      ¬ c.security.keyRotationDays > 0 →
      c.validate = .error ⟨.INVALID_CONFIG, "Invalid key rotation days"⟩) ∧
    (Config.byteLength c.database.server > 10 →
      (1 ≤ c.database.connectionPoolSize ∧ c.database.connectionPoolSize ≤ 100) →
      Config.byteLength c.security.encryptionKey ≥ 32 →
      c.security.keyRotationDays > 0 →
      Config.ConfigValidator.isValidToken c.managerToken = false →
      c.validate = .error ⟨.INVALID_TOKEN_FORMAT, "Invalid manager token"⟩) ∧
    (Config.byteLength c.database.server > 10 →
      (1 ≤ c.database.connectionPoolSize ∧ c.database.connectionPoolSize ≤ 100) →
      Config.byteLength c.security.encryptionKey ≥ 32 →
      c.security.keyRotationDays > 0 →
      Config.ConfigValidator.isValidToken c.managerToken = true →
      ¬ (1 ≤ c.maxActiveBots ∧ c.maxActiveBots ≤ 1000) →
      c.validate = .error ⟨.INVALID_CONFIG, "Invalid max active bots"⟩) ∧
    (Config.byteLength c.database.server > 10 →
      (1 ≤ c.database.connectionPoolSize ∧ c.database.connectionPoolSize ≤ 100) →
      Config.byteLength c.security.encryptionKey ≥ 32 →
      c.security.keyRotationDays > 0 →
      Config.ConfigValidator.isValidToken c.managerToken = true →
      (1 ≤ c.maxActiveBots ∧ c.maxActiveBots ≤ 1000) →
      ¬ (1 ≤ c.batchSize ∧ c.batchSize ≤ 10000) →
      c.validate = .error ⟨.INVALID_CONFIG, "Invalid batch size"⟩) := by
  have hurl : Config.ConfigValidator.isValidDatabaseUrl c.database.server =
      decide (Config.byteLength c.database.server > 10) := by
    unfold Config.ConfigValidator.isValidDatabaseUrl
    by_cases h : Config.byteLength c.database.server > 10
    · have : Config.byteLength c.database.server ≠ 0 := by omega
      simp [h, this]
    · simp [h]
  have hpool : (c.database.connectionPoolSize ≤ 0 ∨ c.database.connectionPoolSize > 100) ↔
      ¬ (1 ≤ c.database.connectionPoolSize ∧ c.database.connectionPoolSize ≤ 100) := by omega
  have hbots : (c.maxActiveBots ≤ 0 ∨ c.maxActiveBots > 1000) ↔
      ¬ (1 ≤ c.maxActiveBots ∧ c.maxActiveBots ≤ 1000) := by omega
  have hbatch : (c.batchSize ≤ 0 ∨ c.batchSize > 10000) ↔
      ¬ (1 ≤ c.batchSize ∧ c.batchSize ≤ 10000) := by omega
  have hdays : c.security.keyRotationDays ≤ 0 ↔ ¬ c.security.keyRotationDays > 0 := by omega
  unfold Config.AppConfig.validate Config.DatabaseConfig.validate Config.SecurityConfig.validate
    Config.ConfigValidator.isValidEncryptionKey
  rw [hurl]
  simp only [hpool, hbots, hbatch, hdays]
  by_cases h1 : Config.byteLength c.database.server > 10 <;>
  by_cases h2 : (1 ≤ c.database.connectionPoolSize ∧ c.database.connectionPoolSize ≤ 100) <;>
  by_cases h3 : Config.byteLength c.security.encryptionKey ≥ 32 <;>
  by_cases h4 : c.security.keyRotationDays > 0 <;>
  cases h5 : Config.ConfigValidator.isValidToken c.managerToken <;>
  by_cases h6 : (1 ≤ c.maxActiveBots ∧ c.maxActiveBots ≤ 1000) <;>
  by_cases h7 : (1 ≤ c.batchSize ∧ c.batchSize ≤ 10000) <;>
  simp [h1, h2, h3, h4, h6, h7]

/-- Witness of C27: a configuration that passes, and the same with a pool size of 0. -/
theorem appConfig_validate_checks_witness :
    Config.goodApp.validate = .ok () ∧
    ({ Config.goodApp with
        database := { Config.goodApp.database with connectionPoolSize := 0 } } :
      Config.AppConfig).validate = .error ⟨.INVALID_CONFIG, "Invalid connection pool size"⟩ :=
  ⟨(appConfig_validate_checks Config.goodApp).1.mpr (by decide),
    (appConfig_validate_checks
      { Config.goodApp with
        database := { Config.goodApp.database with connectionPoolSize := 0 } }).2.2.1
      (by decide) (by decide)⟩

/-! ## Optimized variant: health reports, drain, failing upserts -/

/-- C30 as stated fails: with exactly `MAX_ACTIVE_BOTS` workers registered and no
shutdown, `isHealthy()` is true while `getStatus()` is `at_capacity`. -/
theorem full_manager_healthy_but_at_capacity :
    Optimized.fullManager.activeBots_.size = MAX_ACTIVE_BOTS ∧
    Optimized.fullManager.shutdownFlag_ = false ∧
    Optimized.fullManager.isHealthy = true ∧
    Optimized.fullManager.getStatus = "at_capacity" ∧
    Optimized.fullManager.getStatus ≠ "healthy" := by
  refine ⟨?_, ?_, ?_, ?_, ?_⟩ <;> decide

/-- C30, amended: `isHealthy()` is true exactly when `getStatus()` is `healthy`, or is
`at_capacity` with exactly `MAX_ACTIVE_BOTS` workers registered; so the two
reports agree in every state whose registry size is not `MAX_ACTIVE_BOTS`. -/
theorem isHealthy_iff_status (bm : Optimized.BotManager) :
    (bm.isHealthy = true ↔
      (bm.getStatus = "healthy" ∨
        (bm.getStatus = "at_capacity" ∧ bm.activeBots_.size = MAX_ACTIVE_BOTS))) ∧
    (bm.activeBots_.size ≠ MAX_ACTIVE_BOTS →
      (bm.isHealthy = true ↔ bm.getStatus = "healthy")) := by
  have e1 : ("shutdown" : String) ≠ "healthy" := by decide
  have e2 : ("shutdown" : String) ≠ "at_capacity" := by decide
  have e3 : ("at_capacity" : String) ≠ "healthy" := by decide
  have e4 : ("healthy" : String) ≠ "at_capacity" := by decide
  unfold Optimized.BotManager.isHealthy Optimized.BotManager.getStatus
  cases bm.shutdownFlag_ with
  | true => simp [e1, e2]
  | false =>
    by_cases hge : bm.activeBots_.size ≥ MAX_ACTIVE_BOTS
    · simp only [hge, if_true, Bool.not_false, Bool.true_and, decide_eq_true_eq,
        Bool.false_eq_true, if_false]
      constructor
      · constructor
        · intro hle
          exact Or.inr ⟨trivial, Nat.le_antisymm hle hge⟩
        · rintro (h | ⟨_, h⟩)
          · exact absurd h e3
          · exact Nat.le_of_eq h
      · intro hne
        constructor
        · intro hle
          exact absurd (Nat.le_antisymm hle hge) hne
        · intro h
          exact absurd h e3
    · have hlt : bm.activeBots_.size ≤ MAX_ACTIVE_BOTS := Nat.le_of_lt (Nat.not_le.mp hge)
      simp [hge, hlt, e4]

/-- Witness of the amended C30: a fresh manager is healthy and reports `healthy`. -/
theorem isHealthy_iff_status_witness :
    Optimized.BotManager.fresh.activeBots_.size ≠ MAX_ACTIVE_BOTS ∧
    Optimized.BotManager.fresh.getStatus = "healthy" ∧
    Optimized.BotManager.fresh.isHealthy = true :=
  ⟨by decide, by decide,
    ((isHealthy_iff_status Optimized.BotManager.fresh).2 (by decide)).mpr (by decide)⟩

/-- The inner `while` of `batchProcessorLoop` moves as many events from the head of
the queue as the batch has room for. -/
theorem drainQueue_eq_take_drop (queue : List MessageData) :
    ∀ batch : List MessageData,
      Optimized.drainQueue queue batch =
        (queue.drop (BATCH_SIZE - batch.length), batch ++ queue.take (BATCH_SIZE - batch.length)) := by
  induction queue with
  | nil => intro batch; simp [Optimized.drainQueue]
  | cons msg queue ih =>
    intro batch
    by_cases h : batch.length < BATCH_SIZE
    · have hsub : BATCH_SIZE - batch.length = (BATCH_SIZE - (batch.length + 1)) + 1 := by omega
      simp only [Optimized.drainQueue, h, if_true]
      rw [ih (batch ++ [msg]), hsub]
      simp [List.append_assoc]
    · have hsub : BATCH_SIZE - batch.length = 0 := by omega
      simp [Optimized.drainQueue, h, hsub]

/-- C23: one iteration of `batchProcessorLoop` of `storage_bot_optimized.cpp`, started
with an empty working batch on the queue `q`: the drain yields the first
`BATCH_SIZE` events of `q` as the batch, in queue order, and leaves the others
in the queue in their order; the batch has `min |q| BATCH_SIZE` events, at most
100; batch and remaining queue together are `q`; and the iteration passes
exactly this batch to `processBatch` (when it is not empty). -/
theorem batch_iteration_takes_queue_head (env : DbEnv) (sql : SqlEnv)
    (upsertFails : MessageData → Option String) (bm : Optimized.BotManager)
    (db : DatabaseManager) :
    Optimized.drainQueue bm.messageQueue_ [] =
      (bm.messageQueue_.drop BATCH_SIZE, bm.messageQueue_.take BATCH_SIZE) ∧
    (bm.messageQueue_.take BATCH_SIZE).length = min bm.messageQueue_.length BATCH_SIZE ∧
    (bm.messageQueue_.take BATCH_SIZE).length ≤ 100 ∧
    bm.messageQueue_.take BATCH_SIZE ++ bm.messageQueue_.drop BATCH_SIZE = bm.messageQueue_ ∧
    Optimized.BotManager.batchProcessorIteration env sql upsertFails bm db =
      (if (bm.messageQueue_.take BATCH_SIZE).isEmpty then
        ({ bm with messageQueue_ := bm.messageQueue_.drop BATCH_SIZE }, db, [], false)
      else
        Optimized.BotManager.processBatch env sql upsertFails
          { bm with messageQueue_ := bm.messageQueue_.drop BATCH_SIZE } db
          (bm.messageQueue_.take BATCH_SIZE)) := by
  have hd := drainQueue_eq_take_drop bm.messageQueue_ []
  simp only [List.length_nil, Nat.sub_zero, List.nil_append] at hd
  refine ⟨hd, ?_, ?_, List.take_append_drop _ _, ?_⟩
  · rw [List.length_take, Nat.min_comm]
  · rw [List.length_take]
    exact Nat.min_le_left _ _
  · unfold Optimized.BotManager.batchProcessorIteration
    rw [hd]

/-- In the optimized variant the upserts of a batch issue one statement per event
and raise nothing, whatever their outcomes. -/
theorem optimized_upsertAll_never_raises (upsertFails : MessageData → Option String)
    (batch : List MessageData) :
    Optimized.upsertAll upsertFails batch = (batch.map (fun _ => Optimized.mergeStatement), none) := by
  induction batch with
  | nil => rfl
  | cons msg batch ih =>
    cases h : upsertFails msg <;> simp [Optimized.upsertAll, Optimized.updateUserRecords, h, ih]

/-- C21 as stated fails: worker `W1` is registered with counters 0 and one event of
`W1` is queued; its upsert fails. The flush issues `begin`, the upsert and
`commit`, succeeds, and `W1` has `totalUsers = 1`. -/
theorem failed_upsert_is_committed :
    Optimized.startedOneQueued.messageQueue_ = [⟨"W1", 1, "a"⟩] ∧
    Optimized.BotManager.batchProcessorIteration laterEnv noFailure
        (fun _ => some "constraint violated") Optimized.startedOneQueued onePool =
      ({ Optimized.startedW1 with
          taskSemaphore_ := 99
          activeBots_ :=
            ⟨[("W1", { Optimized.sampleConfig "W1" "first" with totalUsers := 1 })]⟩ },
        onePool, ["begin", "MERGE INTO Users", "commit"], true) := by
  refine ⟨?_, ?_⟩ <;> decide

/-- C21, amended: in `storage_bot_optimized.cpp` a failing upsert is caught inside
`updateUserRecords` and does not reach `executeTransaction`. Whatever the
outcomes of the upserts, the work of the flush issues one upsert per event and
raises nothing, and `processBatch` behaves as if every upsert had succeeded:
when a connection is acquired and `begin` and `commit` succeed, the transaction
is committed and `updateBotStats` runs on the batch; when `begin` or `commit`
fails, the flush fails and `processBatch` leaves the manager, hence every
counter, unchanged. -/
theorem failed_upsert_is_swallowed (env : DbEnv) (sql : SqlEnv)
    (upsertFails : MessageData → Option String) (bm : Optimized.BotManager)
    (db : DatabaseManager) (batch : List MessageData) :
    (∀ conn, Optimized.processBatchInTransaction upsertFails batch conn =
      (batch.map (fun _ => Optimized.mergeStatement), none)) ∧
    bm.processBatch env sql upsertFails db batch =
      bm.processBatch env sql (fun _ => none) db batch ∧
    (∀ conn db1, Optimized.getConnection env db = (.returns conn, db1) →
      sql.beginFails = none → sql.commitFails = none →
      bm.processBatch env sql upsertFails db batch =
        ({ bm with activeBots_ := Optimized.updateBotStats bm.activeBots_ batch },
          Optimized.releaseConnection env db1 (some conn),
          "begin" :: batch.map (fun _ => Optimized.mergeStatement) ++ ["commit"], true)) ∧
    (sql.beginFails ≠ none ∨ sql.commitFails ≠ none →
      (bm.processBatch env sql upsertFails db batch).1 = bm ∧
      (bm.processBatch env sql upsertFails db batch).2.2.2 = false) := by
  have hwork : ∀ f : MessageData → Option String, ∀ conn,
      Optimized.processBatchInTransaction f batch conn =
        (batch.map (fun _ => Optimized.mergeStatement), none) := by
    intro f conn
    exact optimized_upsertAll_never_raises f batch
  have hfun : ∀ f : MessageData → Option String,
      Optimized.processBatchInTransaction f batch =
        fun _ => (batch.map (fun _ => Optimized.mergeStatement), none) := by
    intro f
    funext conn
    exact hwork f conn
  refine ⟨hwork upsertFails, ?_, ?_, ?_⟩
  · unfold Optimized.BotManager.processBatch
    rw [hfun upsertFails, hfun (fun _ => none)]
  · intro conn db1 hget hb hc
    unfold Optimized.BotManager.processBatch Optimized.executeTransaction
    rw [hfun upsertFails, hget]
    simp [Optimized.transactionBody, hb, hc]
  · intro hfail
    unfold Optimized.BotManager.processBatch Optimized.executeTransaction
    rw [hfun upsertFails]
    rcases hget : Optimized.getConnection env db with ⟨_ | _ | _, db1⟩
    · rename_i conn
      cases hb : sql.beginFails with
      | some what =>
        cases hrb : sql.rollbackFails <;>
          simp [Optimized.transactionBody, Optimized.rollbackAndRethrow, hb, hrb]
      | none =>
        cases hc : sql.commitFails with
        | some what =>
          cases hrb : sql.rollbackFails <;>
            simp [Optimized.transactionBody, Optimized.rollbackAndRethrow, hb, hc, hrb]
        | none =>
          rcases hfail with h | h
          · exact absurd hb h
          · exact absurd hc h
    · simp
    · simp

/-- Witness of the amended C21: the flush of one event of `W1` whose commit fails
leaves the manager as it was after the drain. -/
theorem failed_upsert_is_swallowed_witness :
    (commitBroken.beginFails ≠ none ∨ commitBroken.commitFails ≠ none) ∧
    (Optimized.startedW1.processBatch laterEnv commitBroken (fun _ => some "constraint violated")
      onePool [⟨"W1", 1, "a"⟩]).1 = Optimized.startedW1 :=
  ⟨Or.inr (by decide),
    ((failed_upsert_is_swallowed laterEnv commitBroken (fun _ => some "constraint violated")
      Optimized.startedW1 onePool [⟨"W1", 1, "a"⟩]).2.2.2 (Or.inr (by decide))).1⟩

/-! ## Grouping of a batch in `storage_bot.cpp` -/

/-- Adding an event to the groups extends the group of its worker and no other. -/
theorem addToGroup_findIn (groups : List (String × List (Int × String))) (msg : MessageData)
    (w : String) :
    StdMap.findIn (StorageBot.addToGroup groups msg) w =
      if w = msg.encryptedToken then
        some ((StdMap.findIn groups w).getD [] ++ [(msg.userId, msg.username)])
      else StdMap.findIn groups w := by
  induction groups with
  | nil =>
    by_cases h : w = msg.encryptedToken
    · simp [StorageBot.addToGroup, StdMap.findIn, h]
    · simp [StorageBot.addToGroup, StdMap.findIn, h, Ne.symm h]
  | cons e rest ih =>
    rcases e with ⟨k, users⟩
    by_cases hk : k = msg.encryptedToken
    · by_cases h : w = msg.encryptedToken
      · simp [StorageBot.addToGroup, StdMap.findIn, hk, h]
      · have hkw : ¬ msg.encryptedToken = w := Ne.symm h
        simp [StorageBot.addToGroup, StdMap.findIn, hk, h, hkw]
    · by_cases hkw : k = w
      · have h : ¬ w = msg.encryptedToken := by rw [← hkw]; exact hk
        simp [StorageBot.addToGroup, StdMap.findIn, hk, hkw, h]
      · simp [StorageBot.addToGroup, StdMap.findIn, hk, hkw, ih]

/-- Adding an event keeps the keys and appends the worker when it is new. -/
theorem addToGroup_keys (groups : List (String × List (Int × String))) (msg : MessageData) :
    (StorageBot.addToGroup groups msg).map Prod.fst =
      if msg.encryptedToken ∈ groups.map Prod.fst then groups.map Prod.fst
      else groups.map Prod.fst ++ [msg.encryptedToken] := by
  induction groups with
  | nil => simp [StorageBot.addToGroup]
  | cons e rest ih =>
    rcases e with ⟨k, users⟩
    by_cases hk : k = msg.encryptedToken
    · simp [StorageBot.addToGroup, hk]
    · have hk2 : ¬ msg.encryptedToken = k := Ne.symm hk
      by_cases hmem : msg.encryptedToken ∈ rest.map Prod.fst
      · simp only [StorageBot.addToGroup, hk, if_false, List.map_cons, ih, hmem, if_true,
          List.mem_cons, or_true]
      · simp only [StorageBot.addToGroup, hk, if_false, List.map_cons, ih, hmem,
          List.mem_cons, hk2, or_self, List.cons_append]

/-- Adding an event adds one to the total size of the groups. -/
theorem addToGroup_sizes (groups : List (String × List (Int × String))) (msg : MessageData) :
    ((StorageBot.addToGroup groups msg).map (fun g => g.2.length)).sum =
      (groups.map (fun g => g.2.length)).sum + 1 := by
  induction groups with
  | nil => simp [StorageBot.addToGroup]
  | cons e rest ih =>
    rcases e with ⟨k, users⟩
    by_cases hk : k = msg.encryptedToken
    · simp [StorageBot.addToGroup, hk]
      omega
    · simp [StorageBot.addToGroup, hk, ih]
      omega

/-- Adding an event leaves no group empty. -/
theorem addToGroup_nonempty (groups : List (String × List (Int × String))) (msg : MessageData)
    (h : ∀ g ∈ groups, g.2 ≠ []) : ∀ g ∈ StorageBot.addToGroup groups msg, g.2 ≠ [] := by
  induction groups with
  | nil =>
    intro g hg
    simp only [StorageBot.addToGroup, List.mem_singleton] at hg
    subst hg
    simp
  | cons e rest ih =>
    rcases e with ⟨k, users⟩
    intro g hg
    by_cases hk : k = msg.encryptedToken
    · simp only [StorageBot.addToGroup, hk, if_true, List.mem_cons] at hg
      rcases hg with rfl | hg
      · simp
      · exact h g (by simp [hg])
    · simp only [StorageBot.addToGroup, hk, if_false, List.mem_cons] at hg
      rcases hg with rfl | hg
      · exact h _ (by simp)
      · exact ih (fun x hx => h x (by simp [hx])) g hg

/-- The grouping loop started from the groups `groups`: what each of the four
properties of the result is in terms of `groups` and the batch. -/
theorem foldl_addToGroup_spec (batch : List MessageData) :
    ∀ groups : List (String × List (Int × String)),
      (∀ w, (StdMap.findIn (batch.foldl StorageBot.addToGroup groups) w).getD [] =
        (StdMap.findIn groups w).getD [] ++
          (batch.filter (fun m => decide (m.encryptedToken = w))).map
            (fun m => (m.userId, m.username))) ∧
      (∀ w, (StdMap.findIn (batch.foldl StorageBot.addToGroup groups) w).isSome = true ↔
        ((StdMap.findIn groups w).isSome = true ∨ ∃ m ∈ batch, m.encryptedToken = w)) ∧
      ((groups.map Prod.fst).Nodup →
        ((batch.foldl StorageBot.addToGroup groups).map Prod.fst).Nodup) ∧
      ((batch.foldl StorageBot.addToGroup groups).map (fun g => g.2.length)).sum =
        (groups.map (fun g => g.2.length)).sum + batch.length ∧
      ((∀ g ∈ groups, g.2 ≠ []) →
        ∀ g ∈ batch.foldl StorageBot.addToGroup groups, g.2 ≠ []) := by
  induction batch with
  | nil =>
    intro groups
    simp
  | cons msg batch ih =>
    intro groups
    obtain ⟨h1, h2, h3, h4, h5⟩ := ih (StorageBot.addToGroup groups msg)
    simp only [List.foldl_cons]
    refine ⟨?_, ?_, ?_, ?_, ?_⟩
    · intro w
      rw [h1 w, addToGroup_findIn]
      by_cases hw : w = msg.encryptedToken
      · have hw2 : msg.encryptedToken = w := hw.symm
        simp [hw, List.filter_cons]
      · have hw2 : ¬ msg.encryptedToken = w := Ne.symm hw
        simp [hw, hw2, List.filter_cons]
    · intro w
      rw [h2 w, addToGroup_findIn]
      by_cases hw : w = msg.encryptedToken
      · have hw2 : msg.encryptedToken = w := hw.symm
        simp [hw]
      · have hw2 : ¬ msg.encryptedToken = w := Ne.symm hw
        simp [hw, hw2]
    · intro hnd
      apply h3
      rw [addToGroup_keys]
      by_cases hmem : msg.encryptedToken ∈ groups.map Prod.fst
      · simp only [hmem, if_true]
        exact hnd
      · simp only [hmem, if_false]
        exact List.Nodup.append hnd (List.nodup_singleton _)
          (by
            intro x hx hx2
            simp only [List.mem_singleton] at hx2
            subst hx2
            exact hmem hx)
    · rw [h4, addToGroup_sizes, List.length_cons]
      omega
    · intro hne
      exact h5 (addToGroup_nonempty groups msg hne)

/-- C22: in `storage_bot.cpp`, `processBatchInTransaction` works on the groups
`groupByBot batch`, in whatever order it visits them. For every worker `w` the
group of `w` (empty when `w` has no group) lists exactly the events of the batch
whose `encryptedToken` is `w`, in batch order; `w` has a group exactly when the batch holds an event of `w`; no
worker has two groups; the sizes of the groups sum to the length of the batch;
and no group is empty. -/
theorem groupByBot_partitions_batch (upsertFails : MessageData → Option String)
    (visit : GroupOrder) (batch : List MessageData) :
    StorageBot.processBatchInTransaction upsertFails visit batch =
      (fun _ bots =>
        StorageBot.processGroups upsertFails (visit (StorageBot.groupByBot batch)) bots) ∧
    (∀ w, (StdMap.findIn (StorageBot.groupByBot batch) w).getD [] =
      (batch.filter (fun m => decide (m.encryptedToken = w))).map
        (fun m => (m.userId, m.username))) ∧
    (∀ w, (StdMap.findIn (StorageBot.groupByBot batch) w).isSome = true ↔
      ∃ m ∈ batch, m.encryptedToken = w) ∧
    ((StorageBot.groupByBot batch).map Prod.fst).Nodup ∧
    ((StorageBot.groupByBot batch).map (fun g => g.2.length)).sum = batch.length ∧
    (∀ g ∈ StorageBot.groupByBot batch, g.2 ≠ []) := by
  obtain ⟨h1, h2, h3, h4, h5⟩ := foldl_addToGroup_spec batch []
  refine ⟨rfl, ?_, ?_, ?_, ?_, ?_⟩
  · intro w
    have := h1 w
    simpa [StorageBot.groupByBot, StdMap.findIn] using this
  · intro w
    have := h2 w
    simpa [StorageBot.groupByBot, StdMap.findIn] using this
  · exact h3 List.nodup_nil
  · simpa [StorageBot.groupByBot] using h4
  · exact h5 (by simp)

/-! ## Event buffer of `storage_bot.cpp` and `storage_bot_improved.cpp` -/

/-- In `storage_bot.cpp` a submission into a buffer that is not full, no later than
five seconds after the last flush, appends the event and calls nothing else. -/
theorem storageBot_submit_within_window (env : DbEnv) (sql : SqlEnv)
    (upsertFails : MessageData → Option String) (visit : GroupOrder) (now : Nat)
    (bm : StorageBot.BotManager)
    (db : DatabaseManager) (msg : MessageData)
    (hlen : bm.messageBatch_.length < BATCH_SIZE) (hnow : now ≤ bm.lastBatchTime_ + 5) :
    bm.processUserMessage env sql upsertFails visit now db msg =
      (.returns (), { bm with messageBatch_ := bm.messageBatch_ ++ [msg] }, db, []) := by
  have h1 : ¬ bm.messageBatch_.length ≥ BATCH_SIZE := by omega
  have h2 : ¬ bm.lastBatchTime_ + 5 < now := by omega
  simp [StorageBot.BotManager.processUserMessage, StorageBot.circularPush, h1, h2]

/-- In `storage_bot_improved.cpp` a submission into a buffer of fewer than
`BATCH_SIZE` events, no later than five seconds after the last flush, appends
the event and calls nothing else. -/
theorem improved_submit_within_window (env : DbEnv) (sql : SqlEnv)
    (upsertFails : MessageData → Option String) (visit : GroupOrder) (now : Nat)
    (bm : Improved.BotManager)
    (buffer : Improved.BatchBuffer) (db : DatabaseManager) (msg : MessageData)
    (hlen : buffer.messageBatch_.length < BATCH_SIZE) (hnow : now ≤ buffer.lastBatchTime_ + 5) :
    bm.processUserMessage env sql upsertFails visit now buffer db msg =
      (.returns (), bm, { buffer with messageBatch_ := buffer.messageBatch_ ++ [msg] }, db, []) := by
  have h1 : ¬ buffer.messageBatch_.length ≥ BATCH_SIZE := by omega
  have h2 : ¬ buffer.lastBatchTime_ + 5 < now := by omega
  simp [Improved.BotManager.processUserMessage, h1, h2]

/-- In `storage_bot.cpp`, submissions that together fit into the buffer, all made
inside the five-second window, only append their events. -/
theorem storageBot_submitAll_within_window (env : DbEnv) (sql : SqlEnv)
    (upsertFails : MessageData → Option String) (visit : GroupOrder) (now : Nat)
    (db : DatabaseManager)
    (events : List MessageData) :
    ∀ bm : StorageBot.BotManager,
      bm.messageBatch_.length + events.length ≤ BATCH_SIZE → now ≤ bm.lastBatchTime_ + 5 →
      StorageBot.BotManager.submitAll env sql upsertFails visit now events bm db =
        (.returns (), { bm with messageBatch_ := bm.messageBatch_ ++ events }, db, []) := by
  induction events with
  | nil => intro bm _ _; simp [StorageBot.BotManager.submitAll]
  | cons msg rest ih =>
    intro bm hlen hnow
    have hlen1 : bm.messageBatch_.length < BATCH_SIZE := by
      simp only [List.length_cons] at hlen; omega
    have hrest :
        ({ bm with messageBatch_ := bm.messageBatch_ ++ [msg] } :
            StorageBot.BotManager).messageBatch_.length + rest.length ≤ BATCH_SIZE := by
      simp only [List.length_cons] at hlen
      simp only [List.length_append, List.length_singleton]; omega
    simp only [StorageBot.BotManager.submitAll,
      storageBot_submit_within_window env sql upsertFails visit now bm db msg hlen1 hnow,
      ih { bm with messageBatch_ := bm.messageBatch_ ++ [msg] } hrest hnow]
    simp [List.append_assoc]

/-- In `storage_bot_improved.cpp`, submissions that together stay within
`BATCH_SIZE` events, all made inside the five-second window, only append their
events. -/
theorem improved_submitAll_within_window (env : DbEnv) (sql : SqlEnv)
    (upsertFails : MessageData → Option String) (visit : GroupOrder) (now : Nat)
    (bm : Improved.BotManager)
    (db : DatabaseManager) (events : List MessageData) :
    ∀ buffer : Improved.BatchBuffer,
      buffer.messageBatch_.length + events.length ≤ BATCH_SIZE →
      now ≤ buffer.lastBatchTime_ + 5 →
      Improved.BotManager.submitAll env sql upsertFails visit now events bm buffer db =
        (.returns (), bm, { buffer with messageBatch_ := buffer.messageBatch_ ++ events },
          db, []) := by
  induction events with
  | nil => intro buffer _ _; simp [Improved.BotManager.submitAll]
  | cons msg rest ih =>
    intro buffer hlen hnow
    have hlen1 : buffer.messageBatch_.length < BATCH_SIZE := by
      simp only [List.length_cons] at hlen; omega
    have hrest :
        ({ buffer with messageBatch_ := buffer.messageBatch_ ++ [msg] } :
            Improved.BatchBuffer).messageBatch_.length + rest.length ≤ BATCH_SIZE := by
      simp only [List.length_cons] at hlen
      simp only [List.length_append, List.length_singleton]; omega
    simp only [Improved.BotManager.submitAll,
      improved_submit_within_window env sql upsertFails visit now bm buffer db msg hlen1 hnow,
      ih { buffer with messageBatch_ := buffer.messageBatch_ ++ [msg] } hrest hnow]
    simp [List.append_assoc]

/-- C24, `storage_bot.cpp` and `storage_bot_improved.cpp` evaluated on one hundred
submissions: one hundred submissions through `processUserMessage` that start from an empty
buffer and are all made at clock reading 3, the last flush being at 0, return
one after the other, the hundredth included, and leave the hundred events in
the buffer, the time of the last flush at 0, the registry and the pool as they
were and no statement issued: no `processBatch` has run on the events. -/
theorem hundred_submissions_flush_nothing (visit : GroupOrder) :
    StorageBot.BotManager.submitAll laterEnv noFailure (fun _ => none) visit 3 hundredEvents
        StorageBot.noneBuffered onePool =
      (.returns (), StorageBot.hundredBuffered, onePool, []) ∧
    Improved.BotManager.submitAll laterEnv noFailure (fun _ => none) visit 3 hundredEvents
        Improved.twoWorkers Improved.emptyBuffer onePool =
      (.returns (), Improved.twoWorkers, Improved.hundredBuffer, onePool, []) ∧
    StorageBot.hundredBuffered.messageBatch_.length = BATCH_SIZE ∧
    Improved.hundredBuffer.messageBatch_.length = BATCH_SIZE := by
  have hlen : hundredEvents.length = 100 := by
    simp only [hundredEvents, List.length_map, List.length_range]
  refine ⟨?_, ?_, ?_, ?_⟩
  · rw [storageBot_submitAll_within_window laterEnv noFailure (fun _ => none) visit 3 onePool
      hundredEvents StorageBot.noneBuffered
      (by simp [StorageBot.noneBuffered, hlen, BATCH_SIZE])
      (by simp [StorageBot.noneBuffered, StorageBot.oneBuffered])]
    simp [StorageBot.noneBuffered, StorageBot.hundredBuffered]
  · rw [improved_submitAll_within_window laterEnv noFailure (fun _ => none) visit 3
      Improved.twoWorkers onePool hundredEvents Improved.emptyBuffer
      (by simp [Improved.emptyBuffer, hlen, BATCH_SIZE])
      (by simp [Improved.emptyBuffer])]
    simp [Improved.emptyBuffer, Improved.hundredBuffer]
  · simp [StorageBot.hundredBuffered, hlen, BATCH_SIZE]
  · simp [Improved.hundredBuffer, hlen, BATCH_SIZE]

/-- In `storage_bot.cpp` a call of `processUserMessage` never returns exactly when it
reaches one of its two `processBatch()` calls: the buffer is full at entry, or
the last flush is more than five seconds old. -/
theorem storageBot_processUserMessage_blocks_iff (env : DbEnv) (sql : SqlEnv)
    (upsertFails : MessageData → Option String) (visit : GroupOrder) (now : Nat)
    (bm : StorageBot.BotManager)
    (db : DatabaseManager) (msg : MessageData) :
    (bm.processUserMessage env sql upsertFails visit now db msg).1 = .blocks ↔
      (BATCH_SIZE ≤ bm.messageBatch_.length ∨ bm.lastBatchTime_ + 5 < now) := by
  by_cases h1 : bm.messageBatch_.length ≥ BATCH_SIZE
  · simp [StorageBot.BotManager.processUserMessage, StorageBot.BotManager.callProcessBatch, h1]
  · by_cases h2 : bm.lastBatchTime_ + 5 < now
    · simp [StorageBot.BotManager.processUserMessage, StorageBot.BotManager.callProcessBatch,
        h1, h2]
    · simp [StorageBot.BotManager.processUserMessage, StorageBot.BotManager.callProcessBatch,
        h1, h2]

/-- In `storage_bot_improved.cpp` a call of `processUserMessage` never returns exactly
when it reaches one of its two `processBatch()` calls: the buffer holds at least
`BATCH_SIZE` events at entry, or the last flush is more than five seconds old. -/
theorem improved_processUserMessage_blocks_iff (env : DbEnv) (sql : SqlEnv)
    (upsertFails : MessageData → Option String) (visit : GroupOrder) (now : Nat)
    (bm : Improved.BotManager)
    (buffer : Improved.BatchBuffer) (db : DatabaseManager) (msg : MessageData) :
    (bm.processUserMessage env sql upsertFails visit now buffer db msg).1 = .blocks ↔
      (BATCH_SIZE ≤ buffer.messageBatch_.length ∨ buffer.lastBatchTime_ + 5 < now) := by
  by_cases h1 : buffer.messageBatch_.length ≥ BATCH_SIZE
  · simp [Improved.BotManager.processUserMessage, Improved.BotManager.callProcessBatch, h1]
  · by_cases h2 : buffer.lastBatchTime_ + 5 < now
    · simp [Improved.BotManager.processUserMessage, Improved.BotManager.callProcessBatch,
        h1, h2]
    · simp [Improved.BotManager.processUserMessage, Improved.BotManager.callProcessBatch,
        h1, h2]

/-- C28, `storage_bot.cpp` and `storage_bot_improved.cpp` evaluated on both flush
paths: `processUserMessage` calls `processBatch` while its `lock_guard` still owns
`batchMutex_`, so the call never gets past the lock at the head of
`processBatch`. With a full buffer the submission stops before its event is
stored; with a last flush more than five seconds old (clock reading 6, last
flush at 0) it stops after storing the event. Nothing is flushed either time. -/
theorem processUserMessage_flush_self_deadlocks (visit : GroupOrder) :
    StorageBot.hundredBuffered.processUserMessage laterEnv noFailure (fun _ => none) visit 3
        onePool ⟨"W1", 100, "a"⟩ =
      (.blocks, StorageBot.hundredBuffered, onePool, []) ∧
    StorageBot.oneBuffered.processUserMessage laterEnv noFailure (fun _ => none) visit 6
        onePool ⟨"W2", 2, "b"⟩ =
      (.blocks, StorageBot.twoBuffered, onePool, []) ∧
    Improved.twoWorkers.processUserMessage laterEnv noFailure (fun _ => none) visit 3
        Improved.hundredBuffer onePool ⟨"W1", 100, "a"⟩ =
      (.blocks, Improved.twoWorkers, Improved.hundredBuffer, onePool, []) ∧
    Improved.twoWorkers.processUserMessage laterEnv noFailure (fun _ => none) visit 6
        Improved.oneBuffer onePool ⟨"W2", 2, "b"⟩ =
      (.blocks, Improved.twoWorkers,
        { messageBatch_ := [⟨"W1", 1, "a"⟩, ⟨"W2", 2, "b"⟩], lastBatchTime_ := 0 }, onePool, []) := by
  have hlen : hundredEvents.length = 100 := by
    simp only [hundredEvents, List.length_map, List.length_range]
  refine ⟨?_, ?_, ?_, ?_⟩
  · simp [StorageBot.BotManager.processUserMessage, StorageBot.BotManager.callProcessBatch,
      StorageBot.hundredBuffered, hlen, BATCH_SIZE]
  · rfl
  · simp [Improved.BotManager.processUserMessage, Improved.BotManager.callProcessBatch,
      Improved.hundredBuffer, hlen, BATCH_SIZE]
  · rfl

/-! ## Shutdown of the optimized event batcher -/

/-- In the optimized variant `processBatch` leaves the queue and the shutdown flag
as they are. -/
theorem optimized_processBatch_keeps_queue (env : DbEnv) (sql : SqlEnv)
    (upsertFails : MessageData → Option String) (bm : Optimized.BotManager)
    (db : DatabaseManager) (batch : List MessageData) :
    (Optimized.BotManager.processBatch env sql upsertFails bm db batch).1.messageQueue_ =
        bm.messageQueue_ ∧
    (Optimized.BotManager.processBatch env sql upsertFails bm db batch).1.shutdownFlag_ =
        bm.shutdownFlag_ := by
  unfold Optimized.BotManager.processBatch
  split <;> simp

/-- A `shutdown` that finds the consumer at the loop test flushes nothing and leaves
the queue as it is, whatever is queued. -/
theorem optimized_shutdown_at_loop_test (env : DbEnv) (sql : SqlEnv)
    (upsertFails : MessageData → Option String) (bm : Optimized.BotManager)
    (db : DatabaseManager) :
    Optimized.BotManager.shutdown env sql upsertFails .loopTest bm db =
      ({ bm with shutdownFlag_ := true }, db, []) := by
  simp [Optimized.BotManager.shutdown, Optimized.BotManager.consumer]

/-- A `shutdown` that finds the consumer inside its timed wait, with between one
and `BATCH_SIZE` events queued, is followed by one flush of all of them, and
the queue is empty afterwards. -/
theorem optimized_shutdown_while_waiting (env : DbEnv) (sql : SqlEnv)
    (upsertFails : MessageData → Option String) (bm : Optimized.BotManager)
    (db : DatabaseManager) (hpos : 0 < bm.messageQueue_.length)
    (hlt : bm.messageQueue_.length ≤ BATCH_SIZE) :
    (Optimized.BotManager.shutdown env sql upsertFails .waiting bm db).2.2 =
        [bm.messageQueue_] ∧
    (Optimized.BotManager.shutdown env sql upsertFails .waiting bm db).1.messageQueue_ = [] := by
  have hd := drainQueue_eq_take_drop bm.messageQueue_ []
  simp only [List.length_nil, Nat.sub_zero, List.nil_append] at hd
  rw [List.take_of_length_le hlt, List.drop_of_length_le hlt] at hd
  have hne : bm.messageQueue_.isEmpty = false := by
    cases hq : bm.messageQueue_ with
    | nil => rw [hq] at hpos; simp at hpos
    | cons a l => rfl
  have hk := optimized_processBatch_keeps_queue env sql upsertFails
    { bm with shutdownFlag_ := true, messageQueue_ := [] } db bm.messageQueue_
  simp only [Optimized.BotManager.shutdown, Optimized.BotManager.consumer, hd, hne]
  rcases hp : Optimized.BotManager.processBatch env sql upsertFails
      { bm with shutdownFlag_ := true, messageQueue_ := [] } db bm.messageQueue_ with
    ⟨bm1, db1, issued, ok⟩
  rw [hp] at hk
  simp only at hk
  simp [hk.1, hk.2]

/-- C25, `storage_bot_optimized.cpp` evaluated at each point of the consumer:
`shutdown` called with one event queued (worker `W1` registered, every transaction succeeding). When
the consumer is inside its timed wait, the event is flushed once and the queue
is empty afterwards. When the consumer is at the loop test, `shutdown` returns
after no flush at all and the event is still queued. When the consumer is in
`processBatch` on an earlier batch, that batch is the only one flushed and the
event is still queued. -/
theorem shutdown_may_skip_final_flush :
    ((Optimized.BotManager.shutdown laterEnv noFailure (fun _ => none) .waiting
          Optimized.startedOneQueued onePool).2.2 = [[⟨"W1", 1, "a"⟩]] ∧
      (Optimized.BotManager.shutdown laterEnv noFailure (fun _ => none) .waiting
          Optimized.startedOneQueued onePool).1.messageQueue_ = []) ∧
    Optimized.BotManager.shutdown laterEnv noFailure (fun _ => none) .loopTest
        Optimized.startedOneQueued onePool =
      ({ Optimized.startedOneQueued with shutdownFlag_ := true }, onePool, []) ∧
    (Optimized.startedOneQueued.messageQueue_ = [⟨"W1", 1, "a"⟩] ∧
      Optimized.startedOneQueued.shutdownFlag_ = false) ∧
    ((Optimized.BotManager.shutdown laterEnv noFailure (fun _ => none)
          (.flushing [⟨"W1", 0, "z"⟩]) Optimized.startedOneQueued onePool).2.2 =
        [[⟨"W1", 0, "z"⟩]] ∧
      (Optimized.BotManager.shutdown laterEnv noFailure (fun _ => none)
          (.flushing [⟨"W1", 0, "z"⟩]) Optimized.startedOneQueued onePool).1.messageQueue_ =
        [⟨"W1", 1, "a"⟩]) := by
  refine ⟨⟨?_, ?_⟩, ?_, ⟨?_, ?_⟩, ⟨?_, ?_⟩⟩ <;> decide

end BotRepo
